import Mathlib

/-!
Verification of the hotplate steady-state heat-diffusion simulator.

The program simulates heat diffusion on a fixed 10×10 plate by Jacobi
relaxation: interior cells are repeatedly replaced by the average of their
four direct neighbours until no interior cell moves by more than a fixed
epsilon, or an iteration cap is hit.

The C++ `double` values are modelled as exact rationals (ℚ); a
`double[PLATE_SIZE][PLATE_SIZE]` array is modelled as a row-major
`List (List ℚ)` together with the well-formedness predicate `WFGrid`
stating that the grid is 10×10 (which the C++ array type guarantees).
Writing `a[i][j] = v` is modelled by `setCell`, reading by `getCell`.
File-system effects are modelled by explicit oracles: a `Bool` saying
whether `Hotplate.csv` could be opened for writing, and an
`Option (List ℚ)` holding the parsed contents of `Inputplate.txt`
(`none` when the file cannot be opened).  Console and file output are
modelled as explicit `String` values.
-/

attribute [local semireducible] Rat.add Rat.mul Rat.inv Rat.sub

/-- Length and width of the 2D array (`PLATE_SIZE` in main.cpp). -/
def PLATE_SIZE : Nat := 10

/-- Starting temperature for the top and bottom of the plate. -/
def INITIAL_TEMP : ℚ := 100

/-- Threshold at which the plate is still changing. -/
def HEAT_EPSILON : ℚ := 1/10

/-- Number of decimal places to use in output. -/
def OUTPUT_PRECISION : Nat := 3

/-- Width of each output field. -/
def OUTPUT_WIDTH : Nat := 9

/-- Iteration cap avoiding infinite loops. -/
def ITERATION_LIMIT : Nat := 999999

/-- Number of iterations required for the plate imported from text. -/
def DESIRED_ITERATIONS : Nat := 3

/-- A plate: row-major list of rows of rational temperatures, modelling
`double[PLATE_SIZE][PLATE_SIZE]`. -/
abbrev Grid := List (List ℚ)

/-- Reading `g[i][j]` (out-of-range reads default to 0; they never occur in
the modelled program because the C++ array is exactly 10×10). -/
def getCell (g : Grid) (i j : Nat) : ℚ := (g.getD i []).getD j 0

/-- Writing `g[i][j] = v`. -/
def setCell (g : Grid) (i j : Nat) (v : ℚ) : Grid :=
  g.set i ((g.getD i []).set j v)

/-- The shape invariant guaranteed by the C++ type
`double[PLATE_SIZE][PLATE_SIZE]`: ten rows of ten cells. -/
def WFGrid (g : Grid) : Prop :=
  g.length = PLATE_SIZE ∧ ∀ i < PLATE_SIZE, (g.getD i []).length = PLATE_SIZE

instance : DecidablePred WFGrid := by
  intro g
  unfold WFGrid
  infer_instance

/-- The common skeleton of the program's nested `for` loops: for each `i`
in `rows` and each `j` in `cols` (in order), execute `out[i][j] = f i j`.
`InitPlate`, `UpdateTemps`, `TransferValues` and the read loop of
`InitPlateFromTxt` are all loops of this shape. -/
def forEachCell (rows cols : List Nat) (f : Nat → Nat → ℚ) (g : Grid) : Grid :=
  rows.foldl (fun out i =>
    cols.foldl (fun out j => setCell out i j (f i j)) out) g

/-- The body of `InitPlate` (main.cpp lines 72-86): the nested loops write
every cell of the passed array, top and bottom rows get `INITIAL_TEMP`
except at the corners, and every other cell gets 0.  The argument is the
(arbitrary) prior contents of the array. -/
def initPlateLoop (passedHeatDist : Grid) : Grid :=
  forEachCell (List.range PLATE_SIZE) (List.range PLATE_SIZE)
    (fun i j =>
      if i = 0 ∨ i = PLATE_SIZE - 1 then
        if 0 < j ∧ j < PLATE_SIZE - 1 then INITIAL_TEMP else 0
      else 0) passedHeatDist

/-- A 10×10 grid of zeros, used as a concrete well-formed stand-in for the
uninitialized stack arrays declared in `main` (InitPlate overwrites every
cell, so the choice is irrelevant; see `initPlateLoop_spec`). -/
def blankGrid : Grid := List.replicate PLATE_SIZE (List.replicate PLATE_SIZE 0)

/-- The plate produced by `InitPlate` in `main`. -/
def initPlate : Grid := initPlateLoop blankGrid

/-- `UpdateTemps` (main.cpp lines 100-110): writes every interior cell of
the output array with the average of the four direct neighbours read from
the input array, and returns the updated output array. -/
def updateTemps (inputHeatDist outputHeatDist : Grid) : Grid :=
  forEachCell (List.range' 1 (PLATE_SIZE - 2)) (List.range' 1 (PLATE_SIZE - 2))
    (fun i j =>
      let topNeighbor := getCell inputHeatDist (i - 1) j
      let leftNeighbor := getCell inputHeatDist i (j - 1)
      let rightNeighbor := getCell inputHeatDist i (j + 1)
      let bottomNeighbor := getCell inputHeatDist (i + 1) j
      (topNeighbor + leftNeighbor + rightNeighbor + bottomNeighbor) / 4)
    outputHeatDist

/-- `StateChanged` (main.cpp lines 88-98): true when some interior cell
differs between the two arrays by more than `epsilonVal` in absolute
value.  `List.any` models the early-`return true` of the C++ loops. -/
def stateChanged (oldHeatArray newHeatDist : Grid) (epsilonVal : ℚ) : Bool :=
  (List.range' 1 (PLATE_SIZE - 2)).any (fun i =>
    (List.range' 1 (PLATE_SIZE - 2)).any (fun j =>
      |getCell newHeatDist i j - getCell oldHeatArray i j| > epsilonVal))

/-- `TransferValues` (main.cpp lines 112-118): copies all cells of the
source array over the destination array, cell by cell. -/
def transferValues (sourceArray destArray : Grid) : Grid :=
  forEachCell (List.range PLATE_SIZE) (List.range PLATE_SIZE)
    (fun i j => getCell sourceArray i j) destArray

/-- The do-while loop of `main` (lines 43-49), with explicit fuel.  The
state is (oldHeatDist, newHeatDist, iterationCount); the loop body updates
the temps, tests for steady state, promotes new to old, and increments the
counter, continuing while not steady and the counter is below
`ITERATION_LIMIT`.  Fuel `ITERATION_LIMIT` is enough for the fuel never to
run out (`driverLoop_exits`). -/
def driverLoop : Grid → Grid → Nat → Nat → Grid × Grid × Nat × Bool
  | oldG, newG, count, 0 => (oldG, newG, count, false)
  | oldG, newG, count, fuel + 1 =>
    let newG' := updateTemps oldG newG
    let steady := !(stateChanged oldG newG' HEAT_EPSILON)
    let oldG' := transferValues newG' oldG
    let count' := count + 1
    if steady = false ∧ count' < ITERATION_LIMIT then driverLoop oldG' newG' count' fuel
    else (oldG', newG', count', steady)

/-- The plate after the single explicit iteration at main.cpp line 36. -/
def newAfterFirst : Grid := updateTemps initPlate initPlate

/-- `oldHeatDist` after the copy-back at main.cpp line 39. -/
def oldAfterFirst : Grid := transferValues newAfterFirst initPlate

/-- The state after the steady-state do-while loop of `main`:
(oldHeatDist, newHeatDist, iterationCount, hasReachedSteadyState). -/
def steadyResult : Grid × Grid × Nat × Bool :=
  driverLoop oldAfterFirst newAfterFirst 1 ITERATION_LIMIT

/-- Left-pad a string with spaces to width `w` (the effect of `setw`):
shorter strings are padded up to `w`, longer strings are left as they are. -/
def padLeft (s : String) (w : Nat) : String :=
  String.mk (List.replicate (w - s.length) ' ') ++ s

/-- Zero-pad the fractional part (below 1000) to three digits. -/
def pad3 (k : Nat) : String :=
  if k < 10 then "00" ++ Nat.repr k
  else if k < 100 then "0" ++ Nat.repr k
  else Nat.repr k

/-- Rendering of one temperature under `fixed << setprecision(3)`:
sign, integer digits, a point, and exactly three fractional digits, the
value being rounded to the nearest thousandth.  (The C++ stream rounds the
exact binary value of the `double`; on our exact-rational model this is
idealized as exact rounding of the rational, which agrees on every value
the claims evaluate.) -/
def fmt3 (q : ℚ) : String :=
  let n : ℤ := round (q * 1000)
  let m : Nat := n.natAbs
  (if n < 0 then "-" else "") ++ Nat.repr (m / 1000) ++ "." ++ pad3 (m % 1000)

/-- One output field: `outputStream << setw(OUTPUT_WIDTH) << value`. -/
def field (q : ℚ) : String := padLeft (fmt3 q) OUTPUT_WIDTH

/-- `OutputPlate` (main.cpp lines 120-131) as the string written to the
stream: for each row, each cell is streamed `setw(OUTPUT_WIDTH)`-padded,
followed by a comma unless it is the last cell of the row, and each row is
ended by `endl`. -/
def outputPlate (passedHeatDist : Grid) : String :=
  (List.range PLATE_SIZE).foldl (fun acc i =>
    ((List.range PLATE_SIZE).foldl (fun acc j =>
      let acc := acc ++ field (getCell passedHeatDist i j)
      if j ≠ PLATE_SIZE - 1 then acc ++ "," else acc) acc) ++ "\n") ""

/-- `ExportPlateToCSV` (main.cpp lines 133-146).  The `Bool` oracle says
whether `Hotplate.csv` could be opened for writing.  Result: the returned
status code, the console diagnostics printed, and the contents written to
the file (`none` when it could not be opened). -/
def exportPlateToCSV (csvOpenOk : Bool) (passedHeatDist : Grid) :
    Nat × List String × Option String :=
  if csvOpenOk = false then (1, ["Could not open file Hotplate.csv"], none)
  else (0, [], some (outputPlate passedHeatDist))

/-- `InitPlateFromTxt` (main.cpp lines 148-164).  The oracle is the parsed
contents of `Inputplate.txt` (`none` when the file cannot be opened; the
`>>` extractions are modelled as reading the k-th value for cell k in
row-major order, defaulting to 0 past the end of the file as C++11 failed
extractions do).  Result: status code, the resulting array contents, and
the console diagnostics printed. -/
def initPlateFromTxt (inputTxt : Option (List ℚ)) (passedHeatDist : Grid) :
    Nat × Grid × List String :=
  match inputTxt with
  | none => (1, passedHeatDist, ["Could not open file numFile.txt."])
  | some vals =>
    (0,
     forEachCell (List.range PLATE_SIZE) (List.range PLATE_SIZE)
       (fun i j => vals.getD (i * PLATE_SIZE + j) 0) passedHeatDist,
     [])

/-- The fixed-count phase of `main` (lines 64-67): `DESIRED_ITERATIONS`
rounds of update-then-copy-back on the (old, new) pair. -/
def fixedIter : Nat → Grid → Grid → Grid × Grid
  | 0, oldG, newG => (oldG, newG)
  | n + 1, oldG, newG =>
    let newG' := updateTemps oldG newG
    fixedIter n (transferValues newG' oldG) newG'

/-- The file-system oracles `main` runs against. -/
structure Env where
  csvOpenOk : Bool
  inputTxt : Option (List ℚ)

/-- `main` (main.cpp lines 25-70): returns the process exit status and the
console lines printed, in order.  Plate renderings appear in the log as
single entries produced by `outputPlate`. -/
def mainRun (env : Env) : Nat × List String :=
  let log0 := ["Hotplate simulator", "Printing the initial plate values...",
    outputPlate initPlate, "Printing plate after one iteration...",
    outputPlate newAfterFirst]
  let r := driverLoop oldAfterFirst newAfterFirst 1 ITERATION_LIMIT
  let log1 := log0 ++ ["Printing final plate...", outputPlate r.2.1,
    "Writing final plate to \"Hotplate.csv\"..."]
  let ex := exportPlateToCSV env.csvOpenOk r.2.1
  let log2 := log1 ++ ex.2.1
  if ex.1 ≠ 0 then (1, log2 ++ ["Error occurred when writing to CSV"])
  else
    let t := initPlateFromTxt env.inputTxt r.1
    let p := fixedIter DESIRED_ITERATIONS t.2.1 r.2.1
    (0, log2 ++ t.2.2 ++ ["Printing input plate after 3 updates...",
      outputPlate p.1])


/-! ### A verified fast evaluator for the driver loop.

`driverLoop` over exact rationals is too expensive for kernel evaluation:
every cell picks up a factor-4 denominator per iteration and each `Rat`
operation renormalizes.  For the concrete convergence run the loop is
therefore refined to integer arithmetic: the grid is held as a flat
row-major list of integer numerators over a common denominator `S` (the
scale), which grows by a factor 4 per step, so a relaxation step is
integer addition only.  `driverLoop_zLoop` proves that this evaluator
returns exactly the iteration counter and steady flag of `driverLoop`. -/

/-- Numerator of cell (i,j) in a flat scaled grid. -/
def zCell (z : List ℤ) (i j : Nat) : ℤ := z.getD (i * PLATE_SIZE + j) 0

/-- One relaxation step on numerators: interior cells become the sum of
their four neighbours, border cells are multiplied by 4 — both relative to
the new scale `4*S`. -/
def zStep (z : List ℤ) : List ℤ :=
  (List.range (PLATE_SIZE * PLATE_SIZE)).map (fun idx =>
    let i := idx / PLATE_SIZE
    let j := idx % PLATE_SIZE
    if 1 ≤ i ∧ i ≤ 8 ∧ 1 ≤ j ∧ j ≤ 8 then
      zCell z (i - 1) j + zCell z i (j - 1) + zCell z i (j + 1) + zCell z (i + 1) j
    else 4 * zCell z i j)

/-- `StateChanged` on numerators: the old grid has scale `S4/4`, the new
grid scale `S4`, and `|new/S4 - old/(S4/4)| > 1/10` iff
`10*|new - 4*old| > S4` (the absolute value is taken with `Int.natAbs`,
which the kernel evaluates directly). -/
def zChanged (zOld zNew : List ℤ) (S4 : ℤ) : Bool :=
  (List.range' 1 (PLATE_SIZE - 2)).any (fun i =>
    (List.range' 1 (PLATE_SIZE - 2)).any (fun j =>
      10 * ((zCell zNew i j - 4 * zCell zOld i j).natAbs : ℤ) > S4))

/-- The driver loop on scaled integer grids, returning the final
iteration counter and steady flag. -/
def zLoop : List ℤ → ℤ → Nat → Nat → Nat × Bool
  | _, _, count, 0 => (count, false)
  | z, S, count, fuel + 1 =>
    let z' := zStep z
    let steady := !(zChanged z z' (4 * S))
    let count' := count + 1
    if steady = false ∧ count' < ITERATION_LIMIT then zLoop z' (4 * S) count' fuel
    else (count', steady)

/-- `newAfterFirst` as numerators over the scale 4. -/
def zInit : List ℤ :=
  [0, 400, 400, 400, 400, 400, 400, 400, 400, 0,
   0, 100, 100, 100, 100, 100, 100, 100, 100, 0,
   0, 0, 0, 0, 0, 0, 0, 0, 0, 0,
   0, 0, 0, 0, 0, 0, 0, 0, 0, 0,
   0, 0, 0, 0, 0, 0, 0, 0, 0, 0,
   0, 0, 0, 0, 0, 0, 0, 0, 0, 0,
   0, 0, 0, 0, 0, 0, 0, 0, 0, 0,
   0, 0, 0, 0, 0, 0, 0, 0, 0, 0,
   0, 100, 100, 100, 100, 100, 100, 100, 100, 0,
   0, 400, 400, 400, 400, 400, 400, 400, 400, 0]

/-! ### The concrete trajectory of the integer evaluator.

`zState{k}` is the scaled grid after `k` iterations (numerators over the
scale `4^k`), with `zInit = zState1`; they are certified below, one
relaxation step at a time, by the kernel. -/

def zState2 : List ℤ :=
  0 :: 1600 :: 1600 :: 1600 :: 1600 :: 1600 :: 1600 :: 1600 :: 1600 :: 0 :: 0 :: 500 :: 600 :: 600 :: 600 :: 600 :: 600 :: 600 :: 500 :: 0 :: 0 :: 100 :: 100 :: 100 :: 100 :: 100 :: 100 :: 100 :: 100 :: 0 :: 0 :: 0 :: 0 :: 0 :: 0 :: 0 :: 0 :: 0 :: 0 :: 0 :: 0 :: 0 :: 0 :: 0 :: 0 :: 0 :: 0 :: 0 :: 0 :: 0 :: 0 :: 0 :: 0 :: 0 :: 0 :: 0 :: 0 :: 0 :: 0 :: 0 :: 0 :: 0 :: 0 :: 0 :: 0 :: 0 :: 0 :: 0 :: 0 :: 0 :: 0 :: 100 :: 100 :: 100 :: 100 :: 100 :: 100 :: 100 :: 100 :: 0 :: 0 :: 500 :: 600 :: 600 :: 600 :: 600 :: 600 :: 600 :: 500 :: 0 :: 0 :: 1600 :: 1600 :: 1600 :: 1600 :: 1600 :: 1600 :: 1600 :: 1600 :: 0 :: []

def zState3 : List ℤ :=
  0 :: 6400 :: 6400 :: 6400 :: 6400 :: 6400 :: 6400 :: 6400 :: 6400 :: 0 :: 0 :: 2300 :: 2800 :: 2900 :: 2900 :: 2900 :: 2900 :: 2800 :: 2300 :: 0 :: 0 :: 600 :: 800 :: 800 :: 800 :: 800 :: 800 :: 800 :: 600 :: 0 :: 0 :: 100 :: 100 :: 100 :: 100 :: 100 :: 100 :: 100 :: 100 :: 0 :: 0 :: 0 :: 0 :: 0 :: 0 :: 0 :: 0 :: 0 :: 0 :: 0 :: 0 :: 0 :: 0 :: 0 :: 0 :: 0 :: 0 :: 0 :: 0 :: 0 :: 0 :: 100 :: 100 :: 100 :: 100 :: 100 :: 100 :: 100 :: 100 :: 0 :: 0 :: 600 :: 800 :: 800 :: 800 :: 800 :: 800 :: 800 :: 600 :: 0 :: 0 :: 2300 :: 2800 :: 2900 :: 2900 :: 2900 :: 2900 :: 2800 :: 2300 :: 0 :: 0 :: 6400 :: 6400 :: 6400 :: 6400 :: 6400 :: 6400 :: 6400 :: 6400 :: 0 :: []

def zState4 : List ℤ :=
  0 :: 25600 :: 25600 :: 25600 :: 25600 :: 25600 :: 25600 :: 25600 :: 25600 :: 0 :: 0 :: 9800 :: 12400 :: 12900 :: 13000 :: 13000 :: 12900 :: 12400 :: 9800 :: 0 :: 0 :: 3200 :: 4300 :: 4600 :: 4600 :: 4600 :: 4600 :: 4300 :: 3200 :: 0 :: 0 :: 700 :: 1000 :: 1000 :: 1000 :: 1000 :: 1000 :: 1000 :: 700 :: 0 :: 0 :: 100 :: 100 :: 100 :: 100 :: 100 :: 100 :: 100 :: 100 :: 0 :: 0 :: 100 :: 100 :: 100 :: 100 :: 100 :: 100 :: 100 :: 100 :: 0 :: 0 :: 700 :: 1000 :: 1000 :: 1000 :: 1000 :: 1000 :: 1000 :: 700 :: 0 :: 0 :: 3200 :: 4300 :: 4600 :: 4600 :: 4600 :: 4600 :: 4300 :: 3200 :: 0 :: 0 :: 9800 :: 12400 :: 12900 :: 13000 :: 13000 :: 12900 :: 12400 :: 9800 :: 0 :: 0 :: 25600 :: 25600 :: 25600 :: 25600 :: 25600 :: 25600 :: 25600 :: 25600 :: 0 :: []

def zState5 : List ℤ :=
  0 :: 102400 :: 102400 :: 102400 :: 102400 :: 102400 :: 102400 :: 102400 :: 102400 :: 0 :: 0 :: 41200 :: 52600 :: 55600 :: 56100 :: 56100 :: 55600 :: 52600 :: 41200 :: 0 :: 0 :: 14800 :: 21200 :: 22800 :: 23200 :: 23200 :: 22800 :: 21200 :: 14800 :: 0 :: 0 :: 4300 :: 6100 :: 6700 :: 6700 :: 6700 :: 6700 :: 6100 :: 4300 :: 0 :: 0 :: 900 :: 1300 :: 1300 :: 1300 :: 1300 :: 1300 :: 1300 :: 900 :: 0 :: 0 :: 900 :: 1300 :: 1300 :: 1300 :: 1300 :: 1300 :: 1300 :: 900 :: 0 :: 0 :: 4300 :: 6100 :: 6700 :: 6700 :: 6700 :: 6700 :: 6100 :: 4300 :: 0 :: 0 :: 14800 :: 21200 :: 22800 :: 23200 :: 23200 :: 22800 :: 21200 :: 14800 :: 0 :: 0 :: 41200 :: 52600 :: 55600 :: 56100 :: 56100 :: 55600 :: 52600 :: 41200 :: 0 :: 0 :: 102400 :: 102400 :: 102400 :: 102400 :: 102400 :: 102400 :: 102400 :: 102400 :: 0 :: []

def zState6 : List ℤ :=
  0 :: 409600 :: 409600 :: 409600 :: 409600 :: 409600 :: 409600 :: 409600 :: 409600 :: 0 :: 0 :: 169800 :: 220400 :: 233900 :: 237300 :: 237300 :: 233900 :: 220400 :: 169800 :: 0 :: 0 :: 66700 :: 96300 :: 106700 :: 108800 :: 108800 :: 106700 :: 96300 :: 66700 :: 0 :: 0 :: 21800 :: 33500 :: 36900 :: 37900 :: 37900 :: 36900 :: 33500 :: 21800 :: 0 :: 0 :: 6500 :: 9600 :: 10600 :: 10600 :: 10600 :: 10600 :: 9600 :: 6500 :: 0 :: 0 :: 6500 :: 9600 :: 10600 :: 10600 :: 10600 :: 10600 :: 9600 :: 6500 :: 0 :: 0 :: 21800 :: 33500 :: 36900 :: 37900 :: 37900 :: 36900 :: 33500 :: 21800 :: 0 :: 0 :: 66700 :: 96300 :: 106700 :: 108800 :: 108800 :: 106700 :: 96300 :: 66700 :: 0 :: 0 :: 169800 :: 220400 :: 233900 :: 237300 :: 237300 :: 233900 :: 220400 :: 169800 :: 0 :: 0 :: 409600 :: 409600 :: 409600 :: 409600 :: 409600 :: 409600 :: 409600 :: 409600 :: 0 :: []

def zState7 : List ℤ :=
  0 :: 1638400 :: 1638400 :: 1638400 :: 1638400 :: 1638400 :: 1638400 :: 1638400 :: 1638400 :: 0 :: 0 :: 696700 :: 909600 :: 974000 :: 989600 :: 989600 :: 974000 :: 909600 :: 696700 :: 0 :: 0 :: 287900 :: 427300 :: 475900 :: 490700 :: 490700 :: 475900 :: 427300 :: 287900 :: 0 :: 0 :: 106700 :: 164600 :: 188700 :: 194200 :: 194200 :: 188700 :: 164600 :: 106700 :: 0 :: 0 :: 37900 :: 60200 :: 67700 :: 69700 :: 69700 :: 67700 :: 60200 :: 37900 :: 0 :: 0 :: 37900 :: 60200 :: 67700 :: 69700 :: 69700 :: 67700 :: 60200 :: 37900 :: 0 :: 0 :: 106700 :: 164600 :: 188700 :: 194200 :: 194200 :: 188700 :: 164600 :: 106700 :: 0 :: 0 :: 287900 :: 427300 :: 475900 :: 490700 :: 490700 :: 475900 :: 427300 :: 287900 :: 0 :: 0 :: 696700 :: 909600 :: 974000 :: 989600 :: 989600 :: 974000 :: 909600 :: 696700 :: 0 :: 0 :: 1638400 :: 1638400 :: 1638400 :: 1638400 :: 1638400 :: 1638400 :: 1638400 :: 1638400 :: 0 :: []

def zState8 : List ℤ :=
  0 :: 6553600 :: 6553600 :: 6553600 :: 6553600 :: 6553600 :: 6553600 :: 6553600 :: 6553600 :: 0 :: 0 :: 2835900 :: 3736400 :: 4013500 :: 4092700 :: 4092700 :: 4013500 :: 3736400 :: 2835900 :: 0 :: 0 :: 1230700 :: 1838000 :: 2080700 :: 2150400 :: 2150400 :: 2080700 :: 1838000 :: 1230700 :: 0 :: 0 :: 490400 :: 782900 :: 902400 :: 943300 :: 943300 :: 902400 :: 782900 :: 490400 :: 0 :: 0 :: 204800 :: 330400 :: 386300 :: 401300 :: 401300 :: 386300 :: 330400 :: 204800 :: 0 :: 0 :: 204800 :: 330400 :: 386300 :: 401300 :: 401300 :: 386300 :: 330400 :: 204800 :: 0 :: 0 :: 490400 :: 782900 :: 902400 :: 943300 :: 943300 :: 902400 :: 782900 :: 490400 :: 0 :: 0 :: 1230700 :: 1838000 :: 2080700 :: 2150400 :: 2150400 :: 2080700 :: 1838000 :: 1230700 :: 0 :: 0 :: 2835900 :: 3736400 :: 4013500 :: 4092700 :: 4092700 :: 4013500 :: 3736400 :: 2835900 :: 0 :: 0 :: 6553600 :: 6553600 :: 6553600 :: 6553600 :: 6553600 :: 6553600 :: 6553600 :: 6553600 :: 0 :: []

def zState9 : List ℤ :=
  0 :: 26214400 :: 26214400 :: 26214400 :: 26214400 :: 26214400 :: 26214400 :: 26214400 :: 26214400 :: 0 :: 0 :: 11520700 :: 15241000 :: 16463400 :: 16810200 :: 16810200 :: 16463400 :: 15241000 :: 11520700 :: 0 :: 0 :: 5164300 :: 7830700 :: 8904300 :: 9267100 :: 9267100 :: 8904300 :: 7830700 :: 5164300 :: 0 :: 0 :: 2218400 :: 3561200 :: 4193200 :: 4397400 :: 4397400 :: 4193200 :: 3561200 :: 2218400 :: 0 :: 0 :: 1025600 :: 1704400 :: 2020400 :: 2132200 :: 2132200 :: 2020400 :: 1704400 :: 1025600 :: 0 :: 0 :: 1025600 :: 1704400 :: 2020400 :: 2132200 :: 2132200 :: 2020400 :: 1704400 :: 1025600 :: 0 :: 0 :: 2218400 :: 3561200 :: 4193200 :: 4397400 :: 4397400 :: 4193200 :: 3561200 :: 2218400 :: 0 :: 0 :: 5164300 :: 7830700 :: 8904300 :: 9267100 :: 9267100 :: 8904300 :: 7830700 :: 5164300 :: 0 :: 0 :: 11520700 :: 15241000 :: 16463400 :: 16810200 :: 16810200 :: 16463400 :: 15241000 :: 11520700 :: 0 :: 0 :: 26214400 :: 26214400 :: 26214400 :: 26214400 :: 26214400 :: 26214400 :: 26214400 :: 26214400 :: 0 :: []

def zState10 : List ℤ :=
  0 :: 104857600 :: 104857600 :: 104857600 :: 104857600 :: 104857600 :: 104857600 :: 104857600 :: 104857600 :: 0 :: 0 :: 46619700 :: 62029200 :: 67169900 :: 68755100 :: 68755100 :: 67169900 :: 62029200 :: 46619700 :: 0 :: 0 :: 21569800 :: 32870800 :: 37754400 :: 39379000 :: 39379000 :: 37754400 :: 32870800 :: 21569800 :: 0 :: 0 :: 9751100 :: 15946700 :: 18883300 :: 19989900 :: 19989900 :: 18883300 :: 15946700 :: 9751100 :: 0 :: 0 :: 4948400 :: 8311600 :: 10050200 :: 10682200 :: 10682200 :: 10050200 :: 8311600 :: 4948400 :: 0 :: 0 :: 4948400 :: 8311600 :: 10050200 :: 10682200 :: 10682200 :: 10050200 :: 8311600 :: 4948400 :: 0 :: 0 :: 9751100 :: 15946700 :: 18883300 :: 19989900 :: 19989900 :: 18883300 :: 15946700 :: 9751100 :: 0 :: 0 :: 21569800 :: 32870800 :: 37754400 :: 39379000 :: 39379000 :: 37754400 :: 32870800 :: 21569800 :: 0 :: 0 :: 46619700 :: 62029200 :: 67169900 :: 68755100 :: 68755100 :: 67169900 :: 62029200 :: 46619700 :: 0 :: 0 :: 104857600 :: 104857600 :: 104857600 :: 104857600 :: 104857600 :: 104857600 :: 104857600 :: 104857600 :: 0 :: []

def zState11 : List ℤ :=
  0 :: 419430400 :: 419430400 :: 419430400 :: 419430400 :: 419430400 :: 419430400 :: 419430400 :: 419430400 :: 0 :: 0 :: 188456600 :: 251518000 :: 273396300 :: 280161600 :: 280161600 :: 273396300 :: 251518000 :: 188456600 :: 0 :: 0 :: 89241600 :: 137300100 :: 158303000 :: 165878400 :: 165878400 :: 158303000 :: 137300100 :: 89241600 :: 0 :: 0 :: 42464900 :: 69816800 :: 83741200 :: 88934400 :: 88934400 :: 83741200 :: 69816800 :: 42464900 :: 0 :: 0 :: 23011100 :: 39256900 :: 47927300 :: 51404500 :: 51404500 :: 47927300 :: 39256900 :: 23011100 :: 0 :: 0 :: 23011100 :: 39256900 :: 47927300 :: 51404500 :: 51404500 :: 47927300 :: 39256900 :: 23011100 :: 0 :: 0 :: 42464900 :: 69816800 :: 83741200 :: 88934400 :: 88934400 :: 83741200 :: 69816800 :: 42464900 :: 0 :: 0 :: 89241600 :: 137300100 :: 158303000 :: 165878400 :: 165878400 :: 158303000 :: 137300100 :: 89241600 :: 0 :: 0 :: 188456600 :: 251518000 :: 273396300 :: 280161600 :: 280161600 :: 273396300 :: 251518000 :: 188456600 :: 0 :: 0 :: 419430400 :: 419430400 :: 419430400 :: 419430400 :: 419430400 :: 419430400 :: 419430400 :: 419430400 :: 0 :: []

def zState12 : List ℤ :=
  0 :: 1677721600 :: 1677721600 :: 1677721600 :: 1677721600 :: 1677721600 :: 1677721600 :: 1677721600 :: 1677721600 :: 0 :: 0 :: 760190000 :: 1018583400 :: 1109413000 :: 1138866700 :: 1138866700 :: 1109413000 :: 1018583400 :: 760190000 :: 0 :: 0 :: 368221600 :: 568879400 :: 660316000 :: 693277400 :: 693277400 :: 660316000 :: 568879400 :: 368221600 :: 0 :: 0 :: 182069500 :: 302763100 :: 364981500 :: 389958500 :: 389958500 :: 364981500 :: 302763100 :: 182069500 :: 0 :: 0 :: 104732900 :: 180012100 :: 222329900 :: 239670700 :: 239670700 :: 222329900 :: 180012100 :: 104732900 :: 0 :: 0 :: 104732900 :: 180012100 :: 222329900 :: 239670700 :: 239670700 :: 222329900 :: 180012100 :: 104732900 :: 0 :: 0 :: 182069500 :: 302763100 :: 364981500 :: 389958500 :: 389958500 :: 364981500 :: 302763100 :: 182069500 :: 0 :: 0 :: 368221600 :: 568879400 :: 660316000 :: 693277400 :: 693277400 :: 660316000 :: 568879400 :: 368221600 :: 0 :: 0 :: 760190000 :: 1018583400 :: 1109413000 :: 1138866700 :: 1138866700 :: 1109413000 :: 1018583400 :: 760190000 :: 0 :: 0 :: 1677721600 :: 1677721600 :: 1677721600 :: 1677721600 :: 1677721600 :: 1677721600 :: 1677721600 :: 1677721600 :: 0 :: []

def zState13 : List ℤ :=
  0 :: 6710886400 :: 6710886400 :: 6710886400 :: 6710886400 :: 6710886400 :: 6710886400 :: 6710886400 :: 6710886400 :: 0 :: 0 :: 3064526600 :: 4116204000 :: 4495487700 :: 4619278700 :: 4619278700 :: 4495487700 :: 4116204000 :: 3064526600 :: 0 :: 0 :: 1511138900 :: 2349884100 :: 2736551300 :: 2882418600 :: 2882418600 :: 2736551300 :: 2349884100 :: 1511138900 :: 0 :: 0 :: 775717600 :: 1295942500 :: 1575367500 :: 1687888100 :: 1687888100 :: 1575367500 :: 1295942500 :: 775717600 :: 0 :: 0 :: 466814500 :: 809838000 :: 1006994200 :: 1091629800 :: 1091629800 :: 1006994200 :: 809838000 :: 466814500 :: 0 :: 0 :: 466814500 :: 809838000 :: 1006994200 :: 1091629800 :: 1091629800 :: 1006994200 :: 809838000 :: 466814500 :: 0 :: 0 :: 775717600 :: 1295942500 :: 1575367500 :: 1687888100 :: 1687888100 :: 1575367500 :: 1295942500 :: 775717600 :: 0 :: 0 :: 1511138900 :: 2349884100 :: 2736551300 :: 2882418600 :: 2882418600 :: 2736551300 :: 2349884100 :: 1511138900 :: 0 :: 0 :: 3064526600 :: 4116204000 :: 4495487700 :: 4619278700 :: 4619278700 :: 4495487700 :: 4116204000 :: 3064526600 :: 0 :: 0 :: 6710886400 :: 6710886400 :: 6710886400 :: 6710886400 :: 6710886400 :: 6710886400 :: 6710886400 :: 6710886400 :: 0 :: []

def zState14 : List ℤ :=
  0 :: 26843545600 :: 26843545600 :: 26843545600 :: 26843545600 :: 26843545600 :: 26843545600 :: 26843545600 :: 26843545600 :: 0 :: 0 :: 12338229300 :: 16620784800 :: 18182920400 :: 18708071400 :: 18708071400 :: 18182920400 :: 16620784800 :: 12338229300 :: 0 :: 0 :: 6190128300 :: 9659836700 :: 11303157900 :: 11926136700 :: 11926136700 :: 11303157900 :: 9659836700 :: 6190128300 :: 0 :: 0 :: 3273895900 :: 5510807200 :: 6727376100 :: 7237304000 :: 7237304000 :: 6727376100 :: 5510807200 :: 3273895900 :: 0 :: 0 :: 2052370100 :: 3579589200 :: 4483829500 :: 4878141900 :: 4878141900 :: 4483829500 :: 3579589200 :: 2052370100 :: 0 :: 0 :: 2052370100 :: 3579589200 :: 4483829500 :: 4878141900 :: 4878141900 :: 4483829500 :: 3579589200 :: 2052370100 :: 0 :: 0 :: 3273895900 :: 5510807200 :: 6727376100 :: 7237304000 :: 7237304000 :: 6727376100 :: 5510807200 :: 3273895900 :: 0 :: 0 :: 6190128300 :: 9659836700 :: 11303157900 :: 11926136700 :: 11926136700 :: 11303157900 :: 9659836700 :: 6190128300 :: 0 :: 0 :: 12338229300 :: 16620784800 :: 18182920400 :: 18708071400 :: 18708071400 :: 18182920400 :: 16620784800 :: 12338229300 :: 0 :: 0 :: 26843545600 :: 26843545600 :: 26843545600 :: 26843545600 :: 26843545600 :: 26843545600 :: 26843545600 :: 26843545600 :: 0 :: []

def zState15 : List ℤ :=
  0 :: 107374182400 :: 107374182400 :: 107374182400 :: 107374182400 :: 107374182400 :: 107374182400 :: 107374182400 :: 107374182400 :: 0 :: 0 :: 49654458700 :: 67024532000 :: 73475559700 :: 75660674100 :: 75660674100 :: 73475559700 :: 67024532000 :: 49654458700 :: 0 :: 0 :: 25271961900 :: 39624878200 :: 46496269900 :: 49174670000 :: 49174670000 :: 46496269900 :: 39624878200 :: 25271961900 :: 0 :: 0 :: 13753305600 :: 23240697900 :: 28535098600 :: 30768958700 :: 30768958700 :: 28535098600 :: 23240697900 :: 13753305600 :: 0 :: 0 :: 8905855200 :: 15626596000 :: 19668936700 :: 21477417300 :: 21477417300 :: 19668936700 :: 15626596000 :: 8905855200 :: 0 :: 0 :: 8905855200 :: 15626596000 :: 19668936700 :: 21477417300 :: 21477417300 :: 19668936700 :: 15626596000 :: 8905855200 :: 0 :: 0 :: 13753305600 :: 23240697900 :: 28535098600 :: 30768958700 :: 30768958700 :: 28535098600 :: 23240697900 :: 13753305600 :: 0 :: 0 :: 25271961900 :: 39624878200 :: 46496269900 :: 49174670000 :: 49174670000 :: 46496269900 :: 39624878200 :: 25271961900 :: 0 :: 0 :: 49654458700 :: 67024532000 :: 73475559700 :: 75660674100 :: 75660674100 :: 73475559700 :: 67024532000 :: 49654458700 :: 0 :: 0 :: 107374182400 :: 107374182400 :: 107374182400 :: 107374182400 :: 107374182400 :: 107374182400 :: 107374182400 :: 107374182400 :: 0 :: []

def zState16 : List ℤ :=
  0 :: 429496729600 :: 429496729600 :: 429496729600 :: 429496729600 :: 429496729600 :: 429496729600 :: 429496729600 :: 429496729600 :: 0 :: 0 :: 199670676300 :: 270129079000 :: 296555658400 :: 305685086200 :: 305685086200 :: 296555658400 :: 270129079000 :: 199670676300 :: 0 :: 0 :: 103032642500 :: 162033461700 :: 190810206500 :: 202100572700 :: 202100572700 :: 190810206500 :: 162033461700 :: 103032642500 :: 0 :: 0 :: 57418515000 :: 97539878400 :: 120174863200 :: 129956144600 :: 129956144600 :: 120174863200 :: 97539878400 :: 57418515000 :: 0 :: 0 :: 38285756800 :: 67442085800 :: 85308048600 :: 93392730000 :: 93392730000 :: 85308048600 :: 67442085800 :: 38285756800 :: 0 :: 0 :: 38285756800 :: 67442085800 :: 85308048600 :: 93392730000 :: 93392730000 :: 85308048600 :: 67442085800 :: 38285756800 :: 0 :: 0 :: 57418515000 :: 97539878400 :: 120174863200 :: 129956144600 :: 129956144600 :: 120174863200 :: 97539878400 :: 57418515000 :: 0 :: 0 :: 103032642500 :: 162033461700 :: 190810206500 :: 202100572700 :: 202100572700 :: 190810206500 :: 162033461700 :: 103032642500 :: 0 :: 0 :: 199670676300 :: 270129079000 :: 296555658400 :: 305685086200 :: 305685086200 :: 296555658400 :: 270129079000 :: 199670676300 :: 0 :: 0 :: 429496729600 :: 429496729600 :: 429496729600 :: 429496729600 :: 429496729600 :: 429496729600 :: 429496729600 :: 429496729600 :: 0 :: []

def zState17 : List ℤ :=
  0 :: 1717986918400 :: 1717986918400 :: 1717986918400 :: 1717986918400 :: 1717986918400 :: 1717986918400 :: 1717986918400 :: 1717986918400 :: 0 :: 0 :: 802658451100 :: 1087756526000 :: 1196121101300 :: 1233838046900 :: 1233838046900 :: 1196121101300 :: 1087756526000 :: 802658451100 :: 0 :: 0 :: 419122653000 :: 661511806400 :: 780864556000 :: 828552010000 :: 828552010000 :: 780864556000 :: 661511806400 :: 419122653000 :: 0 :: 0 :: 238858277700 :: 407068925700 :: 503614278100 :: 545624310500 :: 545624310500 :: 503614278100 :: 407068925700 :: 238858277700 :: 0 :: 0 :: 163146357600 :: 288575769600 :: 366317727600 :: 402049653200 :: 402049653200 :: 366317727600 :: 288575769600 :: 163146357600 :: 0 :: 0 :: 163146357600 :: 288575769600 :: 366317727600 :: 402049653200 :: 402049653200 :: 366317727600 :: 288575769600 :: 163146357600 :: 0 :: 0 :: 238858277700 :: 407068925700 :: 503614278100 :: 545624310500 :: 545624310500 :: 503614278100 :: 407068925700 :: 238858277700 :: 0 :: 0 :: 419122653000 :: 661511806400 :: 780864556000 :: 828552010000 :: 828552010000 :: 780864556000 :: 661511806400 :: 419122653000 :: 0 :: 0 :: 802658451100 :: 1087756526000 :: 1196121101300 :: 1233838046900 :: 1233838046900 :: 1196121101300 :: 1087756526000 :: 802658451100 :: 0 :: 0 :: 1717986918400 :: 1717986918400 :: 1717986918400 :: 1717986918400 :: 1717986918400 :: 1717986918400 :: 1717986918400 :: 1717986918400 :: 0 :: []

def zState18 : List ℤ :=
  0 :: 6871947673600 :: 6871947673600 :: 6871947673600 :: 6871947673600 :: 6871947673600 :: 6871947673600 :: 6871947673600 :: 6871947673600 :: 0 :: 0 :: 3224866097400 :: 4378278277200 :: 4820446047300 :: 4976498076600 :: 4976498076600 :: 4820446047300 :: 4378278277200 :: 3224866097400 :: 0 :: 0 :: 1703028535200 :: 2694812660700 :: 3189799195800 :: 3388878923400 :: 3388878923400 :: 3189799195800 :: 2694812660700 :: 1703028535200 :: 0 :: 0 :: 989337936300 :: 1692560131800 :: 2099875519800 :: 2279840251800 :: 2279840251800 :: 2099875519800 :: 1692560131800 :: 989337936300 :: 0 :: 0 :: 690580404900 :: 1225108780500 :: 1560557428500 :: 1716041344500 :: 1716041344500 :: 1560557428500 :: 1225108780500 :: 690580404900 :: 0 :: 0 :: 690580404900 :: 1225108780500 :: 1560557428500 :: 1716041344500 :: 1716041344500 :: 1560557428500 :: 1225108780500 :: 690580404900 :: 0 :: 0 :: 989337936300 :: 1692560131800 :: 2099875519800 :: 2279840251800 :: 2279840251800 :: 2099875519800 :: 1692560131800 :: 989337936300 :: 0 :: 0 :: 1703028535200 :: 2694812660700 :: 3189799195800 :: 3388878923400 :: 3388878923400 :: 3189799195800 :: 2694812660700 :: 1703028535200 :: 0 :: 0 :: 3224866097400 :: 4378278277200 :: 4820446047300 :: 4976498076600 :: 4976498076600 :: 4820446047300 :: 4378278277200 :: 3224866097400 :: 0 :: 0 :: 6871947673600 :: 6871947673600 :: 6871947673600 :: 6871947673600 :: 6871947673600 :: 6871947673600 :: 6871947673600 :: 6871947673600 :: 0 :: []

def zState19 : List ℤ :=
  0 :: 27487790694400 :: 27487790694400 :: 27487790694400 :: 27487790694400 :: 27487790694400 :: 27487790694400 :: 27487790694400 :: 27487790694400 :: 0 :: 0 :: 12953254486000 :: 17612072479000 :: 19416523223200 :: 20057770720900 :: 20057770720900 :: 19416523223200 :: 17612072479000 :: 12953254486000 :: 0 :: 0 :: 6909016694400 :: 10963666140000 :: 13004013151200 :: 13835016447600 :: 13835016447600 :: 13004013151200 :: 10963666140000 :: 6909016694400 :: 0 :: 0 :: 4086169071900 :: 7009134897300 :: 8722757007900 :: 9484636039500 :: 9484636039500 :: 8722757007900 :: 7009134897300 :: 4086169071900 :: 0 :: 0 :: 2905027121700 :: 5168806745700 :: 6601583073300 :: 7272480369300 :: 7272480369300 :: 6601583073300 :: 5168806745700 :: 2905027121700 :: 0 :: 0 :: 2905027121700 :: 5168806745700 :: 6601583073300 :: 7272480369300 :: 7272480369300 :: 6601583073300 :: 5168806745700 :: 2905027121700 :: 0 :: 0 :: 4086169071900 :: 7009134897300 :: 8722757007900 :: 9484636039500 :: 9484636039500 :: 8722757007900 :: 7009134897300 :: 4086169071900 :: 0 :: 0 :: 6909016694400 :: 10963666140000 :: 13004013151200 :: 13835016447600 :: 13835016447600 :: 13004013151200 :: 10963666140000 :: 6909016694400 :: 0 :: 0 :: 12953254486000 :: 17612072479000 :: 19416523223200 :: 20057770720900 :: 20057770720900 :: 19416523223200 :: 17612072479000 :: 12953254486000 :: 0 :: 0 :: 27487790694400 :: 27487790694400 :: 27487790694400 :: 27487790694400 :: 27487790694400 :: 27487790694400 :: 27487790694400 :: 27487790694400 :: 0 :: []

def zState20 : List ℤ :=
  0 :: 109951162777600 :: 109951162777600 :: 109951162777600 :: 109951162777600 :: 109951162777600 :: 109951162777600 :: 109951162777600 :: 109951162777600 :: 0 :: 0 :: 52008879867800 :: 70821234543600 :: 78161647045500 :: 80797101086100 :: 80797101086100 :: 78161647045500 :: 70821234543600 :: 52008879867800 :: 0 :: 0 :: 28003089697900 :: 44534237221900 :: 52937962818700 :: 56381436359200 :: 56381436359200 :: 52937962818700 :: 44534237221900 :: 28003089697900 :: 0 :: 0 :: 16823178713400 :: 28941398965500 :: 36099367161300 :: 39314889864300 :: 39314889864300 :: 36099367161300 :: 28941398965500 :: 16823178713400 :: 0 :: 0 :: 12160002939300 :: 21684551838000 :: 27765627196200 :: 30631179851400 :: 30631179851400 :: 27765627196200 :: 21684551838000 :: 12160002939300 :: 0 :: 0 :: 12160002939300 :: 21684551838000 :: 27765627196200 :: 30631179851400 :: 30631179851400 :: 27765627196200 :: 21684551838000 :: 12160002939300 :: 0 :: 0 :: 16823178713400 :: 28941398965500 :: 36099367161300 :: 39314889864300 :: 39314889864300 :: 36099367161300 :: 28941398965500 :: 16823178713400 :: 0 :: 0 :: 28003089697900 :: 44534237221900 :: 52937962818700 :: 56381436359200 :: 56381436359200 :: 52937962818700 :: 44534237221900 :: 28003089697900 :: 0 :: 0 :: 52008879867800 :: 70821234543600 :: 78161647045500 :: 80797101086100 :: 80797101086100 :: 78161647045500 :: 70821234543600 :: 52008879867800 :: 0 :: 0 :: 109951162777600 :: 109951162777600 :: 109951162777600 :: 109951162777600 :: 109951162777600 :: 109951162777600 :: 109951162777600 :: 109951162777600 :: 0 :: []

def zState21 : List ℤ :=
  0 :: 439804651110400 :: 439804651110400 :: 439804651110400 :: 439804651110400 :: 439804651110400 :: 439804651110400 :: 439804651110400 :: 439804651110400 :: 0 :: 0 :: 208775487019100 :: 284655926912800 :: 314507461226000 :: 325291347268400 :: 325291347268400 :: 314507461226000 :: 284655926912800 :: 208775487019100 :: 0 :: 0 :: 113366295803100 :: 180703686025700 :: 215176687787900 :: 229431390128300 :: 229431390128300 :: 215176687787900 :: 180703686025700 :: 113366295803100 :: 0 :: 0 :: 69104491602700 :: 119141334934600 :: 148959878844700 :: 162426873236200 :: 162426873236200 :: 148959878844700 :: 119141334934600 :: 69104491602700 :: 0 :: 0 :: 50667733490700 :: 90551580939000 :: 116180726046900 :: 128342876763300 :: 128342876763300 :: 116180726046900 :: 90551580939000 :: 50667733490700 :: 0 :: 0 :: 50667733490700 :: 90551580939000 :: 116180726046900 :: 128342876763300 :: 128342876763300 :: 116180726046900 :: 90551580939000 :: 50667733490700 :: 0 :: 0 :: 69104491602700 :: 119141334934600 :: 148959878844700 :: 162426873236200 :: 162426873236200 :: 148959878844700 :: 119141334934600 :: 69104491602700 :: 0 :: 0 :: 113366295803100 :: 180703686025700 :: 215176687787900 :: 229431390128300 :: 229431390128300 :: 215176687787900 :: 180703686025700 :: 113366295803100 :: 0 :: 0 :: 208775487019100 :: 284655926912800 :: 314507461226000 :: 325291347268400 :: 325291347268400 :: 314507461226000 :: 284655926912800 :: 208775487019100 :: 0 :: 0 :: 439804651110400 :: 439804651110400 :: 439804651110400 :: 439804651110400 :: 439804651110400 :: 439804651110400 :: 439804651110400 :: 439804651110400 :: 0 :: []

def zState22 : List ℤ :=
  0 :: 1759218604441600 :: 1759218604441600 :: 1759218604441600 :: 1759218604441600 :: 1759218604441600 :: 1759218604441600 :: 1759218604441600 :: 1759218604441600 :: 0 :: 0 :: 837826873826300 :: 1143791285381200 :: 1264928613079500 :: 1309034849733100 :: 1309034849733100 :: 1264928613079500 :: 1143791285381200 :: 837826873826300 :: 0 :: 0 :: 458583664647500 :: 732340245438400 :: 873602416224700 :: 932326298420800 :: 932326298420800 :: 873602416224700 :: 732340245438400 :: 458583664647500 :: 0 :: 0 :: 283175364228400 :: 489319637412100 :: 612925622005600 :: 669161018972500 :: 669161018972500 :: 612925622005600 :: 489319637412100 :: 283175364228400 :: 0 :: 0 :: 210323806032400 :: 376541375411200 :: 484035062593900 :: 535293352809700 :: 535293352809700 :: 484035062593900 :: 376541375411200 :: 210323806032400 :: 0 :: 0 :: 210323806032400 :: 376541375411200 :: 484035062593900 :: 535293352809700 :: 535293352809700 :: 484035062593900 :: 376541375411200 :: 210323806032400 :: 0 :: 0 :: 283175364228400 :: 489319637412100 :: 612925622005600 :: 669161018972500 :: 669161018972500 :: 612925622005600 :: 489319637412100 :: 283175364228400 :: 0 :: 0 :: 458583664647500 :: 732340245438400 :: 873602416224700 :: 932326298420800 :: 932326298420800 :: 873602416224700 :: 732340245438400 :: 458583664647500 :: 0 :: 0 :: 837826873826300 :: 1143791285381200 :: 1264928613079500 :: 1309034849733100 :: 1309034849733100 :: 1264928613079500 :: 1143791285381200 :: 837826873826300 :: 0 :: 0 :: 1759218604441600 :: 1759218604441600 :: 1759218604441600 :: 1759218604441600 :: 1759218604441600 :: 1759218604441600 :: 1759218604441600 :: 1759218604441600 :: 0 :: []

def zState23 : List ℤ :=
  0 :: 7036874417766400 :: 7036874417766400 :: 7036874417766400 :: 7036874417766400 :: 7036874417766400 :: 7036874417766400 :: 7036874417766400 :: 7036874417766400 :: 0 :: 0 :: 3361593554470300 :: 4594314336785800 :: 5085647155780600 :: 5265508365675000 :: 5265508365675000 :: 5085647155780600 :: 4594314336785800 :: 3361593554470300 :: 0 :: 0 :: 1853342483493100 :: 2965297003665500 :: 3542520778944300 :: 3784124583351100 :: 3784124583351100 :: 3542520778944300 :: 2965297003665500 :: 1853342483493100 :: 0 :: 0 :: 1158227108092000 :: 2004982607083600 :: 2516118135203200 :: 2749706292208600 :: 2749706292208600 :: 2516118135203200 :: 2004982607083600 :: 1158227108092000 :: 0 :: 0 :: 870040545672000 :: 1560219881449600 :: 2008795412820400 :: 2223782787185800 :: 2223782787185800 :: 2008795412820400 :: 1560219881449600 :: 870040545672000 :: 0 :: 0 :: 870040545672000 :: 1560219881449600 :: 2008795412820400 :: 2223782787185800 :: 2223782787185800 :: 2008795412820400 :: 1560219881449600 :: 870040545672000 :: 0 :: 0 :: 1158227108092000 :: 2004982607083600 :: 2516118135203200 :: 2749706292208600 :: 2749706292208600 :: 2516118135203200 :: 2004982607083600 :: 1158227108092000 :: 0 :: 0 :: 1853342483493100 :: 2965297003665500 :: 3542520778944300 :: 3784124583351100 :: 3784124583351100 :: 3542520778944300 :: 2965297003665500 :: 1853342483493100 :: 0 :: 0 :: 3361593554470300 :: 4594314336785800 :: 5085647155780600 :: 5265508365675000 :: 5265508365675000 :: 5085647155780600 :: 4594314336785800 :: 3361593554470300 :: 0 :: 0 :: 7036874417766400 :: 7036874417766400 :: 7036874417766400 :: 7036874417766400 :: 7036874417766400 :: 7036874417766400 :: 7036874417766400 :: 7036874417766400 :: 0 :: []

def zState24 : List ℤ :=
  0 :: 28147497671065600 :: 28147497671065600 :: 28147497671065600 :: 28147497671065600 :: 28147497671065600 :: 28147497671065600 :: 28147497671065600 :: 28147497671065600 :: 0 :: 0 :: 13484531238045300 :: 18449412131682800 :: 20439217899171500 :: 21172154522573100 :: 21172154522573100 :: 20439217899171500 :: 18449412131682800 :: 13484531238045300 :: 0 :: 0 :: 7485117666227800 :: 11995160206306800 :: 14351186878000400 :: 15341860020179000 :: 15341860020179000 :: 14351186878000400 :: 11995160206306800 :: 7485117666227800 :: 0 :: 0 :: 4728365636248700 :: 8199862128410300 :: 10306005091056900 :: 11273731797948700 :: 11273731797948700 :: 10306005091056900 :: 8199862128410300 :: 4728365636248700 :: 0 :: 0 :: 3588487535213600 :: 6444038447025600 :: 8308916216659000 :: 9206067279400600 :: 9206067279400600 :: 8308916216659000 :: 6444038447025600 :: 3588487535213600 :: 0 :: 0 :: 3588487535213600 :: 6444038447025600 :: 8308916216659000 :: 9206067279400600 :: 9206067279400600 :: 8308916216659000 :: 6444038447025600 :: 3588487535213600 :: 0 :: 0 :: 4728365636248700 :: 8199862128410300 :: 10306005091056900 :: 11273731797948700 :: 11273731797948700 :: 10306005091056900 :: 8199862128410300 :: 4728365636248700 :: 0 :: 0 :: 7485117666227800 :: 11995160206306800 :: 14351186878000400 :: 15341860020179000 :: 15341860020179000 :: 14351186878000400 :: 11995160206306800 :: 7485117666227800 :: 0 :: 0 :: 13484531238045300 :: 18449412131682800 :: 20439217899171500 :: 21172154522573100 :: 21172154522573100 :: 20439217899171500 :: 18449412131682800 :: 13484531238045300 :: 0 :: 0 :: 28147497671065600 :: 28147497671065600 :: 28147497671065600 :: 28147497671065600 :: 28147497671065600 :: 28147497671065600 :: 28147497671065600 :: 28147497671065600 :: 0 :: []

def zState25 : List ℤ :=
  0 :: 112589990684262400 :: 112589990684262400 :: 112589990684262400 :: 112589990684262400 :: 112589990684262400 :: 112589990684262400 :: 112589990684262400 :: 112589990684262400 :: 0 :: 0 :: 54082027468976200 :: 74066407014589200 :: 82120251203321900 :: 85100730112989200 :: 85100730112989200 :: 82120251203321900 :: 74066407014589200 :: 54082027468976200 :: 0 :: 0 :: 30208057080600800 :: 48485578804321300 :: 58082243216714200 :: 62138933218701200 :: 62138933218701200 :: 58082243216714200 :: 48485578804321300 :: 30208057080600800 :: 0 :: 0 :: 19273467329851700 :: 33473569380638000 :: 42133697021018400 :: 46127664188585200 :: 46127664188585200 :: 42133697021018400 :: 33473569380638000 :: 19273467329851700 :: 0 :: 0 :: 14760891618487900 :: 26541304327308500 :: 34265027034142100 :: 37994782573408900 :: 37994782573408900 :: 34265027034142100 :: 26541304327308500 :: 14760891618487900 :: 0 :: 0 :: 14760891618487900 :: 26541304327308500 :: 34265027034142100 :: 37994782573408900 :: 37994782573408900 :: 34265027034142100 :: 26541304327308500 :: 14760891618487900 :: 0 :: 0 :: 19273467329851700 :: 33473569380638000 :: 42133697021018400 :: 46127664188585200 :: 46127664188585200 :: 42133697021018400 :: 33473569380638000 :: 19273467329851700 :: 0 :: 0 :: 30208057080600800 :: 48485578804321300 :: 58082243216714200 :: 62138933218701200 :: 62138933218701200 :: 58082243216714200 :: 48485578804321300 :: 30208057080600800 :: 0 :: 0 :: 54082027468976200 :: 74066407014589200 :: 82120251203321900 :: 85100730112989200 :: 85100730112989200 :: 82120251203321900 :: 74066407014589200 :: 54082027468976200 :: 0 :: 0 :: 112589990684262400 :: 112589990684262400 :: 112589990684262400 :: 112589990684262400 :: 112589990684262400 :: 112589990684262400 :: 112589990684262400 :: 112589990684262400 :: 0 :: []

def zState26 : List ℤ :=
  0 :: 450359962737049600 :: 450359962737049600 :: 450359962737049600 :: 450359962737049600 :: 450359962737049600 :: 450359962737049600 :: 450359962737049600 :: 450359962737049600 :: 0 :: 0 :: 216864454779452400 :: 297277848160881800 :: 329839371028555000 :: 341949905219274700 :: 341949905219274700 :: 329839371028555000 :: 297277848160881800 :: 216864454779452400 :: 0 :: 0 :: 121841073603149200 :: 195830276692542200 :: 234878460247362800 :: 251449570736989800 :: 251449570736989800 :: 234878460247362800 :: 195830276692542200 :: 121841073603149200 :: 0 :: 0 :: 78442518079726700 :: 136434047482499900 :: 171948503820079500 :: 188395077001713700 :: 188395077001713700 :: 171948503820079500 :: 136434047482499900 :: 78442518079726700 :: 0 :: 0 :: 60575663275648100 :: 109040792360576500 :: 140934810955877900 :: 156382256369545100 :: 156382256369545100 :: 140934810955877900 :: 109040792360576500 :: 60575663275648100 :: 0 :: 0 :: 60575663275648100 :: 109040792360576500 :: 140934810955877900 :: 156382256369545100 :: 156382256369545100 :: 140934810955877900 :: 109040792360576500 :: 60575663275648100 :: 0 :: 0 :: 78442518079726700 :: 136434047482499900 :: 171948503820079500 :: 188395077001713700 :: 188395077001713700 :: 171948503820079500 :: 136434047482499900 :: 78442518079726700 :: 0 :: 0 :: 121841073603149200 :: 195830276692542200 :: 234878460247362800 :: 251449570736989800 :: 251449570736989800 :: 234878460247362800 :: 195830276692542200 :: 121841073603149200 :: 0 :: 0 :: 216864454779452400 :: 297277848160881800 :: 329839371028555000 :: 341949905219274700 :: 341949905219274700 :: 329839371028555000 :: 297277848160881800 :: 216864454779452400 :: 0 :: 0 :: 450359962737049600 :: 450359962737049600 :: 450359962737049600 :: 450359962737049600 :: 450359962737049600 :: 450359962737049600 :: 450359962737049600 :: 450359962737049600 :: 0 :: []

def zState27 : List ℤ :=
  0 :: 1801439850948198400 :: 1801439850948198400 :: 1801439850948198400 :: 1801439850948198400 :: 1801439850948198400 :: 1801439850948198400 :: 1801439850948198400 :: 1801439850948198400 :: 0 :: 0 :: 869478884501080600 :: 1192894065237599200 :: 1324466176364568900 :: 1373598809721869100 :: 1373598809721869100 :: 1324466176364568900 :: 1192894065237599200 :: 869478884501080600 :: 0 :: 0 :: 491137249551721300 :: 790431429493893700 :: 949067722278166500 :: 1016673013205341000 :: 1016673013205341000 :: 949067722278166500 :: 790431429493893700 :: 491137249551721300 :: 0 :: 0 :: 318850784361297200 :: 555262090952924900 :: 700642395687454300 :: 768175407928328100 :: 768175407928328100 :: 700642395687454300 :: 555262090952924900 :: 318850784361297200 :: 0 :: 0 :: 248058973715951300 :: 446985314074602400 :: 578306363506079000 :: 642094400696681800 :: 642094400696681800 :: 578306363506079000 :: 446985314074602400 :: 248058973715951300 :: 0 :: 0 :: 248058973715951300 :: 446985314074602400 :: 578306363506079000 :: 642094400696681800 :: 642094400696681800 :: 578306363506079000 :: 446985314074602400 :: 248058973715951300 :: 0 :: 0 :: 318850784361297200 :: 555262090952924900 :: 700642395687454300 :: 768175407928328100 :: 768175407928328100 :: 700642395687454300 :: 555262090952924900 :: 318850784361297200 :: 0 :: 0 :: 491137249551721300 :: 790431429493893700 :: 949067722278166500 :: 1016673013205341000 :: 1016673013205341000 :: 949067722278166500 :: 790431429493893700 :: 491137249551721300 :: 0 :: 0 :: 869478884501080600 :: 1192894065237599200 :: 1324466176364568900 :: 1373598809721869100 :: 1373598809721869100 :: 1324466176364568900 :: 1192894065237599200 :: 869478884501080600 :: 0 :: 0 :: 1801439850948198400 :: 1801439850948198400 :: 1801439850948198400 :: 1801439850948198400 :: 1801439850948198400 :: 1801439850948198400 :: 1801439850948198400 :: 1801439850948198400 :: 0 :: []

def zState28 : List ℤ :=
  0 :: 7205759403792793600 :: 7205759403792793600 :: 7205759403792793600 :: 7205759403792793600 :: 7205759403792793600 :: 7205759403792793600 :: 7205759403792793600 :: 7205759403792793600 :: 0 :: 0 :: 3485471165737518900 :: 4785816341307741600 :: 5317000448185833200 :: 5516177850239977400 :: 5516177850239977400 :: 5317000448185833200 :: 4785816341307741600 :: 3485471165737518900 :: 0 :: 0 :: 1978761098356271500 :: 3188361128020411900 :: 3832213014751257900 :: 4107514953133704700 :: 4107514953133704700 :: 3832213014751257900 :: 3188361128020411900 :: 1978761098356271500 :: 0 :: 0 :: 1294458314220597500 :: 2256909923617247600 :: 2850811584665498500 :: 3127585217517805200 :: 3127585217517805200 :: 2850811584665498500 :: 2256909923617247600 :: 1294458314220597500 :: 0 :: 0 :: 1013895072151850900 :: 1828612742249557600 :: 2368028473964817500 :: 2630670572827770700 :: 2630670572827770700 :: 2368028473964817500 :: 1828612742249557600 :: 1013895072151850900 :: 0 :: 0 :: 1013895072151850900 :: 1828612742249557600 :: 2368028473964817500 :: 2630670572827770700 :: 2630670572827770700 :: 2368028473964817500 :: 1828612742249557600 :: 1013895072151850900 :: 0 :: 0 :: 1294458314220597500 :: 2256909923617247600 :: 2850811584665498500 :: 3127585217517805200 :: 3127585217517805200 :: 2850811584665498500 :: 2256909923617247600 :: 1294458314220597500 :: 0 :: 0 :: 1978761098356271500 :: 3188361128020411900 :: 3832213014751257900 :: 4107514953133704700 :: 4107514953133704700 :: 3832213014751257900 :: 3188361128020411900 :: 1978761098356271500 :: 0 :: 0 :: 3485471165737518900 :: 4785816341307741600 :: 5317000448185833200 :: 5516177850239977400 :: 5516177850239977400 :: 5317000448185833200 :: 4785816341307741600 :: 3485471165737518900 :: 0 :: 0 :: 7205759403792793600 :: 7205759403792793600 :: 7205759403792793600 :: 7205759403792793600 :: 7205759403792793600 :: 7205759403792793600 :: 7205759403792793600 :: 7205759403792793600 :: 0 :: []

def zState29 : List ℤ :=
  0 :: 28823037615171174400 :: 28823037615171174400 :: 28823037615171174400 :: 28823037615171174400 :: 28823037615171174400 :: 28823037615171174400 :: 28823037615171174400 :: 28823037615171174400 :: 0 :: 0 :: 13970336843456806700 :: 19196592145736557600 :: 21339966610091770500 :: 22146452655352308900 :: 22146452655352308900 :: 21339966610091770500 :: 19196592145736557600 :: 13970336843456806700 :: 0 :: 0 :: 7968290607978528300 :: 12853700378032518600 :: 15463688114005448300 :: 16583491035642745200 :: 16583491035642745200 :: 15463688114005448300 :: 12853700378032518600 :: 7968290607978528300 :: 0 :: 0 :: 5249566094125370000 :: 9162243769156065500 :: 11584736629851128200 :: 12716582328144779100 :: 12716582328144779100 :: 11584736629851128200 :: 9162243769156065500 :: 5249566094125370000 :: 0 :: 0 :: 4136966128622006000 :: 7467446211983473600 :: 9678123373707644300 :: 10756954837138164100 :: 10756954837138164100 :: 9678123373707644300 :: 7467446211983473600 :: 4136966128622006000 :: 0 :: 0 :: 4136966128622006000 :: 7467446211983473600 :: 9678123373707644300 :: 10756954837138164100 :: 10756954837138164100 :: 9678123373707644300 :: 7467446211983473600 :: 4136966128622006000 :: 0 :: 0 :: 5249566094125370000 :: 9162243769156065500 :: 11584736629851128200 :: 12716582328144779100 :: 12716582328144779100 :: 11584736629851128200 :: 9162243769156065500 :: 5249566094125370000 :: 0 :: 0 :: 7968290607978528300 :: 12853700378032518600 :: 15463688114005448300 :: 16583491035642745200 :: 16583491035642745200 :: 15463688114005448300 :: 12853700378032518600 :: 7968290607978528300 :: 0 :: 0 :: 13970336843456806700 :: 19196592145736557600 :: 21339966610091770500 :: 22146452655352308900 :: 22146452655352308900 :: 21339966610091770500 :: 19196592145736557600 :: 13970336843456806700 :: 0 :: 0 :: 28823037615171174400 :: 28823037615171174400 :: 28823037615171174400 :: 28823037615171174400 :: 28823037615171174400 :: 28823037615171174400 :: 28823037615171174400 :: 28823037615171174400 :: 0 :: []

def zState30 : List ℤ :=
  0 :: 115292150460684697600 :: 115292150460684697600 :: 115292150460684697600 :: 115292150460684697600 :: 115292150460684697600 :: 115292150460684697600 :: 115292150460684697600 :: 115292150460684697600 :: 0 :: 0 :: 55987920368886260300 :: 76987041446752270200 :: 85629770530265489200 :: 88892947916257999000 :: 88892947916257999000 :: 85629770530265489200 :: 76987041446752270200 :: 55987920368886260300 :: 0 :: 0 :: 32073603315614695300 :: 51790814636876599700 :: 62361894653618162500 :: 66910214133145281500 :: 66910214133145281500 :: 62361894653618162500 :: 51790814636876599700 :: 32073603315614695300 :: 0 :: 0 :: 21267500505756599800 :: 37155449313992490400 :: 47020637585013937200 :: 51641764830776816600 :: 51641764830776816600 :: 47020637585013937200 :: 37155449313992490400 :: 21267500505756599800 :: 0 :: 0 :: 16853978434730849600 :: 30444779483469189400 :: 39487261052680410200 :: 43908615376128751600 :: 43908615376128751600 :: 39487261052680410200 :: 30444779483469189400 :: 16853978434730849600 :: 0 :: 0 :: 16853978434730849600 :: 30444779483469189400 :: 39487261052680410200 :: 43908615376128751600 :: 43908615376128751600 :: 39487261052680410200 :: 30444779483469189400 :: 16853978434730849600 :: 0 :: 0 :: 21267500505756599800 :: 37155449313992490400 :: 47020637585013937200 :: 51641764830776816600 :: 51641764830776816600 :: 47020637585013937200 :: 37155449313992490400 :: 21267500505756599800 :: 0 :: 0 :: 32073603315614695300 :: 51790814636876599700 :: 62361894653618162500 :: 66910214133145281500 :: 66910214133145281500 :: 62361894653618162500 :: 51790814636876599700 :: 32073603315614695300 :: 0 :: 0 :: 55987920368886260300 :: 76987041446752270200 :: 85629770530265489200 :: 88892947916257999000 :: 88892947916257999000 :: 85629770530265489200 :: 76987041446752270200 :: 55987920368886260300 :: 0 :: 0 :: 115292150460684697600 :: 115292150460684697600 :: 115292150460684697600 :: 115292150460684697600 :: 115292150460684697600 :: 115292150460684697600 :: 115292150460684697600 :: 115292150460684697600 :: 0 :: []

def zState31 : List ℤ :=
  0 :: 461168601842738790400 :: 461168601842738790400 :: 461168601842738790400 :: 461168601842738790400 :: 461168601842738790400 :: 461168601842738790400 :: 461168601842738790400 :: 461168601842738790400 :: 0 :: 0 :: 224352795223051663100 :: 308700655996713046800 :: 343534034477313129300 :: 356725083040353467300 :: 356725083040353467300 :: 343534034477313129300 :: 308700655996713046800 :: 224352795223051663100 :: 0 :: 0 :: 129046235511519459800 :: 208577988729977618400 :: 251351436885301307600 :: 269806821533798259600 :: 269806821533798259600 :: 251351436885301307600 :: 208577988729977618400 :: 129046235511519459800 :: 0 :: 0 :: 86083031064338035300 :: 150523732211116326100 :: 190646369851067879700 :: 209481231925064786900 :: 209481231925064786900 :: 190646369851067879700 :: 150523732211116326100 :: 86083031064338035300 :: 0 :: 0 :: 68566258423956638800 :: 123941468284872939600 :: 160861293497292288400 :: 178946256635714730000 :: 178946256635714730000 :: 160861293497292288400 :: 123941468284872939600 :: 68566258423956638800 :: 0 :: 0 :: 68566258423956638800 :: 123941468284872939600 :: 160861293497292288400 :: 178946256635714730000 :: 178946256635714730000 :: 160861293497292288400 :: 123941468284872939600 :: 68566258423956638800 :: 0 :: 0 :: 86083031064338035300 :: 150523732211116326100 :: 190646369851067879700 :: 209481231925064786900 :: 209481231925064786900 :: 190646369851067879700 :: 150523732211116326100 :: 86083031064338035300 :: 0 :: 0 :: 129046235511519459800 :: 208577988729977618400 :: 251351436885301307600 :: 269806821533798259600 :: 269806821533798259600 :: 251351436885301307600 :: 208577988729977618400 :: 129046235511519459800 :: 0 :: 0 :: 224352795223051663100 :: 308700655996713046800 :: 343534034477313129300 :: 356725083040353467300 :: 356725083040353467300 :: 343534034477313129300 :: 308700655996713046800 :: 224352795223051663100 :: 0 :: 0 :: 461168601842738790400 :: 461168601842738790400 :: 461168601842738790400 :: 461168601842738790400 :: 461168601842738790400 :: 461168601842738790400 :: 461168601842738790400 :: 461168601842738790400 :: 0 :: []

def zState32 : List ℤ :=
  0 :: 1844674407370955161600 :: 1844674407370955161600 :: 1844674407370955161600 :: 1844674407370955161600 :: 1844674407370955161600 :: 1844674407370955161600 :: 1844674407370955161600 :: 1844674407370955161600 :: 0 :: 0 :: 898915493350971297000 :: 1237633420273081201200 :: 1377945777765106612100 :: 1431234540894203646600 :: 1431234540894203646600 :: 1377945777765106612100 :: 1237633420273081201200 :: 898915493350971297000 :: 0 :: 0 :: 519013815017367316800 :: 839622060604650140300 :: 1012565214592156887000 :: 1087364573384517821400 :: 1087364573384517821400 :: 1012565214592156887000 :: 839622060604650140300 :: 519013815017367316800 :: 0 :: 0 :: 348136226146592424700 :: 609248857930256473000 :: 772217694518774709000 :: 848880679945645656200 :: 848880679945645656200 :: 772217694518774709000 :: 609248857930256473000 :: 348136226146592424700 :: 0 :: 0 :: 278590757773167613700 :: 503892752417238192900 :: 654395388268947837700 :: 728235038693786535300 :: 728235038693786535300 :: 654395388268947837700 :: 503892752417238192900 :: 278590757773167613700 :: 0 :: 0 :: 278590757773167613700 :: 503892752417238192900 :: 654395388268947837700 :: 728235038693786535300 :: 728235038693786535300 :: 654395388268947837700 :: 503892752417238192900 :: 278590757773167613700 :: 0 :: 0 :: 348136226146592424700 :: 609248857930256473000 :: 772217694518774709000 :: 848880679945645656200 :: 848880679945645656200 :: 772217694518774709000 :: 609248857930256473000 :: 348136226146592424700 :: 0 :: 0 :: 519013815017367316800 :: 839622060604650140300 :: 1012565214592156887000 :: 1087364573384517821400 :: 1087364573384517821400 :: 1012565214592156887000 :: 839622060604650140300 :: 519013815017367316800 :: 0 :: 0 :: 898915493350971297000 :: 1237633420273081201200 :: 1377945777765106612100 :: 1431234540894203646600 :: 1431234540894203646600 :: 1377945777765106612100 :: 1237633420273081201200 :: 898915493350971297000 :: 0 :: 0 :: 1844674407370955161600 :: 1844674407370955161600 :: 1844674407370955161600 :: 1844674407370955161600 :: 1844674407370955161600 :: 1844674407370955161600 :: 1844674407370955161600 :: 1844674407370955161600 :: 0 :: []

def zState33 : List ℤ :=
  0 :: 7378697629483820646400 :: 7378697629483820646400 :: 7378697629483820646400 :: 7378697629483820646400 :: 7378697629483820646400 :: 7378697629483820646400 :: 7378697629483820646400 :: 7378697629483820646400 :: 0 :: 0 :: 3601321642661403679600 :: 4961157739091683211000 :: 5526107583130396896400 :: 5741219299414783241700 :: 5741219299414783241700 :: 5526107583130396896400 :: 4961157739091683211000 :: 3601321642661403679600 :: 0 :: 0 :: 2086673780102213862000 :: 3378461307812861878000 :: 4077150106273049282800 :: 4380045008816524011200 :: 4380045008816524011200 :: 4077150106273049282800 :: 3378461307812861878000 :: 2086673780102213862000 :: 0 :: 0 :: 1406853430720791403500 :: 2463868733687255466900 :: 3125090140737006853900 :: 3436697986542724721900 :: 3436697986542724721900 :: 3125090140737006853900 :: 2463868733687255466900 :: 1406853430720791403500 :: 0 :: 0 :: 1130619736336998231300 :: 2046127756389610117300 :: 2658740873898747274900 :: 2959746145602166564500 :: 2959746145602166564500 :: 2658740873898747274900 :: 2046127756389610117300 :: 1130619736336998231300 :: 0 :: 0 :: 1130619736336998231300 :: 2046127756389610117300 :: 2658740873898747274900 :: 2959746145602166564500 :: 2959746145602166564500 :: 2658740873898747274900 :: 2046127756389610117300 :: 1130619736336998231300 :: 0 :: 0 :: 1406853430720791403500 :: 2463868733687255466900 :: 3125090140737006853900 :: 3436697986542724721900 :: 3436697986542724721900 :: 3125090140737006853900 :: 2463868733687255466900 :: 1406853430720791403500 :: 0 :: 0 :: 2086673780102213862000 :: 3378461307812861878000 :: 4077150106273049282800 :: 4380045008816524011200 :: 4380045008816524011200 :: 4077150106273049282800 :: 3378461307812861878000 :: 2086673780102213862000 :: 0 :: 0 :: 3601321642661403679600 :: 4961157739091683211000 :: 5526107583130396896400 :: 5741219299414783241700 :: 5741219299414783241700 :: 5526107583130396896400 :: 4961157739091683211000 :: 3601321642661403679600 :: 0 :: 0 :: 7378697629483820646400 :: 7378697629483820646400 :: 7378697629483820646400 :: 7378697629483820646400 :: 7378697629483820646400 :: 7378697629483820646400 :: 7378697629483820646400 :: 7378697629483820646400 :: 0 :: []

def zState34 : List ℤ :=
  0 :: 29514790517935282585600 :: 29514790517935282585600 :: 29514790517935282585600 :: 29514790517935282585600 :: 29514790517935282585600 :: 29514790517935282585600 :: 29514790517935282585600 :: 29514790517935282585600 :: 0 :: 0 :: 14426529148677717719400 :: 19884588163088483100400 :: 22158224774263336381900 :: 23026069520845524795700 :: 23026069520845524795700 :: 22158224774263336381900 :: 19884588163088483100400 :: 14426529148677717719400 :: 0 :: 0 :: 8386636381195056961100 :: 13588850359154201822700 :: 16409704040496789639500 :: 17635112401047081257600 :: 17635112401047081257600 :: 16409704040496789639500 :: 13588850359154201822700 :: 8386636381195056961100 :: 0 :: 0 :: 5681162250126467560200 :: 9956532635660270252700 :: 12636457700401776746500 :: 13901579281698422151500 :: 13901579281698422151500 :: 12636457700401776746500 :: 9956532635660270252700 :: 5681162250126467560200 :: 0 :: 0 :: 4583600923447399752100 :: 8299357100312611090400 :: 10789704916627530810600 :: 12014931151645805125800 :: 12014931151645805125800 :: 10789704916627530810600 :: 8299357100312611090400 :: 4583600923447399752100 :: 0 :: 0 :: 4583600923447399752100 :: 8299357100312611090400 :: 10789704916627530810600 :: 12014931151645805125800 :: 12014931151645805125800 :: 10789704916627530810600 :: 8299357100312611090400 :: 4583600923447399752100 :: 0 :: 0 :: 5681162250126467560200 :: 9956532635660270252700 :: 12636457700401776746500 :: 13901579281698422151500 :: 13901579281698422151500 :: 12636457700401776746500 :: 9956532635660270252700 :: 5681162250126467560200 :: 0 :: 0 :: 8386636381195056961100 :: 13588850359154201822700 :: 16409704040496789639500 :: 17635112401047081257600 :: 17635112401047081257600 :: 16409704040496789639500 :: 13588850359154201822700 :: 8386636381195056961100 :: 0 :: 0 :: 14426529148677717719400 :: 19884588163088483100400 :: 22158224774263336381900 :: 23026069520845524795700 :: 23026069520845524795700 :: 22158224774263336381900 :: 19884588163088483100400 :: 14426529148677717719400 :: 0 :: 0 :: 29514790517935282585600 :: 29514790517935282585600 :: 29514790517935282585600 :: 29514790517935282585600 :: 29514790517935282585600 :: 29514790517935282585600 :: 29514790517935282585600 :: 29514790517935282585600 :: 0 :: []

def zState35 : List ℤ :=
  0 :: 118059162071741130342400 :: 118059162071741130342400 :: 118059162071741130342400 :: 118059162071741130342400 :: 118059162071741130342400 :: 118059162071741130342400 :: 118059162071741130342400 :: 118059162071741130342400 :: 0 :: 0 :: 57786015062218822647100 :: 79688394800030538509600 :: 88835152242366080121200 :: 92334197214091225020800 :: 92334197214091225020800 :: 88835152242366080121200 :: 79688394800030538509600 :: 57786015062218822647100 :: 0 :: 0 :: 33696541757958387102300 :: 54637461220440599953700 :: 66018645234866396208700 :: 70972465244087817844300 :: 70972465244087817844300 :: 66018645234866396208700 :: 54637461220440599953700 :: 33696541757958387102300 :: 0 :: 0 :: 22926769940302726965900 :: 40205827409995057219800 :: 51057520874483012854300 :: 56188080534793085281400 :: 56188080534793085281400 :: 51057520874483012854300 :: 40205827409995057219800 :: 22926769940302726965900 :: 0 :: 0 :: 18564120273886478402700 :: 33629195576047811905800 :: 43740450868987723773300 :: 48721146501617563213700 :: 48721146501617563213700 :: 43740450868987723773300 :: 33629195576047811905800 :: 18564120273886478402700 :: 0 :: 0 :: 18564120273886478402700 :: 33629195576047811905800 :: 43740450868987723773300 :: 48721146501617563213700 :: 48721146501617563213700 :: 43740450868987723773300 :: 33629195576047811905800 :: 18564120273886478402700 :: 0 :: 0 :: 22926769940302726965900 :: 40205827409995057219800 :: 51057520874483012854300 :: 56188080534793085281400 :: 56188080534793085281400 :: 51057520874483012854300 :: 40205827409995057219800 :: 22926769940302726965900 :: 0 :: 0 :: 33696541757958387102300 :: 54637461220440599953700 :: 66018645234866396208700 :: 70972465244087817844300 :: 70972465244087817844300 :: 66018645234866396208700 :: 54637461220440599953700 :: 33696541757958387102300 :: 0 :: 0 :: 57786015062218822647100 :: 79688394800030538509600 :: 88835152242366080121200 :: 92334197214091225020800 :: 92334197214091225020800 :: 88835152242366080121200 :: 79688394800030538509600 :: 57786015062218822647100 :: 0 :: 0 :: 118059162071741130342400 :: 118059162071741130342400 :: 118059162071741130342400 :: 118059162071741130342400 :: 118059162071741130342400 :: 118059162071741130342400 :: 118059162071741130342400 :: 118059162071741130342400 :: 0 :: []

def zState36 : List ℤ :=
  0 :: 472236648286964521369600 :: 472236648286964521369600 :: 472236648286964521369600 :: 472236648286964521369600 :: 472236648286964521369600 :: 472236648286964521369600 :: 472236648286964521369600 :: 472236648286964521369600 :: 0 :: 0 :: 231444098629730055954300 :: 319317790596766633064400 :: 356100399320729290081500 :: 370200976772286253328700 :: 370200976772286253328700 :: 356100399320729290081500 :: 319317790596766633064400 :: 231444098629730055954300 :: 0 :: 0 :: 135350246222962149566700 :: 219609409202850379040400 :: 265502599581377510773500 :: 285513388227838524355200 :: 285513388227838524355200 :: 265502599581377510773500 :: 219609409202850379040400 :: 135350246222962149566700 :: 0 :: 0 :: 92466489441839922724800 :: 162250947611274151679700 :: 206153004048642262483200 :: 226939213154981479193700 :: 226939213154981479193700 :: 206153004048642262483200 :: 162250947611274151679700 :: 92466489441839922724800 :: 0 :: 0 :: 75120085790237017274400 :: 136139594128917071301600 :: 177148313821136111747100 :: 197370824407015935482100 :: 197370824407015935482100 :: 177148313821136111747100 :: 136139594128917071301600 :: 75120085790237017274400 :: 0 :: 0 :: 75120085790237017274400 :: 136139594128917071301600 :: 177148313821136111747100 :: 197370824407015935482100 :: 197370824407015935482100 :: 177148313821136111747100 :: 136139594128917071301600 :: 75120085790237017274400 :: 0 :: 0 :: 92466489441839922724800 :: 162250947611274151679700 :: 206153004048642262483200 :: 226939213154981479193700 :: 226939213154981479193700 :: 206153004048642262483200 :: 162250947611274151679700 :: 92466489441839922724800 :: 0 :: 0 :: 135350246222962149566700 :: 219609409202850379040400 :: 265502599581377510773500 :: 285513388227838524355200 :: 285513388227838524355200 :: 265502599581377510773500 :: 219609409202850379040400 :: 135350246222962149566700 :: 0 :: 0 :: 231444098629730055954300 :: 319317790596766633064400 :: 356100399320729290081500 :: 370200976772286253328700 :: 370200976772286253328700 :: 356100399320729290081500 :: 319317790596766633064400 :: 231444098629730055954300 :: 0 :: 0 :: 472236648286964521369600 :: 472236648286964521369600 :: 472236648286964521369600 :: 472236648286964521369600 :: 472236648286964521369600 :: 472236648286964521369600 :: 472236648286964521369600 :: 472236648286964521369600 :: 0 :: []

def zState37 : List ℤ :=
  0 :: 1888946593147858085478400 :: 1888946593147858085478400 :: 1888946593147858085478400 :: 1888946593147858085478400 :: 1888946593147858085478400 :: 1888946593147858085478400 :: 1888946593147858085478400 :: 1888946593147858085478400 :: 0 :: 0 :: 926904685106693304000700 :: 1279390555440274246445800 :: 1427258015237394918536200 :: 1484051412607818589135000 :: 1484051412607818589135000 :: 1427258015237394918536200 :: 1279390555440274246445800 :: 926904685106693304000700 :: 0 :: 0 :: 543519997274420357719500 :: 882421584012380445084300 :: 1067376200800060455960300 :: 1148156177736483767651100 :: 1148156177736483767651100 :: 1067376200800060455960300 :: 882421584012380445084300 :: 543519997274420357719500 :: 0 :: 0 :: 372721279624473318520800 :: 654368496822249635550000 :: 831841074168769253394000 :: 915976429838478201514200 :: 915976429838478201514200 :: 831841074168769253394000 :: 654368496822249635550000 :: 372721279624473318520800 :: 0 :: 0 :: 303726169360994011300800 :: 550658941351564352002800 :: 716811736405711381014000 :: 798829175790149461905000 :: 798829175790149461905000 :: 716811736405711381014000 :: 550658941351564352002800 :: 303726169360994011300800 :: 0 :: 0 :: 303726169360994011300800 :: 550658941351564352002800 :: 716811736405711381014000 :: 798829175790149461905000 :: 798829175790149461905000 :: 716811736405711381014000 :: 550658941351564352002800 :: 303726169360994011300800 :: 0 :: 0 :: 372721279624473318520800 :: 654368496822249635550000 :: 831841074168769253394000 :: 915976429838478201514200 :: 915976429838478201514200 :: 831841074168769253394000 :: 654368496822249635550000 :: 372721279624473318520800 :: 0 :: 0 :: 543519997274420357719500 :: 882421584012380445084300 :: 1067376200800060455960300 :: 1148156177736483767651100 :: 1148156177736483767651100 :: 1067376200800060455960300 :: 882421584012380445084300 :: 543519997274420357719500 :: 0 :: 0 :: 926904685106693304000700 :: 1279390555440274246445800 :: 1427258015237394918536200 :: 1484051412607818589135000 :: 1484051412607818589135000 :: 1427258015237394918536200 :: 1279390555440274246445800 :: 926904685106693304000700 :: 0 :: 0 :: 1888946593147858085478400 :: 1888946593147858085478400 :: 1888946593147858085478400 :: 1888946593147858085478400 :: 1888946593147858085478400 :: 1888946593147858085478400 :: 1888946593147858085478400 :: 1888946593147858085478400 :: 0 :: []

def zState38 : List ℤ :=
  0 :: 7555786372591432341913600 :: 7555786372591432341913600 :: 7555786372591432341913600 :: 7555786372591432341913600 :: 7555786372591432341913600 :: 7555786372591432341913600 :: 7555786372591432341913600 :: 7555786372591432341913600 :: 0 :: 0 :: 3711857145862552689643700 :: 5125530877504326753099600 :: 5719764761996011377019500 :: 5948412198729555360800700 :: 5948412198729555360800700 :: 5719764761996011377019500 :: 5125530877504326753099600 :: 3711857145862552689643700 :: 0 :: 0 :: 2182047548743547067605800 :: 3544655250337004695675600 :: 4289676851155028384665600 :: 4615560220982841014260600 :: 4615560220982841014260600 :: 4289676851155028384665600 :: 3544655250337004695675600 :: 2182047548743547067605800 :: 0 :: 0 :: 1501614663457664004570300 :: 2637642879157187369001900 :: 3354532863866499674038500 :: 3694802857533880684464300 :: 3694802857533880684464300 :: 3354532863866499674038500 :: 2637642879157187369001900 :: 1501614663457664004570300 :: 0 :: 0 :: 1227106390337031681824400 :: 2225565343940519379867600 :: 2898140927716194448315800 :: 3230446517824488506338200 :: 3230446517824488506338200 :: 2898140927716194448315800 :: 2225565343940519379867600 :: 1227106390337031681824400 :: 0 :: 0 :: 1227106390337031681824400 :: 2225565343940519379867600 :: 2898140927716194448315800 :: 3230446517824488506338200 :: 3230446517824488506338200 :: 2898140927716194448315800 :: 2225565343940519379867600 :: 1227106390337031681824400 :: 0 :: 0 :: 1501614663457664004570300 :: 2637642879157187369001900 :: 3354532863866499674038500 :: 3694802857533880684464300 :: 3694802857533880684464300 :: 3354532863866499674038500 :: 2637642879157187369001900 :: 1501614663457664004570300 :: 0 :: 0 :: 2182047548743547067605800 :: 3544655250337004695675600 :: 4289676851155028384665600 :: 4615560220982841014260600 :: 4615560220982841014260600 :: 4289676851155028384665600 :: 3544655250337004695675600 :: 2182047548743547067605800 :: 0 :: 0 :: 3711857145862552689643700 :: 5125530877504326753099600 :: 5719764761996011377019500 :: 5948412198729555360800700 :: 5948412198729555360800700 :: 5719764761996011377019500 :: 5125530877504326753099600 :: 3711857145862552689643700 :: 0 :: 0 :: 7555786372591432341913600 :: 7555786372591432341913600 :: 7555786372591432341913600 :: 7555786372591432341913600 :: 7555786372591432341913600 :: 7555786372591432341913600 :: 7555786372591432341913600 :: 7555786372591432341913600 :: 0 :: []

def zState39 : List ℤ :=
  0 :: 30223145490365729367654400 :: 30223145490365729367654400 :: 30223145490365729367654400 :: 30223145490365729367654400 :: 30223145490365729367654400 :: 30223145490365729367654400 :: 30223145490365729367654400 :: 30223145490365729367654400 :: 0 :: 0 :: 14863364798839306162619000 :: 20532063530787001104252400 :: 22919406299980342840479500 :: 23839523554299840093994400 :: 23839523554299840093994400 :: 22919406299980342840479500 :: 20532063530787001104252400 :: 14863364798839306162619000 :: 0 :: 0 :: 8758127059657221389889600 :: 14234898156560089574372900 :: 17234513097182356760994200 :: 18548452128401305444191200 :: 18548452128401305444191200 :: 17234513097182356760994200 :: 14234898156560089574372900 :: 8758127059657221389889600 :: 0 :: 0 :: 6046796818237766118432100 :: 10626368121601687754152000 :: 13520263515562290886447600 :: 14895342460207709879101600 :: 14895342460207709879101600 :: 13520263515562290886447600 :: 10626368121601687754152000 :: 6046796818237766118432100 :: 0 :: 0 :: 4954286397735215066262300 :: 8988455541150932879009700 :: 11708685653347702008560100 :: 13053836820899052145456500 :: 13053836820899052145456500 :: 11708685653347702008560100 :: 8988455541150932879009700 :: 4954286397735215066262300 :: 0 :: 0 :: 4954286397735215066262300 :: 8988455541150932879009700 :: 11708685653347702008560100 :: 13053836820899052145456500 :: 13053836820899052145456500 :: 11708685653347702008560100 :: 8988455541150932879009700 :: 4954286397735215066262300 :: 0 :: 0 :: 6046796818237766118432100 :: 10626368121601687754152000 :: 13520263515562290886447600 :: 14895342460207709879101600 :: 14895342460207709879101600 :: 13520263515562290886447600 :: 10626368121601687754152000 :: 6046796818237766118432100 :: 0 :: 0 :: 8758127059657221389889600 :: 14234898156560089574372900 :: 17234513097182356760994200 :: 18548452128401305444191200 :: 18548452128401305444191200 :: 17234513097182356760994200 :: 14234898156560089574372900 :: 8758127059657221389889600 :: 0 :: 0 :: 14863364798839306162619000 :: 20532063530787001104252400 :: 22919406299980342840479500 :: 23839523554299840093994400 :: 23839523554299840093994400 :: 22919406299980342840479500 :: 20532063530787001104252400 :: 14863364798839306162619000 :: 0 :: 0 :: 30223145490365729367654400 :: 30223145490365729367654400 :: 30223145490365729367654400 :: 30223145490365729367654400 :: 30223145490365729367654400 :: 30223145490365729367654400 :: 30223145490365729367654400 :: 30223145490365729367654400 :: 0 :: []

def zState40 : List ℤ :=
  0 :: 120892581961462917470617600 :: 120892581961462917470617600 :: 120892581961462917470617600 :: 120892581961462917470617600 :: 120892581961462917470617600 :: 120892581961462917470617600 :: 120892581961462917470617600 :: 120892581961462917470617600 :: 0 :: 0 :: 59513336080809951861796400 :: 82240814745745467945125800 :: 91829245672634927326895400 :: 95530527473047217746319500 :: 95530527473047217746319500 :: 91829245672634927326895400 :: 82240814745745467945125800 :: 59513336080809951861796400 :: 0 :: 0 :: 35145059773637161855424000 :: 57151071809228267009288200 :: 69223020100504028745491200 :: 74517831240091212178281400 :: 74517831240091212178281400 :: 69223020100504028745491200 :: 57151071809228267009288200 :: 35145059773637161855424000 :: 0 :: 0 :: 24338781578994124210303900 :: 42790414031511079458262300 :: 54464909332339456402807900 :: 60017894925070358355196900 :: 60017894925070358355196900 :: 54464909332339456402807900 :: 42790414031511079458262300 :: 24338781578994124210303900 :: 0 :: 0 :: 19989538757123914063704100 :: 36277795713835537707984100 :: 47271241530959977919473900 :: 52711701755353516178574700 :: 52711701755353516178574700 :: 47271241530959977919473900 :: 36277795713835537707984100 :: 19989538757123914063704100 :: 0 :: 0 :: 19989538757123914063704100 :: 36277795713835537707984100 :: 47271241530959977919473900 :: 52711701755353516178574700 :: 52711701755353516178574700 :: 47271241530959977919473900 :: 36277795713835537707984100 :: 19989538757123914063704100 :: 0 :: 0 :: 24338781578994124210303900 :: 42790414031511079458262300 :: 54464909332339456402807900 :: 60017894925070358355196900 :: 60017894925070358355196900 :: 54464909332339456402807900 :: 42790414031511079458262300 :: 24338781578994124210303900 :: 0 :: 0 :: 35145059773637161855424000 :: 57151071809228267009288200 :: 69223020100504028745491200 :: 74517831240091212178281400 :: 74517831240091212178281400 :: 69223020100504028745491200 :: 57151071809228267009288200 :: 35145059773637161855424000 :: 0 :: 0 :: 59513336080809951861796400 :: 82240814745745467945125800 :: 91829245672634927326895400 :: 95530527473047217746319500 :: 95530527473047217746319500 :: 91829245672634927326895400 :: 82240814745745467945125800 :: 59513336080809951861796400 :: 0 :: 0 :: 120892581961462917470617600 :: 120892581961462917470617600 :: 120892581961462917470617600 :: 120892581961462917470617600 :: 120892581961462917470617600 :: 120892581961462917470617600 :: 120892581961462917470617600 :: 120892581961462917470617600 :: 0 :: []

def zState41 : List ℤ :=
  0 :: 483570327845851669882470400 :: 483570327845851669882470400 :: 483570327845851669882470400 :: 483570327845851669882470400 :: 483570327845851669882470400 :: 483570327845851669882470400 :: 483570327845851669882470400 :: 483570327845851669882470400 :: 0 :: 0 :: 238278456480845547271167400 :: 329386235524136063668597600 :: 367886944280759631907554100 :: 382770186347236274722113900 :: 382770186347236274722113900 :: 367886944280759631907554100 :: 329386235524136063668597600 :: 238278456480845547271167400 :: 0 :: 0 :: 141003189469032343081388500 :: 229399308651397738004303300 :: 277963058054293862917272900 :: 299289273738712817025289000 :: 299289273738712817025289000 :: 277963058054293862917272900 :: 229399308651397738004303300 :: 141003189469032343081388500 :: 0 :: 0 :: 97925012562272155377390400 :: 172232558434397385330384100 :: 219302570588045444478424300 :: 241712337252854543114860900 :: 241712337252854543114860900 :: 219302570588045444478424300 :: 172232558434397385330384100 :: 97925012562272155377390400 :: 0 :: 0 :: 80606116049953575981992100 :: 146328990033430509149424400 :: 190725648332488488208840600 :: 212712539966737368631820200 :: 212712539966737368631820200 :: 190725648332488488208840600 :: 146328990033430509149424400 :: 80606116049953575981992100 :: 0 :: 0 :: 80606116049953575981992100 :: 146328990033430509149424400 :: 190725648332488488208840600 :: 212712539966737368631820200 :: 212712539966737368631820200 :: 190725648332488488208840600 :: 146328990033430509149424400 :: 80606116049953575981992100 :: 0 :: 0 :: 97925012562272155377390400 :: 172232558434397385330384100 :: 219302570588045444478424300 :: 241712337252854543114860900 :: 241712337252854543114860900 :: 219302570588045444478424300 :: 172232558434397385330384100 :: 97925012562272155377390400 :: 0 :: 0 :: 141003189469032343081388500 :: 229399308651397738004303300 :: 277963058054293862917272900 :: 299289273738712817025289000 :: 299289273738712817025289000 :: 277963058054293862917272900 :: 229399308651397738004303300 :: 141003189469032343081388500 :: 0 :: 0 :: 238278456480845547271167400 :: 329386235524136063668597600 :: 367886944280759631907554100 :: 382770186347236274722113900 :: 382770186347236274722113900 :: 367886944280759631907554100 :: 329386235524136063668597600 :: 238278456480845547271167400 :: 0 :: 0 :: 483570327845851669882470400 :: 483570327845851669882470400 :: 483570327845851669882470400 :: 483570327845851669882470400 :: 483570327845851669882470400 :: 483570327845851669882470400 :: 483570327845851669882470400 :: 483570327845851669882470400 :: 0 :: []

def zState42 : List ℤ :=
  0 :: 1934281311383406679529881600 :: 1934281311383406679529881600 :: 1934281311383406679529881600 :: 1934281311383406679529881600 :: 1934281311383406679529881600 :: 1934281311383406679529881600 :: 1934281311383406679529881600 :: 1934281311383406679529881600 :: 0 :: 0 :: 953959752839020076632456500 :: 1319135037258854587065495200 :: 1473689807771517871190454800 :: 1533516732212560393537427400 :: 1533516732212560393537427400 :: 1473689807771517871190454800 :: 1319135037258854587065495200 :: 953959752839020076632456500 :: 0 :: 0 :: 565602777694515440652861100 :: 920585041481859654997643100 :: 1115878097258915631415570700 :: 1201734855393097497779536700 :: 1201734855393097497779536700 :: 1115878097258915631415570700 :: 920585041481859654997643100 :: 565602777694515440652861100 :: 0 :: 0 :: 393841863953383304393764700 :: 692955881835145847009542400 :: 882633602074034279571358500 :: 973016721546350173250394400 :: 973016721546350173250394400 :: 882633602074034279571358500 :: 692955881835145847009542400 :: 393841863953383304393764700 :: 0 :: 0 :: 324860118645656240508806900 :: 589893312850269958670641200 :: 769069748920701810468509500 :: 857863065518817768587341900 :: 857863065518817768587341900 :: 769069748920701810468509500 :: 589893312850269958670641200 :: 324860118645656240508806900 :: 0 :: 0 :: 324860118645656240508806900 :: 589893312850269958670641200 :: 769069748920701810468509500 :: 857863065518817768587341900 :: 857863065518817768587341900 :: 769069748920701810468509500 :: 589893312850269958670641200 :: 324860118645656240508806900 :: 0 :: 0 :: 393841863953383304393764700 :: 692955881835145847009542400 :: 882633602074034279571358500 :: 973016721546350173250394400 :: 973016721546350173250394400 :: 882633602074034279571358500 :: 692955881835145847009542400 :: 393841863953383304393764700 :: 0 :: 0 :: 565602777694515440652861100 :: 920585041481859654997643100 :: 1115878097258915631415570700 :: 1201734855393097497779536700 :: 1201734855393097497779536700 :: 1115878097258915631415570700 :: 920585041481859654997643100 :: 565602777694515440652861100 :: 0 :: 0 :: 953959752839020076632456500 :: 1319135037258854587065495200 :: 1473689807771517871190454800 :: 1533516732212560393537427400 :: 1533516732212560393537427400 :: 1473689807771517871190454800 :: 1319135037258854587065495200 :: 953959752839020076632456500 :: 0 :: 0 :: 1934281311383406679529881600 :: 1934281311383406679529881600 :: 1934281311383406679529881600 :: 1934281311383406679529881600 :: 1934281311383406679529881600 :: 1934281311383406679529881600 :: 1934281311383406679529881600 :: 1934281311383406679529881600 :: 0 :: []

def zState43 : List ℤ :=
  0 :: 7737125245533626718119526400 :: 7737125245533626718119526400 :: 7737125245533626718119526400 :: 7737125245533626718119526400 :: 7737125245533626718119526400 :: 7737125245533626718119526400 :: 7737125245533626718119526400 :: 7737125245533626718119526400 :: 0 :: 0 :: 3819019126336776707248237900 :: 5282515913475804282350436000 :: 5902811178113737291548374900 :: 6143222706760582442037300500 :: 6143222706760582442037300500 :: 5902811178113737291548374900 :: 5282515913475804282350436000 :: 3819019126336776707248237900 :: 0 :: 0 :: 2268386658274263036023864300 :: 3693571794047431506143469400 :: 4478643306720509303538993100 :: 4824146406410923695982929200 :: 4824146406410923695982929200 :: 4478643306720509303538993100 :: 3693571794047431506143469400 :: 2268386658274263036023864300 :: 0 :: 0 :: 1583418778175317528171210400 :: 2786953820359547197633407500 :: 3550920449561113462144017000 :: 3915248244532299719188631500 :: 3915248244532299719188631500 :: 3550920449561113462144017000 :: 2786953820359547197633407500 :: 1583418778175317528171210400 :: 0 :: 0 :: 1308595295449309503573212800 :: 2376779062251773856657500000 :: 3099459729363823817297851100 :: 3457812601504687520893587700 :: 3457812601504687520893587700 :: 3099459729363823817297851100 :: 2376779062251773856657500000 :: 1308595295449309503573212800 :: 0 :: 0 :: 1308595295449309503573212800 :: 2376779062251773856657500000 :: 3099459729363823817297851100 :: 3457812601504687520893587700 :: 3457812601504687520893587700 :: 3099459729363823817297851100 :: 2376779062251773856657500000 :: 1308595295449309503573212800 :: 0 :: 0 :: 1583418778175317528171210400 :: 2786953820359547197633407500 :: 3550920449561113462144017000 :: 3915248244532299719188631500 :: 3915248244532299719188631500 :: 3550920449561113462144017000 :: 2786953820359547197633407500 :: 1583418778175317528171210400 :: 0 :: 0 :: 2268386658274263036023864300 :: 3693571794047431506143469400 :: 4478643306720509303538993100 :: 4824146406410923695982929200 :: 4824146406410923695982929200 :: 4478643306720509303538993100 :: 3693571794047431506143469400 :: 2268386658274263036023864300 :: 0 :: 0 :: 3819019126336776707248237900 :: 5282515913475804282350436000 :: 5902811178113737291548374900 :: 6143222706760582442037300500 :: 6143222706760582442037300500 :: 5902811178113737291548374900 :: 5282515913475804282350436000 :: 3819019126336776707248237900 :: 0 :: 0 :: 7737125245533626718119526400 :: 7737125245533626718119526400 :: 7737125245533626718119526400 :: 7737125245533626718119526400 :: 7737125245533626718119526400 :: 7737125245533626718119526400 :: 7737125245533626718119526400 :: 7737125245533626718119526400 :: 0 :: []

def zState44 : List ℤ :=
  0 :: 30948500982134506872478105600 :: 30948500982134506872478105600 :: 30948500982134506872478105600 :: 30948500982134506872478105600 :: 30948500982134506872478105600 :: 30948500982134506872478105600 :: 30948500982134506872478105600 :: 30948500982134506872478105600 :: 0 :: 0 :: 15288027817283694036493826700 :: 21152527344031572223059608600 :: 23641507172490522746046256000 :: 24607305536818870147688131000 :: 24607305536818870147688131000 :: 23641507172490522746046256000 :: 21152527344031572223059608600 :: 15288027817283694036493826700 :: 0 :: 0 :: 9096009698559525741562917700 :: 14816499698830123819546700900 :: 17971449828133205955818790500 :: 19361260664424315160747854300 :: 19361260664424315160747854300 :: 17971449828133205955818790500 :: 14816499698830123819546700900 :: 9096009698559525741562917700 :: 0 :: 0 :: 6363935774083119737230484600 :: 11204690084035636353116196800 :: 14280305100976180037658883200 :: 15748127702009024398209165400 :: 15748127702009024398209165400 :: 14280305100976180037658883200 :: 11204690084035636353116196800 :: 6363935774083119737230484600 :: 0 :: 0 :: 5268793135876400888401923200 :: 9571787907424454375161971400 :: 12484971842681398656992955800 :: 13930333176905498578273658000 :: 13930333176905498578273658000 :: 12484971842681398656992955800 :: 9571787907424454375161971400 :: 5268793135876400888401923200 :: 0 :: 0 :: 5268793135876400888401923200 :: 9571787907424454375161971400 :: 12484971842681398656992955800 :: 13930333176905498578273658000 :: 13930333176905498578273658000 :: 12484971842681398656992955800 :: 9571787907424454375161971400 :: 5268793135876400888401923200 :: 0 :: 0 :: 6363935774083119737230484600 :: 11204690084035636353116196800 :: 14280305100976180037658883200 :: 15748127702009024398209165400 :: 15748127702009024398209165400 :: 14280305100976180037658883200 :: 11204690084035636353116196800 :: 6363935774083119737230484600 :: 0 :: 0 :: 9096009698559525741562917700 :: 14816499698830123819546700900 :: 17971449828133205955818790500 :: 19361260664424315160747854300 :: 19361260664424315160747854300 :: 17971449828133205955818790500 :: 14816499698830123819546700900 :: 9096009698559525741562917700 :: 0 :: 0 :: 15288027817283694036493826700 :: 21152527344031572223059608600 :: 23641507172490522746046256000 :: 24607305536818870147688131000 :: 24607305536818870147688131000 :: 23641507172490522746046256000 :: 21152527344031572223059608600 :: 15288027817283694036493826700 :: 0 :: 0 :: 30948500982134506872478105600 :: 30948500982134506872478105600 :: 30948500982134506872478105600 :: 30948500982134506872478105600 :: 30948500982134506872478105600 :: 30948500982134506872478105600 :: 30948500982134506872478105600 :: 30948500982134506872478105600 :: 0 :: []

def zState45 : List ℤ :=
  0 :: 123794003928538027489912422400 :: 123794003928538027489912422400 :: 123794003928538027489912422400 :: 123794003928538027489912422400 :: 123794003928538027489912422400 :: 123794003928538027489912422400 :: 123794003928538027489912422400 :: 123794003928538027489912422400 :: 0 :: 0 :: 61197038024725604837100631900 :: 84694535670738847474564889200 :: 94679783691118155199044635700 :: 98558574355868214926960346900 :: 98558574355868214926960346900 :: 94679783691118155199044635700 :: 84694535670738847474564889200 :: 61197038024725604837100631900 :: 0 :: 0 :: 36468463290196937593271012200 :: 59424676954759940273557513600 :: 72099572636721141763999694400 :: 77688143731385415662463941200 :: 77688143731385415662463941200 :: 72099572636721141763999694400 :: 59424676954759940273557513600 :: 36468463290196937593271012200 :: 0 :: 0 :: 25569492918471562983081037700 :: 45032528481313877969598040100 :: 57409239456859265364137108500 :: 63320026644315018174889560900 :: 63320026644315018174889560900 :: 57409239456859265364137108500 :: 45032528481313877969598040100 :: 25569492918471562983081037700 :: 0 :: 0 :: 21204516817383975000794379200 :: 38530242970017890273673047200 :: 50267398027987531648087468400 :: 56093765898501420211749437200 :: 56093765898501420211749437200 :: 50267398027987531648087468400 :: 38530242970017890273673047200 :: 21204516817383975000794379200 :: 0 :: 0 :: 21204516817383975000794379200 :: 38530242970017890273673047200 :: 50267398027987531648087468400 :: 56093765898501420211749437200 :: 56093765898501420211749437200 :: 50267398027987531648087468400 :: 38530242970017890273673047200 :: 21204516817383975000794379200 :: 0 :: 0 :: 25569492918471562983081037700 :: 45032528481313877969598040100 :: 57409239456859265364137108500 :: 63320026644315018174889560900 :: 63320026644315018174889560900 :: 57409239456859265364137108500 :: 45032528481313877969598040100 :: 25569492918471562983081037700 :: 0 :: 0 :: 36468463290196937593271012200 :: 59424676954759940273557513600 :: 72099572636721141763999694400 :: 77688143731385415662463941200 :: 77688143731385415662463941200 :: 72099572636721141763999694400 :: 59424676954759940273557513600 :: 36468463290196937593271012200 :: 0 :: 0 :: 61197038024725604837100631900 :: 84694535670738847474564889200 :: 94679783691118155199044635700 :: 98558574355868214926960346900 :: 98558574355868214926960346900 :: 94679783691118155199044635700 :: 84694535670738847474564889200 :: 61197038024725604837100631900 :: 0 :: 0 :: 123794003928538027489912422400 :: 123794003928538027489912422400 :: 123794003928538027489912422400 :: 123794003928538027489912422400 :: 123794003928538027489912422400 :: 123794003928538027489912422400 :: 123794003928538027489912422400 :: 123794003928538027489912422400 :: 0 :: []

def zState46 : List ℤ :=
  0 :: 495176015714152109959649689600 :: 495176015714152109959649689600 :: 495176015714152109959649689600 :: 495176015714152109959649689600 :: 495176015714152109959649689600 :: 495176015714152109959649689600 :: 495176015714152109959649689600 :: 495176015714152109959649689600 :: 0 :: 0 :: 244957002889473812557748323800 :: 339095502599141727799615203600 :: 379146686591866231655437352900 :: 394720505706909813278381346200 :: 394720505706909813278381346200 :: 379146686591866231655437352900 :: 339095502599141727799615203600 :: 244957002889473812557748323800 :: 0 :: 0 :: 146191207897957108093739183200 :: 238295100078970804801433635900 :: 289201843834122776499203199000 :: 311666317368289790528313543400 :: 311666317368289790528313543400 :: 289201843834122776499203199000 :: 238295100078970804801433635900 :: 146191207897957108093739183200 :: 0 :: 0 :: 102705508588894790563663431500 :: 180933652300108658894448707000 :: 230719525790337569556574763800 :: 254511175731061119413240047800 :: 254511175731061119413240047800 :: 230719525790337569556574763800 :: 180933652300108658894448707000 :: 102705508588894790563663431500 :: 0 :: 0 :: 85304252705873428257548464100 :: 155034686296703274892152934900 :: 202300646353366107497647061300 :: 225774956469305390246475903700 :: 225774956469305390246475903700 :: 202300646353366107497647061300 :: 155034686296703274892152934900 :: 85304252705873428257548464100 :: 0 :: 0 :: 85304252705873428257548464100 :: 155034686296703274892152934900 :: 202300646353366107497647061300 :: 225774956469305390246475903700 :: 225774956469305390246475903700 :: 202300646353366107497647061300 :: 155034686296703274892152934900 :: 85304252705873428257548464100 :: 0 :: 0 :: 102705508588894790563663431500 :: 180933652300108658894448707000 :: 230719525790337569556574763800 :: 254511175731061119413240047800 :: 254511175731061119413240047800 :: 230719525790337569556574763800 :: 180933652300108658894448707000 :: 102705508588894790563663431500 :: 0 :: 0 :: 146191207897957108093739183200 :: 238295100078970804801433635900 :: 289201843834122776499203199000 :: 311666317368289790528313543400 :: 311666317368289790528313543400 :: 289201843834122776499203199000 :: 238295100078970804801433635900 :: 146191207897957108093739183200 :: 0 :: 0 :: 244957002889473812557748323800 :: 339095502599141727799615203600 :: 379146686591866231655437352900 :: 394720505706909813278381346200 :: 394720505706909813278381346200 :: 379146686591866231655437352900 :: 339095502599141727799615203600 :: 244957002889473812557748323800 :: 0 :: 0 :: 495176015714152109959649689600 :: 495176015714152109959649689600 :: 495176015714152109959649689600 :: 495176015714152109959649689600 :: 495176015714152109959649689600 :: 495176015714152109959649689600 :: 495176015714152109959649689600 :: 495176015714152109959649689600 :: 0 :: []

def zState47 : List ℤ :=
  0 :: 1980704062856608439838598758400 :: 1980704062856608439838598758400 :: 1980704062856608439838598758400 :: 1980704062856608439838598758400 :: 1980704062856608439838598758400 :: 1980704062856608439838598758400 :: 1980704062856608439838598758400 :: 1980704062856608439838598758400 :: 0 :: 0 :: 980462726211250945853004076400 :: 1357574805274462958974269002200 :: 1518193867854326427536849438400 :: 1580709525381217945421781932100 :: 1580709525381217945421781932100 :: 1518193867854326427536849438400 :: 1357574805274462958974269002200 :: 980462726211250945853004076400 :: 0 :: 0 :: 585957611557339407922845391200 :: 955422206631330271287006292800 :: 1159827629829464396541759296000 :: 1250099842640383499719138136400 :: 1250099842640383499719138136400 :: 1159827629829464396541759296000 :: 955422206631330271287006292800 :: 585957611557339407922845391200 :: 0 :: 0 :: 412429112903939195245736354300 :: 726754820754906439813824766100 :: 926947318218658662304539015100 :: 1022671975358993869744604258700 :: 1022671975358993869744604258700 :: 926947318218658662304539015100 :: 726754820754906439813824766100 :: 412429112903939195245736354300 :: 0 :: 0 :: 343044447591471493713364830500 :: 623573237656051469541797167300 :: 813829814909712342192850663700 :: 908361735023038007403838916500 :: 908361735023038007403838916500 :: 813829814909712342192850663700 :: 623573237656051469541797167300 :: 343044447591471493713364830500 :: 0 :: 0 :: 343044447591471493713364830500 :: 623573237656051469541797167300 :: 813829814909712342192850663700 :: 908361735023038007403838916500 :: 908361735023038007403838916500 :: 813829814909712342192850663700 :: 623573237656051469541797167300 :: 343044447591471493713364830500 :: 0 :: 0 :: 412429112903939195245736354300 :: 726754820754906439813824766100 :: 926947318218658662304539015100 :: 1022671975358993869744604258700 :: 1022671975358993869744604258700 :: 926947318218658662304539015100 :: 726754820754906439813824766100 :: 412429112903939195245736354300 :: 0 :: 0 :: 585957611557339407922845391200 :: 955422206631330271287006292800 :: 1159827629829464396541759296000 :: 1250099842640383499719138136400 :: 1250099842640383499719138136400 :: 1159827629829464396541759296000 :: 955422206631330271287006292800 :: 585957611557339407922845391200 :: 0 :: 0 :: 980462726211250945853004076400 :: 1357574805274462958974269002200 :: 1518193867854326427536849438400 :: 1580709525381217945421781932100 :: 1580709525381217945421781932100 :: 1518193867854326427536849438400 :: 1357574805274462958974269002200 :: 980462726211250945853004076400 :: 0 :: 0 :: 1980704062856608439838598758400 :: 1980704062856608439838598758400 :: 1980704062856608439838598758400 :: 1980704062856608439838598758400 :: 1980704062856608439838598758400 :: 1980704062856608439838598758400 :: 1980704062856608439838598758400 :: 1980704062856608439838598758400 :: 0 :: []

def zState48 : List ℤ :=
  0 :: 7922816251426433759354395033600 :: 7922816251426433759354395033600 :: 7922816251426433759354395033600 :: 7922816251426433759354395033600 :: 7922816251426433759354395033600 :: 7922816251426433759354395033600 :: 7922816251426433759354395033600 :: 7922816251426433759354395033600 :: 0 :: 0 :: 3924236479688410806735713151800 :: 5434782863553516084515458566000 :: 6078816023341753740776408988700 :: 6329707298732536312516368265300 :: 6329707298732536312516368265300 :: 6078816023341753740776408988700 :: 5434782863553516084515458566000 :: 3924236479688410806735713151800 :: 0 :: 0 :: 2348314045746520412385746723500 :: 3830114867416173203252698455500 :: 4650663235344698860847532882700 :: 5013308973210059711427283623200 :: 5013308973210059711427283623200 :: 4650663235344698860847532882700 :: 3830114867416173203252698455500 :: 2348314045746520412385746723500 :: 0 :: 0 :: 1655756879903717341450034987800 :: 2918371875409979598379078829500 :: 3723084240853077048293038984500 :: 4108080871241074039172120326700 :: 4108080871241074039172120326700 :: 3723084240853077048293038984500 :: 2918371875409979598379078829500 :: 1655756879903717341450034987800 :: 0 :: 0 :: 1379046798151462158500898352100 :: 2507202320912141745261837427600 :: 3272712105807460481443025762600 :: 3653225260314782226745132755400 :: 3653225260314782226745132755400 :: 3272712105807460481443025762600 :: 2507202320912141745261837427600 :: 1379046798151462158500898352100 :: 0 :: 0 :: 1379046798151462158500898352100 :: 2507202320912141745261837427600 :: 3272712105807460481443025762600 :: 3653225260314782226745132755400 :: 3653225260314782226745132755400 :: 3272712105807460481443025762600 :: 2507202320912141745261837427600 :: 1379046798151462158500898352100 :: 0 :: 0 :: 1655756879903717341450034987800 :: 2918371875409979598379078829500 :: 3723084240853077048293038984500 :: 4108080871241074039172120326700 :: 4108080871241074039172120326700 :: 3723084240853077048293038984500 :: 2918371875409979598379078829500 :: 1655756879903717341450034987800 :: 0 :: 0 :: 2348314045746520412385746723500 :: 3830114867416173203252698455500 :: 4650663235344698860847532882700 :: 5013308973210059711427283623200 :: 5013308973210059711427283623200 :: 4650663235344698860847532882700 :: 3830114867416173203252698455500 :: 2348314045746520412385746723500 :: 0 :: 0 :: 3924236479688410806735713151800 :: 5434782863553516084515458566000 :: 6078816023341753740776408988700 :: 6329707298732536312516368265300 :: 6329707298732536312516368265300 :: 6078816023341753740776408988700 :: 5434782863553516084515458566000 :: 3924236479688410806735713151800 :: 0 :: 0 :: 7922816251426433759354395033600 :: 7922816251426433759354395033600 :: 7922816251426433759354395033600 :: 7922816251426433759354395033600 :: 7922816251426433759354395033600 :: 7922816251426433759354395033600 :: 7922816251426433759354395033600 :: 7922816251426433759354395033600 :: 0 :: []

def zState49 : List ℤ :=
  0 :: 31691265005705735037417580134400 :: 31691265005705735037417580134400 :: 31691265005705735037417580134400 :: 31691265005705735037417580134400 :: 31691265005705735037417580134400 :: 31691265005705735037417580134400 :: 31691265005705735037417580134400 :: 31691265005705735037417580134400 :: 0 :: 0 :: 15705913160726470256255600323100 :: 21755983621872771510119215629600 :: 24337969649057185017233754747600 :: 25344648546710783524074455910800 :: 25344648546710783524074455910800 :: 24337969649057185017233754747600 :: 21755983621872771510119215629600 :: 15705913160726470256255600323100 :: 0 :: 0 :: 9410108227008301351438446595100 :: 15352132020054714956127817001700 :: 18645324104821063703749430051900 :: 20101760378528368923963305097900 :: 20101760378528368923963305097900 :: 18645324104821063703749430051900 :: 15352132020054714956127817001700 :: 9410108227008301351438446595100 :: 0 :: 0 :: 6645732719307962169265723905100 :: 11716158309085109338257609855400 :: 14949828087803212979841757801500 :: 16497699345618993025637575689800 :: 16497699345618993025637575689800 :: 14949828087803212979841757801500 :: 11716158309085109338257609855400 :: 6645732719307962169265723905100 :: 0 :: 0 :: 5542005998967321245212770767500 :: 10077333100281043983584840371800 :: 13156223927887461501743034930100 :: 14687243497678098974105411600100 :: 14687243497678098974105411600100 :: 13156223927887461501743034930100 :: 10077333100281043983584840371800 :: 5542005998967321245212770767500 :: 0 :: 0 :: 5542005998967321245212770767500 :: 10077333100281043983584840371800 :: 13156223927887461501743034930100 :: 14687243497678098974105411600100 :: 14687243497678098974105411600100 :: 13156223927887461501743034930100 :: 10077333100281043983584840371800 :: 5542005998967321245212770767500 :: 0 :: 0 :: 6645732719307962169265723905100 :: 11716158309085109338257609855400 :: 14949828087803212979841757801500 :: 16497699345618993025637575689800 :: 16497699345618993025637575689800 :: 14949828087803212979841757801500 :: 11716158309085109338257609855400 :: 6645732719307962169265723905100 :: 0 :: 0 :: 9410108227008301351438446595100 :: 15352132020054714956127817001700 :: 18645324104821063703749430051900 :: 20101760378528368923963305097900 :: 20101760378528368923963305097900 :: 18645324104821063703749430051900 :: 15352132020054714956127817001700 :: 9410108227008301351438446595100 :: 0 :: 0 :: 15705913160726470256255600323100 :: 21755983621872771510119215629600 :: 24337969649057185017233754747600 :: 25344648546710783524074455910800 :: 25344648546710783524074455910800 :: 24337969649057185017233754747600 :: 21755983621872771510119215629600 :: 15705913160726470256255600323100 :: 0 :: 0 :: 31691265005705735037417580134400 :: 31691265005705735037417580134400 :: 31691265005705735037417580134400 :: 31691265005705735037417580134400 :: 31691265005705735037417580134400 :: 31691265005705735037417580134400 :: 31691265005705735037417580134400 :: 31691265005705735037417580134400 :: 0 :: []

def zState50 : List ℤ :=
  0 :: 126765060022822940149670320537600 :: 126765060022822940149670320537600 :: 126765060022822940149670320537600 :: 126765060022822940149670320537600 :: 126765060022822940149670320537600 :: 126765060022822940149670320537600 :: 126765060022822940149670320537600 :: 126765060022822940149670320537600 :: 0 :: 0 :: 62857356854586807898975242359100 :: 87087279835544105267034752206800 :: 97437221279110353775360681726700 :: 101475643580002072502689095890700 :: 101475643580002072502689095890700 :: 97437221279110353775360681726700 :: 87087279835544105267034752206800 :: 62857356854586807898975242359100 :: 0 :: 0 :: 37703777900089147381649141229900 :: 61527574262787245903564702132000 :: 74741690135443481877166634648700 :: 80589432375679209177424766750400 :: 80589432375679209177424766750400 :: 74741690135443481877166634648700 :: 61527574262787245903564702132000 :: 37703777900089147381649141229900 :: 0 :: 0 :: 26668272535060731934908827218000 :: 47025025927446934088820139080100 :: 60015405687412627569387650527200 :: 66236531309628673903548050189300 :: 66236531309628673903548050189300 :: 60015405687412627569387650527200 :: 47025025927446934088820139080100 :: 26668272535060731934908827218000 :: 0 :: 0 :: 22265071818556327398063335044400 :: 40491721336220936068798255924800 :: 52870628613649817439275044703500 :: 59028410268862652475591433820100 :: 59028410268862652475591433820100 :: 52870628613649817439275044703500 :: 40491721336220936068798255924800 :: 22265071818556327398063335044400 :: 0 :: 0 :: 22265071818556327398063335044400 :: 40491721336220936068798255924800 :: 52870628613649817439275044703500 :: 59028410268862652475591433820100 :: 59028410268862652475591433820100 :: 52870628613649817439275044703500 :: 40491721336220936068798255924800 :: 22265071818556327398063335044400 :: 0 :: 0 :: 26668272535060731934908827218000 :: 47025025927446934088820139080100 :: 60015405687412627569387650527200 :: 66236531309628673903548050189300 :: 66236531309628673903548050189300 :: 60015405687412627569387650527200 :: 47025025927446934088820139080100 :: 26668272535060731934908827218000 :: 0 :: 0 :: 37703777900089147381649141229900 :: 61527574262787245903564702132000 :: 74741690135443481877166634648700 :: 80589432375679209177424766750400 :: 80589432375679209177424766750400 :: 74741690135443481877166634648700 :: 61527574262787245903564702132000 :: 37703777900089147381649141229900 :: 0 :: 0 :: 62857356854586807898975242359100 :: 87087279835544105267034752206800 :: 97437221279110353775360681726700 :: 101475643580002072502689095890700 :: 101475643580002072502689095890700 :: 97437221279110353775360681726700 :: 87087279835544105267034752206800 :: 62857356854586807898975242359100 :: 0 :: 0 :: 126765060022822940149670320537600 :: 126765060022822940149670320537600 :: 126765060022822940149670320537600 :: 126765060022822940149670320537600 :: 126765060022822940149670320537600 :: 126765060022822940149670320537600 :: 126765060022822940149670320537600 :: 126765060022822940149670320537600 :: 0 :: []

def zState51 : List ℤ :=
  0 :: 507060240091291760598681282150400 :: 507060240091291760598681282150400 :: 507060240091291760598681282150400 :: 507060240091291760598681282150400 :: 507060240091291760598681282150400 :: 507060240091291760598681282150400 :: 507060240091291760598681282150400 :: 507060240091291760598681282150400 :: 0 :: 0 :: 251556117758456192798354213974300 :: 348587212419307347727570946755400 :: 390069673573812599796560803283800 :: 406267357257614575605144864905400 :: 406267357257614575605144864905400 :: 390069673573812599796560803283800 :: 348587212419307347727570946755400 :: 251556117758456192798354213974300 :: 0 :: 0 :: 151053203652434785737448771709100 :: 246557773798523668614670667165500 :: 299569633604989436425737801136300 :: 323043297400753437460828547479100 :: 323043297400753437460828547479100 :: 299569633604989436425737801136300 :: 246557773798523668614670667165500 :: 151053203652434785737448771709100 :: 0 :: 0 :: 106993875646092408868532615354400 :: 188702973821481541476659435802000 :: 240873875986168907308809868621600 :: 265869779641583163125951901287000 :: 265869779641583163125951901287000 :: 240873875986168907308809868621600 :: 188702973821481541476659435802000 :: 106993875646092408868532615354400 :: 0 :: 0 :: 89425065689837995401770418187200 :: 162652447695874014994956774752800 :: 212406165906146033553052384975600 :: 237163980461003796294005962533000 :: 237163980461003796294005962533000 :: 212406165906146033553052384975600 :: 162652447695874014994956774752800 :: 89425065689837995401770418187200 :: 0 :: 0 :: 89425065689837995401770418187200 :: 162652447695874014994956774752800 :: 212406165906146033553052384975600 :: 237163980461003796294005962533000 :: 237163980461003796294005962533000 :: 212406165906146033553052384975600 :: 162652447695874014994956774752800 :: 89425065689837995401770418187200 :: 0 :: 0 :: 106993875646092408868532615354400 :: 188702973821481541476659435802000 :: 240873875986168907308809868621600 :: 265869779641583163125951901287000 :: 265869779641583163125951901287000 :: 240873875986168907308809868621600 :: 188702973821481541476659435802000 :: 106993875646092408868532615354400 :: 0 :: 0 :: 151053203652434785737448771709100 :: 246557773798523668614670667165500 :: 299569633604989436425737801136300 :: 323043297400753437460828547479100 :: 323043297400753437460828547479100 :: 299569633604989436425737801136300 :: 246557773798523668614670667165500 :: 151053203652434785737448771709100 :: 0 :: 0 :: 251556117758456192798354213974300 :: 348587212419307347727570946755400 :: 390069673573812599796560803283800 :: 406267357257614575605144864905400 :: 406267357257614575605144864905400 :: 390069673573812599796560803283800 :: 348587212419307347727570946755400 :: 251556117758456192798354213974300 :: 0 :: 0 :: 507060240091291760598681282150400 :: 507060240091291760598681282150400 :: 507060240091291760598681282150400 :: 507060240091291760598681282150400 :: 507060240091291760598681282150400 :: 507060240091291760598681282150400 :: 507060240091291760598681282150400 :: 507060240091291760598681282150400 :: 0 :: []

def zState52 : List ℤ :=
  0 :: 2028240960365167042394725128601600 :: 2028240960365167042394725128601600 :: 2028240960365167042394725128601600 :: 2028240960365167042394725128601600 :: 2028240960365167042394725128601600 :: 2028240960365167042394725128601600 :: 2028240960365167042394725128601600 :: 2028240960365167042394725128601600 :: 0 :: 0 :: 1006700656163033894063701000614900 :: 1395243805222084221808266966574000 :: 1561484443373203120357134894947500 :: 1626440568323472373461215497818700 :: 1626440568323472373461215497818700 :: 1561484443373203120357134894947500 :: 1395243805222084221808266966574000 :: 1006700656163033894063701000614900 :: 0 :: 0 :: 605107767203072270281557496494200 :: 987913023498213111367416955402800 :: 1200544620759258613180869886550000 :: 1294750067904940612617663114807800 :: 1294750067904940612617663114807800 :: 1200544620759258613180869886550000 :: 987913023498213111367416955402800 :: 605107767203072270281557496494200 :: 0 :: 0 :: 429181243163754322615878625698300 :: 757077973126658999786969925894300 :: 966548552974200174581401523200900 :: 1066950933489509304189596279920700 :: 1066950933489509304189596279920700 :: 966548552974200174581401523200900 :: 757077973126658999786969925894300 :: 429181243163754322615878625698300 :: 0 :: 0 :: 359071389031804419265259808294400 :: 653186653113339585426439013717600 :: 853096470049192752150824990883000 :: 952603906469736789267016211328600 :: 952603906469736789267016211328600 :: 853096470049192752150824990883000 :: 653186653113339585426439013717600 :: 359071389031804419265259808294400 :: 0 :: 0 :: 359071389031804419265259808294400 :: 653186653113339585426439013717600 :: 853096470049192752150824990883000 :: 952603906469736789267016211328600 :: 952603906469736789267016211328600 :: 853096470049192752150824990883000 :: 653186653113339585426439013717600 :: 359071389031804419265259808294400 :: 0 :: 0 :: 429181243163754322615878625698300 :: 757077973126658999786969925894300 :: 966548552974200174581401523200900 :: 1066950933489509304189596279920700 :: 1066950933489509304189596279920700 :: 966548552974200174581401523200900 :: 757077973126658999786969925894300 :: 429181243163754322615878625698300 :: 0 :: 0 :: 605107767203072270281557496494200 :: 987913023498213111367416955402800 :: 1200544620759258613180869886550000 :: 1294750067904940612617663114807800 :: 1294750067904940612617663114807800 :: 1200544620759258613180869886550000 :: 987913023498213111367416955402800 :: 605107767203072270281557496494200 :: 0 :: 0 :: 1006700656163033894063701000614900 :: 1395243805222084221808266966574000 :: 1561484443373203120357134894947500 :: 1626440568323472373461215497818700 :: 1626440568323472373461215497818700 :: 1561484443373203120357134894947500 :: 1395243805222084221808266966574000 :: 1006700656163033894063701000614900 :: 0 :: 0 :: 2028240960365167042394725128601600 :: 2028240960365167042394725128601600 :: 2028240960365167042394725128601600 :: 2028240960365167042394725128601600 :: 2028240960365167042394725128601600 :: 2028240960365167042394725128601600 :: 2028240960365167042394725128601600 :: 2028240960365167042394725128601600 :: 0 :: []

def zState53 : List ℤ :=
  0 :: 8112963841460668169578900514406400 :: 8112963841460668169578900514406400 :: 8112963841460668169578900514406400 :: 8112963841460668169578900514406400 :: 8112963841460668169578900514406400 :: 8112963841460668169578900514406400 :: 8112963841460668169578900514406400 :: 8112963841460668169578900514406400 :: 0 :: 0 :: 4028592532790323534484549591669800 :: 5584339083399617168182977979566800 :: 6250469954669982250845077479544300 :: 6510916039966783148830738636175600 :: 6510916039966783148830738636175600 :: 6250469954669982250845077479544300 :: 5584339083399617168182977979566800 :: 4028592532790323534484549591669800 :: 0 :: 0 :: 2423794922825001328046996581716000 :: 3957974166311074105057664275512500 :: 4810696087750557018923616488359000 :: 5188686190477180903449344779097200 :: 5188686190477180903449344779097200 :: 4810696087750557018923616488359000 :: 3957974166311074105057664275512500 :: 2423794922825001328046996581716000 :: 0 :: 0 :: 1721257129361535689333787230682900 :: 3036829472749507193991136118019600 :: 3877669997424619669308261083248000 :: 4280853460838386880655677129258000 :: 4280853460838386880655677129258000 :: 3877669997424619669308261083248000 :: 3036829472749507193991136118019600 :: 1721257129361535689333787230682900 :: 0 :: 0 :: 1441439285308898327307577447710300 :: 2622432485320995756629493738789300 :: 3425435582606469301425681739130100 :: 3825255216478175634874453693460900 :: 3825255216478175634874453693460900 :: 3425435582606469301425681739130100 :: 2622432485320995756629493738789300 :: 1441439285308898327307577447710300 :: 0 :: 0 :: 1441439285308898327307577447710300 :: 2622432485320995756629493738789300 :: 3425435582606469301425681739130100 :: 3825255216478175634874453693460900 :: 3825255216478175634874453693460900 :: 3425435582606469301425681739130100 :: 2622432485320995756629493738789300 :: 1441439285308898327307577447710300 :: 0 :: 0 :: 1721257129361535689333787230682900 :: 3036829472749507193991136118019600 :: 3877669997424619669308261083248000 :: 4280853460838386880655677129258000 :: 4280853460838386880655677129258000 :: 3877669997424619669308261083248000 :: 3036829472749507193991136118019600 :: 1721257129361535689333787230682900 :: 0 :: 0 :: 2423794922825001328046996581716000 :: 3957974166311074105057664275512500 :: 4810696087750557018923616488359000 :: 5188686190477180903449344779097200 :: 5188686190477180903449344779097200 :: 4810696087750557018923616488359000 :: 3957974166311074105057664275512500 :: 2423794922825001328046996581716000 :: 0 :: 0 :: 4028592532790323534484549591669800 :: 5584339083399617168182977979566800 :: 6250469954669982250845077479544300 :: 6510916039966783148830738636175600 :: 6510916039966783148830738636175600 :: 6250469954669982250845077479544300 :: 5584339083399617168182977979566800 :: 4028592532790323534484549591669800 :: 0 :: 0 :: 8112963841460668169578900514406400 :: 8112963841460668169578900514406400 :: 8112963841460668169578900514406400 :: 8112963841460668169578900514406400 :: 8112963841460668169578900514406400 :: 8112963841460668169578900514406400 :: 8112963841460668169578900514406400 :: 8112963841460668169578900514406400 :: 0 :: []

def zState54 : List ℤ :=
  0 :: 32451855365842672678315602057625600 :: 32451855365842672678315602057625600 :: 32451855365842672678315602057625600 :: 32451855365842672678315602057625600 :: 32451855365842672678315602057625600 :: 32451855365842672678315602057625600 :: 32451855365842672678315602057625600 :: 32451855365842672678315602057625600 :: 0 :: 0 :: 16121097847685286665808875075689200 :: 22350000495232048059966191861133000 :: 25018915052577625505516233618507800 :: 26063036026574614472704061409223500 :: 26063036026574614472704061409223500 :: 25018915052577625505516233618507800 :: 22350000495232048059966191861133000 :: 16121097847685286665808875075689200 :: 0 :: 0 :: 9707823828462933328876001097865200 :: 15855659566724682709144727167661400 :: 19274800308882856928660347617402000 :: 20791151779032907951859377032889800 :: 20791151779032907951859377032889800 :: 19274800308882856928660347617402000 :: 15855659566724682709144727167661400 :: 9707823828462933328876001097865200 :: 0 :: 0 :: 6902063680883406849345710147445900 :: 12179333778418225220329206328232700 :: 15553814603944920394996111474766700 :: 17172464865218363088287736685064100 :: 17172464865218363088287736685064100 :: 15553814603944920394996111474766700 :: 12179333778418225220329206328232700 :: 6902063680883406849345710147445900 :: 0 :: 0 :: 5785128899991429773270858417182500 :: 10526136825985870579353889043649300 :: 13750793281830260362237890254628300 :: 15356799476401207451830266255309900 :: 15356799476401207451830266255309900 :: 13750793281830260362237890254628300 :: 10526136825985870579353889043649300 :: 5785128899991429773270858417182500 :: 0 :: 0 :: 5785128899991429773270858417182500 :: 10526136825985870579353889043649300 :: 13750793281830260362237890254628300 :: 15356799476401207451830266255309900 :: 15356799476401207451830266255309900 :: 13750793281830260362237890254628300 :: 10526136825985870579353889043649300 :: 5785128899991429773270858417182500 :: 0 :: 0 :: 6902063680883406849345710147445900 :: 12179333778418225220329206328232700 :: 15553814603944920394996111474766700 :: 17172464865218363088287736685064100 :: 17172464865218363088287736685064100 :: 15553814603944920394996111474766700 :: 12179333778418225220329206328232700 :: 6902063680883406849345710147445900 :: 0 :: 0 :: 9707823828462933328876001097865200 :: 15855659566724682709144727167661400 :: 19274800308882856928660347617402000 :: 20791151779032907951859377032889800 :: 20791151779032907951859377032889800 :: 19274800308882856928660347617402000 :: 15855659566724682709144727167661400 :: 9707823828462933328876001097865200 :: 0 :: 0 :: 16121097847685286665808875075689200 :: 22350000495232048059966191861133000 :: 25018915052577625505516233618507800 :: 26063036026574614472704061409223500 :: 26063036026574614472704061409223500 :: 25018915052577625505516233618507800 :: 22350000495232048059966191861133000 :: 16121097847685286665808875075689200 :: 0 :: 0 :: 32451855365842672678315602057625600 :: 32451855365842672678315602057625600 :: 32451855365842672678315602057625600 :: 32451855365842672678315602057625600 :: 32451855365842672678315602057625600 :: 32451855365842672678315602057625600 :: 32451855365842672678315602057625600 :: 32451855365842672678315602057625600 :: 0 :: []

def zState55 : List ℤ :=
  0 :: 129807421463370690713262408230502400 :: 129807421463370690713262408230502400 :: 129807421463370690713262408230502400 :: 129807421463370690713262408230502400 :: 129807421463370690713262408230502400 :: 129807421463370690713262408230502400 :: 129807421463370690713262408230502400 :: 129807421463370690713262408230502400 :: 0 :: 0 :: 64509679689537654067157795016623800 :: 89447527832830267558785437919484000 :: 100139692196532192139646202945384100 :: 104324958224027820608395274118246700 :: 104324958224027820608395274118246700 :: 100139692196532192139646202945384100 :: 89447527832830267558785437919484000 :: 64509679689537654067157795016623800 :: 0 :: 0 :: 38878821095293376224299312390796500 :: 63511958410996063537831746904632900 :: 77219541002280136561516449293825700 :: 83301452979708742441511522744579400 :: 83301452979708742441511522744579400 :: 77219541002280136561516449293825700 :: 63511958410996063537831746904632900 :: 38878821095293376224299312390796500 :: 0 :: 0 :: 27672286506872588322476065843280400 :: 48837674677538880532840437833523300 :: 62377392234349705599515180885327100 :: 68874230724597398886973491448030500 :: 68874230724597398886973491448030500 :: 62377392234349705599515180885327100 :: 48837674677538880532840437833523300 :: 27672286506872588322476065843280400 :: 0 :: 0 :: 23213329406860707201970457608277700 :: 42241392786225785935191844043692800 :: 55187544188162258788418157028354200 :: 61636857099851038354186159450312200 :: 61636857099851038354186159450312200 :: 55187544188162258788418157028354200 :: 42241392786225785935191844043692800 :: 23213329406860707201970457608277700 :: 0 :: 0 :: 23213329406860707201970457608277700 :: 42241392786225785935191844043692800 :: 55187544188162258788418157028354200 :: 61636857099851038354186159450312200 :: 61636857099851038354186159450312200 :: 55187544188162258788418157028354200 :: 42241392786225785935191844043692800 :: 23213329406860707201970457608277700 :: 0 :: 0 :: 27672286506872588322476065843280400 :: 48837674677538880532840437833523300 :: 62377392234349705599515180885327100 :: 68874230724597398886973491448030500 :: 68874230724597398886973491448030500 :: 62377392234349705599515180885327100 :: 48837674677538880532840437833523300 :: 27672286506872588322476065843280400 :: 0 :: 0 :: 38878821095293376224299312390796500 :: 63511958410996063537831746904632900 :: 77219541002280136561516449293825700 :: 83301452979708742441511522744579400 :: 83301452979708742441511522744579400 :: 77219541002280136561516449293825700 :: 63511958410996063537831746904632900 :: 38878821095293376224299312390796500 :: 0 :: 0 :: 64509679689537654067157795016623800 :: 89447527832830267558785437919484000 :: 100139692196532192139646202945384100 :: 104324958224027820608395274118246700 :: 104324958224027820608395274118246700 :: 100139692196532192139646202945384100 :: 89447527832830267558785437919484000 :: 64509679689537654067157795016623800 :: 0 :: 0 :: 129807421463370690713262408230502400 :: 129807421463370690713262408230502400 :: 129807421463370690713262408230502400 :: 129807421463370690713262408230502400 :: 129807421463370690713262408230502400 :: 129807421463370690713262408230502400 :: 129807421463370690713262408230502400 :: 129807421463370690713262408230502400 :: 0 :: []

def zState56 : List ℤ :=
  0 :: 519229685853482762853049632922009600 :: 519229685853482762853049632922009600 :: 519229685853482762853049632922009600 :: 519229685853482762853049632922009600 :: 519229685853482762853049632922009600 :: 519229685853482762853049632922009600 :: 519229685853482762853049632922009600 :: 519229685853482762853049632922009600 :: 0 :: 0 :: 258133770391494334496347158540782900 :: 357968751760436600457898153097143200 :: 400799448522508915441959569562058800 :: 417573524863639445902815408038712600 :: 417573524863639445902815408038712600 :: 400799448522508915441959569562058800 :: 357968751760436600457898153097143200 :: 258133770391494334496347158540782900 :: 0 :: 0 :: 155693924607406305927465607764537100 :: 254383564607942660877441637437629500 :: 309330495821586703718504653479923500 :: 333720182930614098498396737604682300 :: 333720182930614098498396737604682300 :: 309330495821586703718504653479923500 :: 254383564607942660877441637437629500 :: 155693924607406305927465607764537100 :: 0 :: 0 :: 110929825179692963959110207832597500 :: 195803029938444143395014837676933200 :: 250118990592578674769748535603733700 :: 276189933038506885282186354528249200 :: 276189933038506885282186354528249200 :: 250118990592578674769748535603733700 :: 195803029938444143395014837676933200 :: 110929825179692963959110207832597500 :: 0 :: 0 :: 93127008699959081459638367495250900 :: 169479941058787632458420896513848000 :: 221443186308588788677311341407686300 :: 247335489112461734383763967377009100 :: 247335489112461734383763967377009100 :: 221443186308588788677311341407686300 :: 169479941058787632458420896513848000 :: 93127008699959081459638367495250900 :: 0 :: 0 :: 93127008699959081459638367495250900 :: 169479941058787632458420896513848000 :: 221443186308588788677311341407686300 :: 247335489112461734383763967377009100 :: 247335489112461734383763967377009100 :: 221443186308588788677311341407686300 :: 169479941058787632458420896513848000 :: 93127008699959081459638367495250900 :: 0 :: 0 :: 110929825179692963959110207832597500 :: 195803029938444143395014837676933200 :: 250118990592578674769748535603733700 :: 276189933038506885282186354528249200 :: 276189933038506885282186354528249200 :: 250118990592578674769748535603733700 :: 195803029938444143395014837676933200 :: 110929825179692963959110207832597500 :: 0 :: 0 :: 155693924607406305927465607764537100 :: 254383564607942660877441637437629500 :: 309330495821586703718504653479923500 :: 333720182930614098498396737604682300 :: 333720182930614098498396737604682300 :: 309330495821586703718504653479923500 :: 254383564607942660877441637437629500 :: 155693924607406305927465607764537100 :: 0 :: 0 :: 258133770391494334496347158540782900 :: 357968751760436600457898153097143200 :: 400799448522508915441959569562058800 :: 417573524863639445902815408038712600 :: 417573524863639445902815408038712600 :: 400799448522508915441959569562058800 :: 357968751760436600457898153097143200 :: 258133770391494334496347158540782900 :: 0 :: 0 :: 519229685853482762853049632922009600 :: 519229685853482762853049632922009600 :: 519229685853482762853049632922009600 :: 519229685853482762853049632922009600 :: 519229685853482762853049632922009600 :: 519229685853482762853049632922009600 :: 519229685853482762853049632922009600 :: 519229685853482762853049632922009600 :: 0 :: []

def zState57 : List ℤ :=
  0 :: 2076918743413931051412198531688038400 :: 2076918743413931051412198531688038400 :: 2076918743413931051412198531688038400 :: 2076918743413931051412198531688038400 :: 2076918743413931051412198531688038400 :: 2076918743413931051412198531688038400 :: 2076918743413931051412198531688038400 :: 2076918743413931051412198531688038400 :: 0 :: 0 :: 1032892362221325669238413393783689900 :: 1432546469375428673668797998462480800 :: 1604102458299145512932267847537788900 :: 1671322842170245222696221348127463300 :: 1671322842170245222696221348127463300 :: 1604102458299145512932267847537788900 :: 1432546469375428673668797998462480800 :: 1032892362221325669238413393783689900 :: 0 :: 0 :: 623447160179129959332899003811009900 :: 1018796202127873753498883252018537000 :: 1239022186653644349587546480208104300 :: 1336814136654347133401903153651567600 :: 1336814136654347133401903153651567600 :: 1239022186653644349587546480208104300 :: 1018796202127873753498883252018537000 :: 623447160179129959332899003811009900 :: 0 :: 0 :: 444623963245809530782118812936721200 :: 784912321439001932064721277387808700 :: 1002766645107126521073017187092792200 :: 1107364595674161392934095595113674300 :: 1107364595674161392934095595113674300 :: 1002766645107126521073017187092792200 :: 784912321439001932064721277387808700 :: 444623963245809530782118812936721200 :: 0 :: 0 :: 373536774938439677877169471841696400 :: 679853166005779645990385443093718400 :: 888377607072416830289244740902277100 :: 992304097572019142727025630689953700 :: 992304097572019142727025630689953700 :: 888377607072416830289244740902277100 :: 679853166005779645990385443093718400 :: 373536774938439677877169471841696400 :: 0 :: 0 :: 373536774938439677877169471841696400 :: 679853166005779645990385443093718400 :: 888377607072416830289244740902277100 :: 992304097572019142727025630689953700 :: 992304097572019142727025630689953700 :: 888377607072416830289244740902277100 :: 679853166005779645990385443093718400 :: 373536774938439677877169471841696400 :: 0 :: 0 :: 444623963245809530782118812936721200 :: 784912321439001932064721277387808700 :: 1002766645107126521073017187092792200 :: 1107364595674161392934095595113674300 :: 1107364595674161392934095595113674300 :: 1002766645107126521073017187092792200 :: 784912321439001932064721277387808700 :: 444623963245809530782118812936721200 :: 0 :: 0 :: 623447160179129959332899003811009900 :: 1018796202127873753498883252018537000 :: 1239022186653644349587546480208104300 :: 1336814136654347133401903153651567600 :: 1336814136654347133401903153651567600 :: 1239022186653644349587546480208104300 :: 1018796202127873753498883252018537000 :: 623447160179129959332899003811009900 :: 0 :: 0 :: 1032892362221325669238413393783689900 :: 1432546469375428673668797998462480800 :: 1604102458299145512932267847537788900 :: 1671322842170245222696221348127463300 :: 1671322842170245222696221348127463300 :: 1604102458299145512932267847537788900 :: 1432546469375428673668797998462480800 :: 1032892362221325669238413393783689900 :: 0 :: 0 :: 2076918743413931051412198531688038400 :: 2076918743413931051412198531688038400 :: 2076918743413931051412198531688038400 :: 2076918743413931051412198531688038400 :: 2076918743413931051412198531688038400 :: 2076918743413931051412198531688038400 :: 2076918743413931051412198531688038400 :: 2076918743413931051412198531688038400 :: 0 :: []

def zState58 : List ℤ :=
  0 :: 8307674973655724205648794126752153600 :: 8307674973655724205648794126752153600 :: 8307674973655724205648794126752153600 :: 8307674973655724205648794126752153600 :: 8307674973655724205648794126752153600 :: 8307674973655724205648794126752153600 :: 8307674973655724205648794126752153600 :: 8307674973655724205648794126752153600 :: 0 :: 0 :: 4132912372968489684413895533961529100 :: 5732709766062275987081763025028054200 :: 6419810241613249297364764358486086800 :: 6689158180537668920442590881004858200 :: 6689158180537668920442590881004858200 :: 6419810241613249297364764358486086800 :: 5732709766062275987081763025028054200 :: 4132912372968489684413895533961529100 :: 0 :: 0 :: 2496312527595008953519415458738948100 :: 4079928137647204914653964759869403700 :: 4962479442188492920906071440300685700 :: 5354523761152398098619766577100809500 :: 5354523761152398098619766577100809500 :: 4962479442188492920906071440300685700 :: 4079928137647204914653964759869403700 :: 2496312527595008953519415458738948100 :: 0 :: 0 :: 1781896256556571569274789753040515000 :: 3146039976486589451344404695141768800 :: 4019676710839224504875608093611864400 :: 4439249475007654190136041566547987800 :: 4439249475007654190136041566547987800 :: 4019676710839224504875608093611864400 :: 3146039976486589451344404695141768800 :: 1781896256556571569274789753040515000 :: 0 :: 0 :: 1498013904190028854649673727872136000 :: 2726679869455638086221520933225500600 :: 3563301515757342140079673001778741400 :: 3980350397890616508677391597395858800 :: 3980350397890616508677391597395858800 :: 3563301515757342140079673001778741400 :: 2726679869455638086221520933225500600 :: 1498013904190028854649673727872136000 :: 0 :: 0 :: 1498013904190028854649673727872136000 :: 2726679869455638086221520933225500600 :: 3563301515757342140079673001778741400 :: 3980350397890616508677391597395858800 :: 3980350397890616508677391597395858800 :: 3563301515757342140079673001778741400 :: 2726679869455638086221520933225500600 :: 1498013904190028854649673727872136000 :: 0 :: 0 :: 1781896256556571569274789753040515000 :: 3146039976486589451344404695141768800 :: 4019676710839224504875608093611864400 :: 4439249475007654190136041566547987800 :: 4439249475007654190136041566547987800 :: 4019676710839224504875608093611864400 :: 3146039976486589451344404695141768800 :: 1781896256556571569274789753040515000 :: 0 :: 0 :: 2496312527595008953519415458738948100 :: 4079928137647204914653964759869403700 :: 4962479442188492920906071440300685700 :: 5354523761152398098619766577100809500 :: 5354523761152398098619766577100809500 :: 4962479442188492920906071440300685700 :: 4079928137647204914653964759869403700 :: 2496312527595008953519415458738948100 :: 0 :: 0 :: 4132912372968489684413895533961529100 :: 5732709766062275987081763025028054200 :: 6419810241613249297364764358486086800 :: 6689158180537668920442590881004858200 :: 6689158180537668920442590881004858200 :: 6419810241613249297364764358486086800 :: 5732709766062275987081763025028054200 :: 4132912372968489684413895533961529100 :: 0 :: 0 :: 8307674973655724205648794126752153600 :: 8307674973655724205648794126752153600 :: 8307674973655724205648794126752153600 :: 8307674973655724205648794126752153600 :: 8307674973655724205648794126752153600 :: 8307674973655724205648794126752153600 :: 8307674973655724205648794126752153600 :: 8307674973655724205648794126752153600 :: 0 :: []

def zState59 : List ℤ :=
  0 :: 33230699894622896822595176507008614400 :: 33230699894622896822595176507008614400 :: 33230699894622896822595176507008614400 :: 33230699894622896822595176507008614400 :: 33230699894622896822595176507008614400 :: 33230699894622896822595176507008614400 :: 33230699894622896822595176507008614400 :: 33230699894622896822595176507008614400 :: 0 :: 0 :: 16536697267313009146249972610519155900 :: 22940325725884668102081418779069173200 :: 25692022362444162034079219473085751700 :: 26771167156959040522075915943343908100 :: 26771167156959040522075915943343908100 :: 25692022362444162034079219473085751700 :: 22940325725884668102081418779069173200 :: 16536697267313009146249972610519155900 :: 0 :: 0 :: 9994736767172266168342650046871447800 :: 16337541712332367312851654619209456800 :: 19873938851252076815514103789068164400 :: 21445410858886214130104470464954341200 :: 21445410858886214130104470464954341200 :: 19873938851252076815514103789068164400 :: 16337541712332367312851654619209456800 :: 9994736767172266168342650046871447800 :: 0 :: 0 :: 7140366408271627259513493881752852900 :: 12608180974498639075025883539747283700 :: 16111070409440078702466190703769183700 :: 17793800344889893302308807834656520500 :: 17793800344889893302308807834656520500 :: 16111070409440078702466190703769183700 :: 12608180974498639075025883539747283700 :: 7140366408271627259513493881752852900 :: 0 :: 0 :: 6006590030202238510145984414138151600 :: 10934035265889598532295272358018146800 :: 14290008493942821239854193626011965200 :: 15963251786546229347570497763118446800 :: 15963251786546229347570497763118446800 :: 14290008493942821239854193626011965200 :: 10934035265889598532295272358018146800 :: 6006590030202238510145984414138151600 :: 0 :: 0 :: 6006590030202238510145984414138151600 :: 10934035265889598532295272358018146800 :: 14290008493942821239854193626011965200 :: 15963251786546229347570497763118446800 :: 15963251786546229347570497763118446800 :: 14290008493942821239854193626011965200 :: 10934035265889598532295272358018146800 :: 6006590030202238510145984414138151600 :: 0 :: 0 :: 7140366408271627259513493881752852900 :: 12608180974498639075025883539747283700 :: 16111070409440078702466190703769183700 :: 17793800344889893302308807834656520500 :: 17793800344889893302308807834656520500 :: 16111070409440078702466190703769183700 :: 12608180974498639075025883539747283700 :: 7140366408271627259513493881752852900 :: 0 :: 0 :: 9994736767172266168342650046871447800 :: 16337541712332367312851654619209456800 :: 19873938851252076815514103789068164400 :: 21445410858886214130104470464954341200 :: 21445410858886214130104470464954341200 :: 19873938851252076815514103789068164400 :: 16337541712332367312851654619209456800 :: 9994736767172266168342650046871447800 :: 0 :: 0 :: 16536697267313009146249972610519155900 :: 22940325725884668102081418779069173200 :: 25692022362444162034079219473085751700 :: 26771167156959040522075915943343908100 :: 26771167156959040522075915943343908100 :: 25692022362444162034079219473085751700 :: 22940325725884668102081418779069173200 :: 16536697267313009146249972610519155900 :: 0 :: 0 :: 33230699894622896822595176507008614400 :: 33230699894622896822595176507008614400 :: 33230699894622896822595176507008614400 :: 33230699894622896822595176507008614400 :: 33230699894622896822595176507008614400 :: 33230699894622896822595176507008614400 :: 33230699894622896822595176507008614400 :: 33230699894622896822595176507008614400 :: 0 :: []

def zState60 : List ℤ :=
  0 :: 132922799578491587290380706028034457600 :: 132922799578491587290380706028034457600 :: 132922799578491587290380706028034457600 :: 132922799578491587290380706028034457600 :: 132922799578491587290380706028034457600 :: 132922799578491587290380706028034457600 :: 132922799578491587290380706028034457600 :: 132922799578491587290380706028034457600 :: 0 :: 0 :: 66165762387679831093019245332949235400 :: 91796961236712435315776023209822978800 :: 102816131628718682262266615018489860100 :: 107139300272912313508854782388392615400 :: 107139300272912313508854782388392615400 :: 102816131628718682262266615018489860100 :: 91796961236712435315776023209822978800 :: 66165762387679831093019245332949235400 :: 0 :: 0 :: 40014605387917003718615121111481465600 :: 65417182318807650160964056154756069100 :: 79586045343102822179501535261018733400 :: 85884317211987224770003298032022934200 :: 85884317211987224770003298032022934200 :: 79586045343102822179501535261018733400 :: 65417182318807650160964056154756069100 :: 40014605387917003718615121111481465600 :: 0 :: 0 :: 28609507771873143753514518000756883100 :: 50523013795933671807126611562749640200 :: 64565928664583430432702988789483933800 :: 71313533399762415482449966766498492200 :: 71313533399762415482449966766498492200 :: 64565928664583430432702988789483933800 :: 50523013795933671807126611562749640200 :: 28609507771873143753514518000756883100 :: 0 :: 0 :: 24080991704363464301954750653909151300 :: 43838814764533297357321333937915547300 :: 57298365955818727822186154450917742500 :: 64010312411925173237303996986905379300 :: 64010312411925173237303996986905379300 :: 57298365955818727822186154450917742500 :: 43838814764533297357321333937915547300 :: 24080991704363464301954750653909151300 :: 0 :: 0 :: 24080991704363464301954750653909151300 :: 43838814764533297357321333937915547300 :: 57298365955818727822186154450917742500 :: 64010312411925173237303996986905379300 :: 64010312411925173237303996986905379300 :: 57298365955818727822186154450917742500 :: 43838814764533297357321333937915547300 :: 24080991704363464301954750653909151300 :: 0 :: 0 :: 28609507771873143753514518000756883100 :: 50523013795933671807126611562749640200 :: 64565928664583430432702988789483933800 :: 71313533399762415482449966766498492200 :: 71313533399762415482449966766498492200 :: 64565928664583430432702988789483933800 :: 50523013795933671807126611562749640200 :: 28609507771873143753514518000756883100 :: 0 :: 0 :: 40014605387917003718615121111481465600 :: 65417182318807650160964056154756069100 :: 79586045343102822179501535261018733400 :: 85884317211987224770003298032022934200 :: 85884317211987224770003298032022934200 :: 79586045343102822179501535261018733400 :: 65417182318807650160964056154756069100 :: 40014605387917003718615121111481465600 :: 0 :: 0 :: 66165762387679831093019245332949235400 :: 91796961236712435315776023209822978800 :: 102816131628718682262266615018489860100 :: 107139300272912313508854782388392615400 :: 107139300272912313508854782388392615400 :: 102816131628718682262266615018489860100 :: 91796961236712435315776023209822978800 :: 66165762387679831093019245332949235400 :: 0 :: 0 :: 132922799578491587290380706028034457600 :: 132922799578491587290380706028034457600 :: 132922799578491587290380706028034457600 :: 132922799578491587290380706028034457600 :: 132922799578491587290380706028034457600 :: 132922799578491587290380706028034457600 :: 132922799578491587290380706028034457600 :: 132922799578491587290380706028034457600 :: 0 :: []

def zState61 : List ℤ :=
  0 :: 531691198313966349161522824112137830400 :: 531691198313966349161522824112137830400 :: 531691198313966349161522824112137830400 :: 531691198313966349161522824112137830400 :: 531691198313966349161522824112137830400 :: 531691198313966349161522824112137830400 :: 531691198313966349161522824112137830400 :: 531691198313966349161522824112137830400 :: 0 :: 0 :: 264734366203121026324771850349338902000 :: 367321875913697750806630622534229622200 :: 411445106431219158294513046887268785200 :: 428762548692109807831505401466939867300 :: 428762548692109807831505401466939867300 :: 411445106431219158294513046887268785200 :: 367321875913697750806630622534229622200 :: 264734366203121026324771850349338902000 :: 0 :: 0 :: 160192452478360625007497819488462187600 :: 261920625763665933021019291145072818000 :: 318683559824096987625936957994752797200 :: 343923196227764775940809582447932775200 :: 343923196227764775940809582447932775200 :: 318683559824096987625936957994752797200 :: 261920625763665933021019291145072818000 :: 160192452478360625007497819488462187600 :: 0 :: 0 :: 114618610888214139827696483328140257100 :: 202431433519797521704502896882912433300 :: 258720958494617637291264268041184608300 :: 285774091688258243922460250574910739500 :: 285774091688258243922460250574910739500 :: 258720958494617637291264268041184608300 :: 202431433519797521704502896882912433300 :: 114618610888214139827696483328140257100 :: 0 :: 0 :: 96529314240769905412790602592581581700 :: 175741186220649161288588850605492081300 :: 229713421796860628849514474165222602900 :: 256632524179431489779244115191226993300 :: 256632524179431489779244115191226993300 :: 229713421796860628849514474165222602900 :: 175741186220649161288588850605492081300 :: 96529314240769905412790602592581581700 :: 0 :: 0 :: 96529314240769905412790602592581581700 :: 175741186220649161288588850605492081300 :: 229713421796860628849514474165222602900 :: 256632524179431489779244115191226993300 :: 256632524179431489779244115191226993300 :: 229713421796860628849514474165222602900 :: 175741186220649161288588850605492081300 :: 96529314240769905412790602592581581700 :: 0 :: 0 :: 114618610888214139827696483328140257100 :: 202431433519797521704502896882912433300 :: 258720958494617637291264268041184608300 :: 285774091688258243922460250574910739500 :: 285774091688258243922460250574910739500 :: 258720958494617637291264268041184608300 :: 202431433519797521704502896882912433300 :: 114618610888214139827696483328140257100 :: 0 :: 0 :: 160192452478360625007497819488462187600 :: 261920625763665933021019291145072818000 :: 318683559824096987625936957994752797200 :: 343923196227764775940809582447932775200 :: 343923196227764775940809582447932775200 :: 318683559824096987625936957994752797200 :: 261920625763665933021019291145072818000 :: 160192452478360625007497819488462187600 :: 0 :: 0 :: 264734366203121026324771850349338902000 :: 367321875913697750806630622534229622200 :: 411445106431219158294513046887268785200 :: 428762548692109807831505401466939867300 :: 428762548692109807831505401466939867300 :: 411445106431219158294513046887268785200 :: 367321875913697750806630622534229622200 :: 264734366203121026324771850349338902000 :: 0 :: 0 :: 531691198313966349161522824112137830400 :: 531691198313966349161522824112137830400 :: 531691198313966349161522824112137830400 :: 531691198313966349161522824112137830400 :: 531691198313966349161522824112137830400 :: 531691198313966349161522824112137830400 :: 531691198313966349161522824112137830400 :: 531691198313966349161522824112137830400 :: 0 :: []

def zState62 : List ℤ :=
  0 :: 2126764793255865396646091296448551321600 :: 2126764793255865396646091296448551321600 :: 2126764793255865396646091296448551321600 :: 2126764793255865396646091296448551321600 :: 2126764793255865396646091296448551321600 :: 2126764793255865396646091296448551321600 :: 2126764793255865396646091296448551321600 :: 2126764793255865396646091296448551321600 :: 0 :: 0 :: 1059205526706024724975651266134829640200 :: 1469791296711972466801827012493818335600 :: 1646459182743870895425595806108060117100 :: 1715822049665060091228350854914279258100 :: 1715822049665060091228350854914279258100 :: 1646459182743870895425595806108060117100 :: 1469791296711972466801827012493818335600 :: 1059205526706024724975651266134829640200 :: 0 :: 0 :: 641273602855001099173487624822551977100 :: 1048629321735952885144568296900357040300 :: 1276009886917267504547606188521458986700 :: 1377143396432229815320712192484536179200 :: 1377143396432229815320712192484536179200 :: 1276009886917267504547606188521458986700 :: 1048629321735952885144568296900357040300 :: 641273602855001099173487624822551977100 :: 0 :: 0 :: 459153200238928052124791318963956202600 :: 811001381367146871428568893119889764700 :: 1036602506829013382102414579617798572900 :: 1145050770590072146933778216255255116300 :: 1145050770590072146933778216255255116300 :: 1036602506829013382102414579617798572900 :: 811001381367146871428568893119889764700 :: 459153200238928052124791318963956202600 :: 0 :: 0 :: 386889111349633206529075936526213920100 :: 704415355778077217255396824246208699200 :: 920808090691558917208611708003126285800 :: 1028752561843981852330462955122587329000 :: 1028752561843981852330462955122587329000 :: 920808090691558917208611708003126285800 :: 704415355778077217255396824246208699200 :: 386889111349633206529075936526213920100 :: 0 :: 0 :: 386889111349633206529075936526213920100 :: 704415355778077217255396824246208699200 :: 920808090691558917208611708003126285800 :: 1028752561843981852330462955122587329000 :: 1028752561843981852330462955122587329000 :: 920808090691558917208611708003126285800 :: 704415355778077217255396824246208699200 :: 386889111349633206529075936526213920100 :: 0 :: 0 :: 459153200238928052124791318963956202600 :: 811001381367146871428568893119889764700 :: 1036602506829013382102414579617798572900 :: 1145050770590072146933778216255255116300 :: 1145050770590072146933778216255255116300 :: 1036602506829013382102414579617798572900 :: 811001381367146871428568893119889764700 :: 459153200238928052124791318963956202600 :: 0 :: 0 :: 641273602855001099173487624822551977100 :: 1048629321735952885144568296900357040300 :: 1276009886917267504547606188521458986700 :: 1377143396432229815320712192484536179200 :: 1377143396432229815320712192484536179200 :: 1276009886917267504547606188521458986700 :: 1048629321735952885144568296900357040300 :: 641273602855001099173487624822551977100 :: 0 :: 0 :: 1059205526706024724975651266134829640200 :: 1469791296711972466801827012493818335600 :: 1646459182743870895425595806108060117100 :: 1715822049665060091228350854914279258100 :: 1715822049665060091228350854914279258100 :: 1646459182743870895425595806108060117100 :: 1469791296711972466801827012493818335600 :: 1059205526706024724975651266134829640200 :: 0 :: 0 :: 2126764793255865396646091296448551321600 :: 2126764793255865396646091296448551321600 :: 2126764793255865396646091296448551321600 :: 2126764793255865396646091296448551321600 :: 2126764793255865396646091296448551321600 :: 2126764793255865396646091296448551321600 :: 2126764793255865396646091296448551321600 :: 2126764793255865396646091296448551321600 :: 0 :: []

def zState63 : List ℤ :=
  0 :: 8507059173023461586584365185794205286400 :: 8507059173023461586584365185794205286400 :: 8507059173023461586584365185794205286400 :: 8507059173023461586584365185794205286400 :: 8507059173023461586584365185794205286400 :: 8507059173023461586584365185794205286400 :: 8507059173023461586584365185794205286400 :: 8507059173023461586584365185794205286400 :: 0 :: 0 :: 4237829692822838962621405933764921634300 :: 5881058824441713902191906665591798119200 :: 6588388026550165459223875352378107902000 :: 6866189422097026198620750149955426876000 :: 6866189422097026198620750149955426876000 :: 6588388026550165459223875352378107902000 :: 5881058824441713902191906665591798119200 :: 4237829692822838962621405933764921634300 :: 0 :: 0 :: 2566988048680905662245010881999142883100 :: 4198076167851387941951489718957719064100 :: 5108834407741066977993290875110751909500 :: 5514026103604629558030447452175529540300 :: 5514026103604629558030447452175529540300 :: 5108834407741066977993290875110751909500 :: 4198076167851387941951489718957719064100 :: 2566988048680905662245010881999142883100 :: 0 :: 0 :: 1839164095571781177131132454468655661900 :: 3248800384581971536627171019728320515000 :: 4152870129566045440118565005899730153500 :: 4587549235695297196687367943480177197400 :: 4587549235695297196687367943480177197400 :: 4152870129566045440118565005899730153500 :: 3248800384581971536627171019728320515000 :: 1839164095571781177131132454468655661900 :: 0 :: 0 :: 1550457667366638475909264079736378821900 :: 2823113939186416212421653361895438669800 :: 3690578515142631368896886066989720886900 :: 4123363984969594768803315834503556060100 :: 4123363984969594768803315834503556060100 :: 3690578515142631368896886066989720886900 :: 2823113939186416212421653361895438669800 :: 1550457667366638475909264079736378821900 :: 0 :: 0 :: 1550457667366638475909264079736378821900 :: 2823113939186416212421653361895438669800 :: 3690578515142631368896886066989720886900 :: 4123363984969594768803315834503556060100 :: 4123363984969594768803315834503556060100 :: 3690578515142631368896886066989720886900 :: 2823113939186416212421653361895438669800 :: 1550457667366638475909264079736378821900 :: 0 :: 0 :: 1839164095571781177131132454468655661900 :: 3248800384581971536627171019728320515000 :: 4152870129566045440118565005899730153500 :: 4587549235695297196687367943480177197400 :: 4587549235695297196687367943480177197400 :: 4152870129566045440118565005899730153500 :: 3248800384581971536627171019728320515000 :: 1839164095571781177131132454468655661900 :: 0 :: 0 :: 2566988048680905662245010881999142883100 :: 4198076167851387941951489718957719064100 :: 5108834407741066977993290875110751909500 :: 5514026103604629558030447452175529540300 :: 5514026103604629558030447452175529540300 :: 5108834407741066977993290875110751909500 :: 4198076167851387941951489718957719064100 :: 2566988048680905662245010881999142883100 :: 0 :: 0 :: 4237829692822838962621405933764921634300 :: 5881058824441713902191906665591798119200 :: 6588388026550165459223875352378107902000 :: 6866189422097026198620750149955426876000 :: 6866189422097026198620750149955426876000 :: 6588388026550165459223875352378107902000 :: 5881058824441713902191906665591798119200 :: 4237829692822838962621405933764921634300 :: 0 :: 0 :: 8507059173023461586584365185794205286400 :: 8507059173023461586584365185794205286400 :: 8507059173023461586584365185794205286400 :: 8507059173023461586584365185794205286400 :: 8507059173023461586584365185794205286400 :: 8507059173023461586584365185794205286400 :: 8507059173023461586584365185794205286400 :: 8507059173023461586584365185794205286400 :: 0 :: []

/-! ### Basic facts about cell reads and writes -/

theorem getCell_eq_getElem (g : Grid) (i j : Nat) (_hi : i < g.length)
    (hj : j < (g.getD i []).length) :
    getCell g i j = (g.getD i []).get ⟨j, hj⟩ := by
  unfold getCell
  rw [List.getD_eq_getElem _ _ hj, List.get_eq_getElem]

theorem length_setCell (g : Grid) (i j : Nat) (v : ℚ) :
    (setCell g i j v).length = g.length := by
  unfold setCell
  exact List.length_set ..

theorem WFGrid_setCell (g : Grid) (i j : Nat) (v : ℚ) (hg : WFGrid g) :
    WFGrid (setCell g i j v) := by
  obtain ⟨hlen, hrows⟩ := hg
  refine ⟨(length_setCell ..).trans hlen, fun a ha => ?_⟩
  unfold setCell
  rcases eq_or_ne i a with rfl | hne
  · rcases lt_or_le i g.length with hlt | hge
    · rw [List.getD_eq_getElem _ _ (by simpa using hlt), List.getElem_set_self,
        List.length_set]
      exact hrows i (hlen ▸ hlt)
    · rw [List.set_eq_of_length_le hge]
      exact hrows i ha
  · rw [List.getD_eq_getElem?_getD, List.getElem?_set_ne hne,
      ← List.getD_eq_getElem?_getD]
    exact hrows a ha

theorem getCell_setCell (g : Grid) (i j : Nat) (v : ℚ) (hg : WFGrid g)
    (hi : i < PLATE_SIZE) (hj : j < PLATE_SIZE) (a b : Nat) :
    getCell (setCell g i j v) a b = if a = i ∧ b = j then v else getCell g a b := by
  obtain ⟨hlen, hrows⟩ := hg
  have hilen : i < g.length := hlen ▸ hi
  have hjlen : j < (g.getD i []).length := (hrows i hi) ▸ hj
  rcases eq_or_ne a i with rfl | hai
  · have hrow : (setCell g a j v).getD a [] = (g.getD a []).set j v := by
      unfold setCell
      rw [List.getD_eq_getElem _ _ (by simpa using hilen), List.getElem_set_self]
    rcases eq_or_ne b j with rfl | hbj
    · unfold getCell
      rw [hrow, List.getD_eq_getElem _ _ (by simpa using hjlen), List.getElem_set_self]
      simp
    · unfold getCell
      rw [hrow, List.getD_eq_getElem?_getD, List.getElem?_set_ne (Ne.symm hbj),
        ← List.getD_eq_getElem?_getD]
      simp [hbj]
  · unfold getCell setCell
    rw [List.getD_eq_getElem?_getD (g.set i _), List.getElem?_set_ne (Ne.symm hai),
      ← List.getD_eq_getElem?_getD]
    simp [hai]

theorem WFGrid_foldl {β : Type} (f : Grid → β → Grid)
    (hf : ∀ g x, WFGrid g → WFGrid (f g x)) :
    ∀ (L : List β) (g : Grid), WFGrid g → WFGrid (L.foldl f g)
  | [], _, hg => hg
  | x :: L, g, hg => WFGrid_foldl f hf L (f g x) (hf g x hg)

theorem WFGrid_forEachCell (rows cols : List Nat) (f : Nat → Nat → ℚ) (g : Grid)
    (hg : WFGrid g) : WFGrid (forEachCell rows cols f g) := by
  unfold forEachCell
  refine WFGrid_foldl _ (fun g' i hg' => ?_) rows g hg
  exact WFGrid_foldl _ (fun g'' j hg'' => WFGrid_setCell g'' i j _ hg'') cols g' hg'

theorem getCell_innerFold (i : Nat) (f : Nat → Nat → ℚ) (hi : i < PLATE_SIZE) :
    ∀ (cols : List Nat) (g : Grid), WFGrid g → (∀ j ∈ cols, j < PLATE_SIZE) →
      ∀ a b, getCell (cols.foldl (fun out j => setCell out i j (f i j)) g) a b =
        if a = i ∧ b ∈ cols then f i b else getCell g a b
  | [], g, _, _, a, b => by simp
  | j :: cols, g, hg, hcols, a, b => by
    have hj : j < PLATE_SIZE := hcols j (List.mem_cons_self ..)
    have ih := getCell_innerFold i f hi cols (setCell g i j (f i j))
      (WFGrid_setCell g i j _ hg) (fun x hx => hcols x (List.mem_cons_of_mem _ hx)) a b
    rw [List.foldl_cons, ih, getCell_setCell g i j _ hg hi hj]
    by_cases hai : a = i
    · subst hai
      by_cases hbc : b ∈ cols
      · simp [hbc]
      · by_cases hbj : b = j
        · subst hbj
          simp
        · simp [hbc, hbj]
    · simp [hai]

theorem getCell_forEachCell (f : Nat → Nat → ℚ) :
    ∀ (rows : List Nat) (cols : List Nat) (g : Grid), WFGrid g →
      (∀ i ∈ rows, i < PLATE_SIZE) → (∀ j ∈ cols, j < PLATE_SIZE) →
      ∀ a b, getCell (forEachCell rows cols f g) a b =
        if a ∈ rows ∧ b ∈ cols then f a b else getCell g a b
  | [], _, g, _, _, _, a, b => by simp [forEachCell]
  | i :: rows, cols, g, hg, hrows, hcols, a, b => by
    have hi : i < PLATE_SIZE := hrows i (List.mem_cons_self ..)
    have hginner : WFGrid (cols.foldl (fun out j => setCell out i j (f i j)) g) :=
      WFGrid_foldl _ (fun g' j hg' => WFGrid_setCell g' i j _ hg') cols g hg
    have ih := getCell_forEachCell f rows cols _ hginner
      (fun x hx => hrows x (List.mem_cons_of_mem _ hx)) hcols a b
    unfold forEachCell at ih ⊢
    rw [List.foldl_cons, ih, getCell_innerFold i f hi cols g hg hcols]
    by_cases har : a ∈ rows
    · by_cases hbc : b ∈ cols
      · simp [har, hbc]
      · simp [har, hbc]
    · by_cases hai : a = i
      · subst hai
        simp [har]
      · simp [har, hai]

/-! ### Cell-level characterizations of the plate operations -/

theorem updateTemps_cell (input output : Grid) (hout : WFGrid output) (a b : Nat) :
    getCell (updateTemps input output) a b =
      if (1 ≤ a ∧ a ≤ PLATE_SIZE - 2) ∧ (1 ≤ b ∧ b ≤ PLATE_SIZE - 2) then
        (getCell input (a - 1) b + getCell input a (b - 1) +
         getCell input a (b + 1) + getCell input (a + 1) b) / 4
      else getCell output a b := by
  unfold updateTemps
  refine (getCell_forEachCell _ _ _ output hout ?_ ?_ a b).trans (if_congr ?_ rfl rfl)
  · intro x hx
    rw [List.mem_range'_1] at hx
    simp only [PLATE_SIZE] at hx ⊢
    omega
  · intro x hx
    rw [List.mem_range'_1] at hx
    simp only [PLATE_SIZE] at hx ⊢
    omega
  · rw [List.mem_range'_1, List.mem_range'_1]
    simp only [PLATE_SIZE]
    omega

theorem initPlateLoop_cell (g : Grid) (hg : WFGrid g) (a b : Nat)
    (ha : a < PLATE_SIZE) (hb : b < PLATE_SIZE) :
    getCell (initPlateLoop g) a b =
      if (a = 0 ∨ a = PLATE_SIZE - 1) ∧ (0 < b ∧ b < PLATE_SIZE - 1) then INITIAL_TEMP
      else 0 := by
  unfold initPlateLoop
  rw [getCell_forEachCell _ _ _ g hg (fun x hx => List.mem_range.mp hx)
    (fun x hx => List.mem_range.mp hx) a b]
  rw [if_pos ⟨List.mem_range.mpr ha, List.mem_range.mpr hb⟩]
  by_cases h1 : a = 0 ∨ a = PLATE_SIZE - 1
  · by_cases h2 : 0 < b ∧ b < PLATE_SIZE - 1
    · simp [h1, h2]
    · simp [h1, h2]
  · simp [h1]

theorem transferValues_cell (src dst : Grid) (hdst : WFGrid dst) (a b : Nat) :
    getCell (transferValues src dst) a b =
      if a < PLATE_SIZE ∧ b < PLATE_SIZE then getCell src a b else getCell dst a b := by
  unfold transferValues
  refine (getCell_forEachCell _ _ _ dst hdst ?_ ?_ a b).trans (if_congr ?_ rfl rfl)
  · intro x hx
    exact List.mem_range.mp hx
  · intro x hx
    exact List.mem_range.mp hx
  · rw [List.mem_range, List.mem_range]

theorem stateChanged_iff (oldA newA : Grid) (eps : ℚ) :
    stateChanged oldA newA eps = true ↔
      ∃ i j, (1 ≤ i ∧ i ≤ PLATE_SIZE - 2) ∧ (1 ≤ j ∧ j ≤ PLATE_SIZE - 2) ∧
        |getCell newA i j - getCell oldA i j| > eps := by
  unfold stateChanged
  simp only [List.any_eq_true, List.mem_range'_1, decide_eq_true_eq]
  constructor
  · rintro ⟨i, ⟨hi1, hi2⟩, j, ⟨hj1, hj2⟩, h⟩
    refine ⟨i, j, ⟨hi1, ?_⟩, ⟨hj1, ?_⟩, h⟩
    · simp only [PLATE_SIZE] at hi2 ⊢
      omega
    · simp only [PLATE_SIZE] at hj2 ⊢
      omega
  · rintro ⟨i, j, ⟨hi1, hi2⟩, ⟨hj1, hj2⟩, h⟩
    refine ⟨i, ⟨hi1, ?_⟩, j, ⟨hj1, ?_⟩, h⟩
    · simp only [PLATE_SIZE] at hi2 ⊢
      omega
    · simp only [PLATE_SIZE] at hj2 ⊢
      omega

/-- Two well-formed grids with the same cells are the same list of lists. -/
theorem grid_ext (g1 g2 : Grid) (h1 : WFGrid g1) (h2 : WFGrid g2)
    (h : ∀ i < PLATE_SIZE, ∀ j < PLATE_SIZE, getCell g1 i j = getCell g2 i j) :
    g1 = g2 := by
  apply List.ext_getElem (h1.1.trans h2.1.symm)
  intro i hi1 hi2
  have hiP : i < PLATE_SIZE := h1.1 ▸ hi1
  have e1 : g1.getD i [] = g1[i] := List.getD_eq_getElem _ _ hi1
  have e2 : g2.getD i [] = g2[i] := List.getD_eq_getElem _ _ hi2
  apply List.ext_getElem
  · rw [← e1, ← e2, h1.2 i hiP, h2.2 i hiP]
  · intro j hj1 hj2
    have hjP : j < PLATE_SIZE := by
      rw [← e1] at hj1
      rw [h1.2 i hiP] at hj1
      exact hj1
    have hc := h i hiP j hjP
    unfold getCell at hc
    rw [e1, e2] at hc
    rw [List.getD_eq_getElem _ _ hj1, List.getD_eq_getElem _ _ hj2] at hc
    exact hc

/-! ### The do-while loop exits -/

theorem driverLoop_exits : ∀ (fuel : Nat) (oldG newG : Grid) (count : Nat),
    ITERATION_LIMIT ≤ count + fuel → count < ITERATION_LIMIT →
    (driverLoop oldG newG count fuel).2.2.2 = true ∨
    (driverLoop oldG newG count fuel).2.2.1 = ITERATION_LIMIT := by
  intro fuel
  induction fuel with
  | zero =>
    intro oldG newG count h1 h2
    exact absurd h2 (Nat.not_lt.mpr (by omega))
  | succ fuel ih =>
    intro oldG newG count h1 h2
    simp only [driverLoop]
    cases hs : stateChanged oldG (updateTemps oldG newG) HEAT_EPSILON with
    | true =>
      by_cases hcount : count + 1 < ITERATION_LIMIT
      · rw [if_pos (by simp [hcount])]
        exact ih _ _ (count + 1) (by omega) hcount
      · rw [if_neg (by simp [hcount])]
        right
        show count + 1 = ITERATION_LIMIT
        omega
    | false =>
      rw [if_neg (by simp)]
      left
      rfl

/-! ### Claim C1: UpdateTemps writes exactly the interior, with the
neighbour average, and leaves the output borders as they were.  (That the
input grid is not mutated is inherent in the functional embedding:
`updateTemps` only reads `input`.) -/

/-- C1: for every input grid and every (well-formed) output grid,
`UpdateTemps` sets each interior cell — row and column indices strictly
between 0 and `PLATE_SIZE - 1` — of the output to the arithmetic mean of
the four direct neighbours read from the input grid, and every other cell
of the output keeps the value it had before the call. -/
theorem updateTemps_interior_mean (input output : Grid) (hout : WFGrid output) :
    (∀ i j, 0 < i ∧ i < PLATE_SIZE - 1 → 0 < j ∧ j < PLATE_SIZE - 1 →
      getCell (updateTemps input output) i j =
        (getCell input (i - 1) j + getCell input i (j - 1) +
         getCell input i (j + 1) + getCell input (i + 1) j) / 4) ∧
    (∀ i j, ¬(0 < i ∧ i < PLATE_SIZE - 1 ∧ 0 < j ∧ j < PLATE_SIZE - 1) →
      getCell (updateTemps input output) i j = getCell output i j) := by
  constructor
  · intro i j hi hj
    rw [updateTemps_cell input output hout i j, if_pos]
    simp only [PLATE_SIZE] at hi hj ⊢
    omega
  · intro i j h
    rw [updateTemps_cell input output hout i j, if_neg]
    simp only [PLATE_SIZE] at h ⊢
    omega

/-- Witness for C1 at a concrete input: the interior cell (2,3) of the
first update of the freshly initialized plate is the neighbour average,
and the border cell (0,5) is left at its prior value. -/
theorem updateTemps_interior_mean_witness :
    getCell (updateTemps initPlate initPlate) 2 3 =
      (getCell initPlate 1 3 + getCell initPlate 2 2 +
       getCell initPlate 2 4 + getCell initPlate 3 3) / 4 ∧
    getCell (updateTemps initPlate initPlate) 0 5 = getCell initPlate 0 5 :=
  ⟨(updateTemps_interior_mean initPlate initPlate (by decide)).1 2 3
      (by decide) (by decide),
   (updateTemps_interior_mean initPlate initPlate (by decide)).2 0 5 (by decide)⟩

/-! ### Claim C2: StateChanged is exactly "some interior cell moved by
more than epsilon". -/

/-- C2: `StateChanged` returns true iff some interior cell differs between
the two grids by strictly more than `eps` in absolute value; in particular
it returns false on two identical grids whenever `0 ≤ eps`, and true when
one interior cell differs by strictly more than `eps` with all other cells
equal. -/
theorem stateChanged_spec :
    (∀ (oldA newA : Grid) (eps : ℚ), stateChanged oldA newA eps = true ↔
      ∃ i j, (0 < i ∧ i < PLATE_SIZE - 1) ∧ (0 < j ∧ j < PLATE_SIZE - 1) ∧
        |getCell newA i j - getCell oldA i j| > eps) ∧
    (∀ (g : Grid) (eps : ℚ), 0 ≤ eps → stateChanged g g eps = false) ∧
    (∀ (oldA newA : Grid) (eps : ℚ) (i0 j0 : Nat), 0 ≤ eps →
      0 < i0 ∧ i0 < PLATE_SIZE - 1 → 0 < j0 ∧ j0 < PLATE_SIZE - 1 →
      |getCell newA i0 j0 - getCell oldA i0 j0| > eps →
      (∀ i j, ¬(i = i0 ∧ j = j0) → getCell newA i j = getCell oldA i j) →
      stateChanged oldA newA eps = true) := by
  have key : ∀ (oldA newA : Grid) (eps : ℚ), stateChanged oldA newA eps = true ↔
      ∃ i j, (0 < i ∧ i < PLATE_SIZE - 1) ∧ (0 < j ∧ j < PLATE_SIZE - 1) ∧
        |getCell newA i j - getCell oldA i j| > eps := by
    intro oldA newA eps
    rw [stateChanged_iff]
    constructor
    · rintro ⟨i, j, hi, hj, h⟩
      refine ⟨i, j, ?_, ?_, h⟩
      · simp only [PLATE_SIZE] at hi ⊢
        omega
      · simp only [PLATE_SIZE] at hj ⊢
        omega
    · rintro ⟨i, j, hi, hj, h⟩
      refine ⟨i, j, ?_, ?_, h⟩
      · simp only [PLATE_SIZE] at hi ⊢
        omega
      · simp only [PLATE_SIZE] at hj ⊢
        omega
  refine ⟨key, fun g eps heps => ?_, fun oldA newA eps i0 j0 _ hi0 hj0 hdiff _ => ?_⟩
  · rw [← Bool.not_eq_true, key]
    rintro ⟨i, j, _, _, h⟩
    simp at h
    exact absurd (lt_of_le_of_lt heps h) (lt_irrefl 0)
  · exact (key oldA newA eps).mpr ⟨i0, j0, hi0, hj0, hdiff⟩

set_option maxRecDepth 4000 in
/-- Witness for C2 at concrete inputs: no change is reported between the
initial plate and itself at epsilon 0, and a change is reported after
bumping the single interior cell (1,1) by 5 at epsilon 1/10. -/
theorem stateChanged_spec_witness :
    stateChanged initPlate initPlate 0 = false ∧
    stateChanged initPlate (setCell initPlate 1 1 5) (1/10) = true :=
  ⟨stateChanged_spec.2.1 initPlate 0 (by norm_num),
   stateChanged_spec.2.2 initPlate (setCell initPlate 1 1 5) (1/10) 1 1
     (by norm_num) (by decide) (by decide) (by decide)
     (fun i j h => by
        rw [getCell_setCell initPlate 1 1 5 (by decide) (by decide) (by decide) i j,
          if_neg h])⟩

/-! ### Claim C4: the values produced by InitPlate -/

/-- C4: `InitPlate`, run on an array with any prior (well-formed)
contents, produces a grid whose top and bottom rows hold `INITIAL_TEMP`
(100) except at the four corners, every other cell — corners, interior,
and the left and right border columns — holding 0. -/
theorem initPlate_values (g : Grid) (hg : WFGrid g) :
    ∀ i < PLATE_SIZE, ∀ j < PLATE_SIZE,
      getCell (initPlateLoop g) i j =
        if (i = 0 ∨ i = PLATE_SIZE - 1) ∧ 0 < j ∧ j < PLATE_SIZE - 1 then
          INITIAL_TEMP
        else 0 := by
  intro i hi j hj
  exact initPlateLoop_cell g hg i j hi hj

/-- Witness for C4 on the concrete run of `main`: in `initPlate` the
top-row cell (0,1) holds 100, the corner (0,0) holds 0, the left-border
cell (4,0) holds 0 and the interior cell (5,5) holds 0. -/
theorem initPlate_values_witness :
    getCell initPlate 0 1 = INITIAL_TEMP ∧ getCell initPlate 0 0 = 0 ∧
    getCell initPlate 4 0 = 0 ∧ getCell initPlate 5 5 = 0 :=
  ⟨(initPlate_values blankGrid (by decide) 0 (by decide) 1 (by decide)).trans
      (by decide),
   (initPlate_values blankGrid (by decide) 0 (by decide) 0 (by decide)).trans
      (by decide),
   (initPlate_values blankGrid (by decide) 4 (by decide) 0 (by decide)).trans
      (by decide),
   (initPlate_values blankGrid (by decide) 5 (by decide) 5 (by decide)).trans
      (by decide)⟩

/-! ### Claim C6: a uniform grid is a fixed point of the relaxation step -/

/-- C6: applying `UpdateTemps` to a (well-formed) grid all of whose cells
hold the same constant `c`, with the grid itself as the output buffer,
returns the grid unchanged. -/
theorem WFGrid_updateTemps (input output : Grid) (h : WFGrid output) :
    WFGrid (updateTemps input output) := by
  unfold updateTemps
  exact WFGrid_forEachCell _ _ _ output h

theorem uniform_grid_fixed_point (g : Grid) (c : ℚ) (hg : WFGrid g)
    (hc : ∀ i < PLATE_SIZE, ∀ j < PLATE_SIZE, getCell g i j = c) :
    updateTemps g g = g := by
  apply grid_ext (updateTemps g g) g (WFGrid_updateTemps g g hg) hg
  intro i hi j hj
  rw [updateTemps_cell g g hg i j]
  split_ifs with h
  · have hP : (10:Nat) = PLATE_SIZE := rfl
    simp only [PLATE_SIZE] at h
    rw [hc (i - 1) (by omega) j (by omega), hc i (by omega) (j - 1) (by omega),
      hc i (by omega) (j + 1) (by omega), hc (i + 1) (by omega) j (by omega),
      hc i hi j hj]
    ring
  · rfl

/-- Witness for C6: the all-fives 10×10 grid is untouched by one
relaxation step. -/
theorem uniform_grid_fixed_point_witness :
    updateTemps (List.replicate PLATE_SIZE (List.replicate PLATE_SIZE (5:ℚ)))
        (List.replicate PLATE_SIZE (List.replicate PLATE_SIZE (5:ℚ))) =
      List.replicate PLATE_SIZE (List.replicate PLATE_SIZE (5:ℚ)) :=
  uniform_grid_fixed_point _ 5 (by decide) (by decide)

/-! ### Claim C7: concrete cells after the first relaxation step -/

set_option maxRecDepth 40000 in
/-- C7: starting from the initialized 10×10 plate, one application of
`UpdateTemps` yields 25 = (100 + 0 + 0 + 0)/4 at the interior cells (1,1)
and (1,5); `newAfterFirst` is exactly the plate after the single update at
main.cpp line 36. -/
theorem first_update_cells :
    getCell newAfterFirst 1 1 = (100 + 0 + 0 + 0) / 4 ∧
    getCell newAfterFirst 1 5 = (100 + 0 + 0 + 0) / 4 := by
  constructor
  · decide
  · decide

/-! ### Correctness of the fast evaluator -/

theorem list_any_congr {α : Type} {f g : α → Bool} :
    ∀ {l : List α}, (∀ x ∈ l, f x = g x) → l.any f = l.any g
  | [], _ => rfl
  | a :: t, h => by
    rw [List.any_cons, List.any_cons, h a (List.mem_cons_self ..),
      list_any_congr (fun x hx => h x (List.mem_cons_of_mem _ hx))]

theorem transferValues_eq_src (src dst : Grid) (hs : WFGrid src) (hd : WFGrid dst) :
    transferValues src dst = src := by
  apply grid_ext (transferValues src dst) src
    (by unfold transferValues; exact WFGrid_forEachCell _ _ _ dst hd) hs
  intro i hi j hj
  rw [transferValues_cell src dst hd i j, if_pos ⟨hi, hj⟩]

theorem zStep_cell (z : List ℤ) (i j : Nat) (hi : i < PLATE_SIZE) (hj : j < PLATE_SIZE) :
    zCell (zStep z) i j =
      if 1 ≤ i ∧ i ≤ 8 ∧ 1 ≤ j ∧ j ≤ 8 then
        zCell z (i - 1) j + zCell z i (j - 1) + zCell z i (j + 1) + zCell z (i + 1) j
      else 4 * zCell z i j := by
  simp only [PLATE_SIZE] at hi hj
  have hidx : i * 10 + j < 100 := by omega
  show (zStep z).getD (i * PLATE_SIZE + j) 0 = _
  unfold zStep
  rw [List.getD_eq_getElem _ _ (by simpa [PLATE_SIZE] using hidx)]
  rw [List.getElem_map, List.getElem_range]
  have h1 : (i * PLATE_SIZE + j) / PLATE_SIZE = i := by
    simp only [PLATE_SIZE]
    omega
  have h2 : (i * PLATE_SIZE + j) % PLATE_SIZE = j := by
    simp only [PLATE_SIZE]
    omega
  simp only [h1, h2]

theorem scaled_abs_iff (a b S : ℤ) (hS : 0 < S) :
    (|(a : ℚ) / ((4 * S : ℤ) : ℚ) - (b : ℚ) / ((S : ℤ) : ℚ)| > 1/10) ↔
      (10 * (((a - 4 * b).natAbs : ℤ)) > 4 * S) := by
  rw [Int.natCast_natAbs]
  have hSQ : (0 : ℚ) < (S : ℚ) := by exact_mod_cast hS
  have h4SZ : (0 : ℤ) < 4 * S := by omega
  have h4S : (0 : ℚ) < ((4 * S : ℤ) : ℚ) := by exact_mod_cast h4SZ
  have key : (a : ℚ) / ((4 * S : ℤ) : ℚ) - (b : ℚ) / ((S : ℤ) : ℚ) =
      ((a - 4 * b : ℤ) : ℚ) / ((4 * S : ℤ) : ℚ) := by
    push_cast
    field_simp
    ring
  rw [key, abs_div, abs_of_pos h4S, gt_iff_lt, div_lt_div_iff₀ (by norm_num) h4S,
    one_mul, ← Int.cast_abs]
  constructor
  · intro h
    have h' : (4 * S : ℤ) < |a - 4 * b| * 10 := by exact_mod_cast h
    omega
  · intro h
    have h' : (4 * S : ℤ) < |a - 4 * b| * 10 := by omega
    exact_mod_cast h'

theorem updateTemps_zStep (g : Grid) (z : List ℤ) (S : ℤ) (hg : WFGrid g)
    (hS : 0 < S)
    (hrel : ∀ i < PLATE_SIZE, ∀ j < PLATE_SIZE,
      getCell g i j = (zCell z i j : ℚ) / ((S : ℤ) : ℚ)) :
    ∀ i < PLATE_SIZE, ∀ j < PLATE_SIZE,
      getCell (updateTemps g g) i j =
        (zCell (zStep z) i j : ℚ) / ((4 * S : ℤ) : ℚ) := by
  have hSQ : ((S : ℤ) : ℚ) ≠ 0 := by
    exact_mod_cast hS.ne'
  intro i hi j hj
  rw [updateTemps_cell g g hg i j, zStep_cell z i j hi hj]
  have hiff : ((1 ≤ i ∧ i ≤ PLATE_SIZE - 2) ∧ 1 ≤ j ∧ j ≤ PLATE_SIZE - 2) ↔
      (1 ≤ i ∧ i ≤ 8 ∧ 1 ≤ j ∧ j ≤ 8) := by
    simp only [PLATE_SIZE]
    omega
  by_cases h : 1 ≤ i ∧ i ≤ 8 ∧ 1 ≤ j ∧ j ≤ 8
  · rw [if_pos (hiff.mpr h), if_pos h]
    simp only [PLATE_SIZE] at hi hj
    rw [hrel (i - 1) (by simp only [PLATE_SIZE]; omega) j (by simp only [PLATE_SIZE]; omega),
      hrel i (by simp only [PLATE_SIZE]; omega) (j - 1) (by simp only [PLATE_SIZE]; omega),
      hrel i (by simp only [PLATE_SIZE]; omega) (j + 1) (by simp only [PLATE_SIZE]; omega),
      hrel (i + 1) (by simp only [PLATE_SIZE]; omega) j (by simp only [PLATE_SIZE]; omega)]
    push_cast
    rw [div_add_div_same, div_add_div_same, div_add_div_same, div_div]
    ring_nf
  · rw [if_neg (fun hc => h (hiff.mp hc)), if_neg h]
    rw [hrel i hi j hj]
    push_cast
    rw [mul_comm (4 : ℚ) ((S : ℤ) : ℚ)]
    rw [mul_comm (4 : ℚ) (zCell z i j : ℚ)]
    rw [mul_div_mul_right _ _ (by norm_num : (4 : ℚ) ≠ 0)]

theorem stateChanged_zChanged (g : Grid) (z : List ℤ) (S : ℤ) (hg : WFGrid g)
    (hS : 0 < S)
    (hrel : ∀ i < PLATE_SIZE, ∀ j < PLATE_SIZE,
      getCell g i j = (zCell z i j : ℚ) / ((S : ℤ) : ℚ)) :
    stateChanged g (updateTemps g g) HEAT_EPSILON = zChanged z (zStep z) (4 * S) := by
  have hrel' := updateTemps_zStep g z S hg hS hrel
  unfold stateChanged zChanged
  refine list_any_congr (fun i hti => list_any_congr (fun j htj => ?_))
  rw [List.mem_range'_1] at hti htj
  have hi : i < PLATE_SIZE := by
    simp only [PLATE_SIZE] at hti ⊢
    omega
  have hj : j < PLATE_SIZE := by
    simp only [PLATE_SIZE] at htj ⊢
    omega
  have e1 := hrel' i hi j hj
  have e2 := hrel i hi j hj
  rw [e1, e2]
  rw [decide_eq_decide]
  show _ > HEAT_EPSILON ↔ _
  unfold HEAT_EPSILON
  exact scaled_abs_iff (zCell (zStep z) i j) (zCell z i j) S hS

theorem driverLoop_zLoop : ∀ (fuel : Nat) (g : Grid) (z : List ℤ) (S : ℤ) (count : Nat),
    WFGrid g → 0 < S →
    (∀ i < PLATE_SIZE, ∀ j < PLATE_SIZE,
      getCell g i j = (zCell z i j : ℚ) / ((S : ℤ) : ℚ)) →
    (driverLoop g g count fuel).2.2 = zLoop z S count fuel
  | 0, g, z, S, count, _, _, _ => rfl
  | fuel + 1, g, z, S, count, hg, hS, hrel => by
    have hgnew : WFGrid (updateTemps g g) := WFGrid_updateTemps g g hg
    have hsc := stateChanged_zChanged g z S hg hS hrel
    have hrel' := updateTemps_zStep g z S hg hS hrel
    simp only [driverLoop, zLoop]
    rw [transferValues_eq_src (updateTemps g g) g hgnew hg, hsc]
    by_cases hcond : (!zChanged z (zStep z) (4 * S)) = false ∧
        count + 1 < ITERATION_LIMIT
    · rw [if_pos hcond, if_pos hcond]
      exact driverLoop_zLoop fuel (updateTemps g g) (zStep z) (4 * S) (count + 1)
        hgnew (by omega) hrel'
    · rw [if_neg hcond, if_neg hcond]

/-! ### Certified evaluation of the integer loop.

One lemma per loop body keeps each kernel check small: `zRun{k}` certifies
iteration `k` (a `zStep` evaluation plus a `zChanged` test), and
`zLoop_result` chains them: the loop leaves at count 63 with the steady
flag set. -/

theorem zLoop_cont (z z' : List ℤ) (S S' : ℤ) (count count' fuel fuel' : Nat)
    (hfuel : fuel = fuel' + 1) (hS' : S' = 4 * S) (hcount' : count' = count + 1)
    (hstep : zStep z = z') (hch : zChanged z z' S' = true)
    (hcount : count' < ITERATION_LIMIT) :
    zLoop z S count fuel = zLoop z' S' count' fuel' := by
  subst hfuel hS' hcount'
  simp only [zLoop]
  rw [hstep, hch]
  simp [hcount]

theorem zLoop_stop (z z' : List ℤ) (S S' : ℤ) (count count' fuel fuel' : Nat)
    (hfuel : fuel = fuel' + 1) (hS' : S' = 4 * S) (hcount' : count' = count + 1)
    (hstep : zStep z = z') (hch : zChanged z z' S' = false) :
    zLoop z S count fuel = (count', true) := by
  subst hfuel hS' hcount'
  simp only [zLoop]
  rw [hstep, hch]
  simp
set_option maxRecDepth 100000 in
theorem zRun1 : zLoop zInit 4 1 999999 = zLoop zState2 16 2 999998 :=
  zLoop_cont zInit zState2 4 16 1 2 999999 999998 rfl (by norm_num) rfl (by decide) (by decide) (by decide)
set_option maxRecDepth 100000 in
theorem zRun2 : zLoop zState2 16 2 999998 = zLoop zState3 64 3 999997 :=
  zLoop_cont zState2 zState3 16 64 2 3 999998 999997 rfl (by norm_num) rfl (by decide) (by decide) (by decide)
set_option maxRecDepth 100000 in
theorem zRun3 : zLoop zState3 64 3 999997 = zLoop zState4 256 4 999996 :=
  zLoop_cont zState3 zState4 64 256 3 4 999997 999996 rfl (by norm_num) rfl (by decide) (by decide) (by decide)
set_option maxRecDepth 100000 in
theorem zRun4 : zLoop zState4 256 4 999996 = zLoop zState5 1024 5 999995 :=
  zLoop_cont zState4 zState5 256 1024 4 5 999996 999995 rfl (by norm_num) rfl (by decide) (by decide) (by decide)
set_option maxRecDepth 100000 in
theorem zRun5 : zLoop zState5 1024 5 999995 = zLoop zState6 4096 6 999994 :=
  zLoop_cont zState5 zState6 1024 4096 5 6 999995 999994 rfl (by norm_num) rfl (by decide) (by decide) (by decide)
set_option maxRecDepth 100000 in
theorem zRun6 : zLoop zState6 4096 6 999994 = zLoop zState7 16384 7 999993 :=
  zLoop_cont zState6 zState7 4096 16384 6 7 999994 999993 rfl (by norm_num) rfl (by decide) (by decide) (by decide)
set_option maxRecDepth 100000 in
theorem zRun7 : zLoop zState7 16384 7 999993 = zLoop zState8 65536 8 999992 :=
  zLoop_cont zState7 zState8 16384 65536 7 8 999993 999992 rfl (by norm_num) rfl (by decide) (by decide) (by decide)
set_option maxRecDepth 100000 in
theorem zRun8 : zLoop zState8 65536 8 999992 = zLoop zState9 262144 9 999991 :=
  zLoop_cont zState8 zState9 65536 262144 8 9 999992 999991 rfl (by norm_num) rfl (by decide) (by decide) (by decide)
set_option maxRecDepth 100000 in
theorem zRun9 : zLoop zState9 262144 9 999991 = zLoop zState10 1048576 10 999990 :=
  zLoop_cont zState9 zState10 262144 1048576 9 10 999991 999990 rfl (by norm_num) rfl (by decide) (by decide) (by decide)
set_option maxRecDepth 100000 in
theorem zRun10 : zLoop zState10 1048576 10 999990 = zLoop zState11 4194304 11 999989 :=
  zLoop_cont zState10 zState11 1048576 4194304 10 11 999990 999989 rfl (by norm_num) rfl (by decide) (by decide) (by decide)
set_option maxRecDepth 100000 in
theorem zRun11 : zLoop zState11 4194304 11 999989 = zLoop zState12 16777216 12 999988 :=
  zLoop_cont zState11 zState12 4194304 16777216 11 12 999989 999988 rfl (by norm_num) rfl (by decide) (by decide) (by decide)
set_option maxRecDepth 100000 in
theorem zRun12 : zLoop zState12 16777216 12 999988 = zLoop zState13 67108864 13 999987 :=
  zLoop_cont zState12 zState13 16777216 67108864 12 13 999988 999987 rfl (by norm_num) rfl (by decide) (by decide) (by decide)
set_option maxRecDepth 100000 in
theorem zRun13 : zLoop zState13 67108864 13 999987 = zLoop zState14 268435456 14 999986 :=
  zLoop_cont zState13 zState14 67108864 268435456 13 14 999987 999986 rfl (by norm_num) rfl (by decide) (by decide) (by decide)
set_option maxRecDepth 100000 in
theorem zRun14 : zLoop zState14 268435456 14 999986 = zLoop zState15 1073741824 15 999985 :=
  zLoop_cont zState14 zState15 268435456 1073741824 14 15 999986 999985 rfl (by norm_num) rfl (by decide) (by decide) (by decide)
set_option maxRecDepth 100000 in
theorem zRun15 : zLoop zState15 1073741824 15 999985 = zLoop zState16 4294967296 16 999984 :=
  zLoop_cont zState15 zState16 1073741824 4294967296 15 16 999985 999984 rfl (by norm_num) rfl (by decide) (by decide) (by decide)
set_option maxRecDepth 100000 in
theorem zRun16 : zLoop zState16 4294967296 16 999984 = zLoop zState17 17179869184 17 999983 :=
  zLoop_cont zState16 zState17 4294967296 17179869184 16 17 999984 999983 rfl (by norm_num) rfl (by decide) (by decide) (by decide)
set_option maxRecDepth 100000 in
theorem zRun17 : zLoop zState17 17179869184 17 999983 = zLoop zState18 68719476736 18 999982 :=
  zLoop_cont zState17 zState18 17179869184 68719476736 17 18 999983 999982 rfl (by norm_num) rfl (by decide) (by decide) (by decide)
set_option maxRecDepth 100000 in
theorem zRun18 : zLoop zState18 68719476736 18 999982 = zLoop zState19 274877906944 19 999981 :=
  zLoop_cont zState18 zState19 68719476736 274877906944 18 19 999982 999981 rfl (by norm_num) rfl (by decide) (by decide) (by decide)
set_option maxRecDepth 100000 in
theorem zRun19 : zLoop zState19 274877906944 19 999981 = zLoop zState20 1099511627776 20 999980 :=
  zLoop_cont zState19 zState20 274877906944 1099511627776 19 20 999981 999980 rfl (by norm_num) rfl (by decide) (by decide) (by decide)
set_option maxRecDepth 100000 in
theorem zRun20 : zLoop zState20 1099511627776 20 999980 = zLoop zState21 4398046511104 21 999979 :=
  zLoop_cont zState20 zState21 1099511627776 4398046511104 20 21 999980 999979 rfl (by norm_num) rfl (by decide) (by decide) (by decide)
set_option maxRecDepth 100000 in
theorem zRun21 : zLoop zState21 4398046511104 21 999979 = zLoop zState22 17592186044416 22 999978 :=
  zLoop_cont zState21 zState22 4398046511104 17592186044416 21 22 999979 999978 rfl (by norm_num) rfl (by decide) (by decide) (by decide)
set_option maxRecDepth 100000 in
theorem zRun22 : zLoop zState22 17592186044416 22 999978 = zLoop zState23 70368744177664 23 999977 :=
  zLoop_cont zState22 zState23 17592186044416 70368744177664 22 23 999978 999977 rfl (by norm_num) rfl (by decide) (by decide) (by decide)
set_option maxRecDepth 100000 in
theorem zRun23 : zLoop zState23 70368744177664 23 999977 = zLoop zState24 281474976710656 24 999976 :=
  zLoop_cont zState23 zState24 70368744177664 281474976710656 23 24 999977 999976 rfl (by norm_num) rfl (by decide) (by decide) (by decide)
set_option maxRecDepth 100000 in
theorem zRun24 : zLoop zState24 281474976710656 24 999976 = zLoop zState25 1125899906842624 25 999975 :=
  zLoop_cont zState24 zState25 281474976710656 1125899906842624 24 25 999976 999975 rfl (by norm_num) rfl (by decide) (by decide) (by decide)
set_option maxRecDepth 100000 in
theorem zRun25 : zLoop zState25 1125899906842624 25 999975 = zLoop zState26 4503599627370496 26 999974 :=
  zLoop_cont zState25 zState26 1125899906842624 4503599627370496 25 26 999975 999974 rfl (by norm_num) rfl (by decide) (by decide) (by decide)
set_option maxRecDepth 100000 in
theorem zRun26 : zLoop zState26 4503599627370496 26 999974 = zLoop zState27 18014398509481984 27 999973 :=
  zLoop_cont zState26 zState27 4503599627370496 18014398509481984 26 27 999974 999973 rfl (by norm_num) rfl (by decide) (by decide) (by decide)
set_option maxRecDepth 100000 in
theorem zRun27 : zLoop zState27 18014398509481984 27 999973 = zLoop zState28 72057594037927936 28 999972 :=
  zLoop_cont zState27 zState28 18014398509481984 72057594037927936 27 28 999973 999972 rfl (by norm_num) rfl (by decide) (by decide) (by decide)
set_option maxRecDepth 100000 in
theorem zRun28 : zLoop zState28 72057594037927936 28 999972 = zLoop zState29 288230376151711744 29 999971 :=
  zLoop_cont zState28 zState29 72057594037927936 288230376151711744 28 29 999972 999971 rfl (by norm_num) rfl (by decide) (by decide) (by decide)
set_option maxRecDepth 100000 in
theorem zRun29 : zLoop zState29 288230376151711744 29 999971 = zLoop zState30 1152921504606846976 30 999970 :=
  zLoop_cont zState29 zState30 288230376151711744 1152921504606846976 29 30 999971 999970 rfl (by norm_num) rfl (by decide) (by decide) (by decide)
set_option maxRecDepth 100000 in
theorem zRun30 : zLoop zState30 1152921504606846976 30 999970 = zLoop zState31 4611686018427387904 31 999969 :=
  zLoop_cont zState30 zState31 1152921504606846976 4611686018427387904 30 31 999970 999969 rfl (by norm_num) rfl (by decide) (by decide) (by decide)
set_option maxRecDepth 100000 in
theorem zRun31 : zLoop zState31 4611686018427387904 31 999969 = zLoop zState32 18446744073709551616 32 999968 :=
  zLoop_cont zState31 zState32 4611686018427387904 18446744073709551616 31 32 999969 999968 rfl (by norm_num) rfl (by decide) (by decide) (by decide)
set_option maxRecDepth 100000 in
theorem zRun32 : zLoop zState32 18446744073709551616 32 999968 = zLoop zState33 73786976294838206464 33 999967 :=
  zLoop_cont zState32 zState33 18446744073709551616 73786976294838206464 32 33 999968 999967 rfl (by norm_num) rfl (by decide) (by decide) (by decide)
set_option maxRecDepth 100000 in
theorem zRun33 : zLoop zState33 73786976294838206464 33 999967 = zLoop zState34 295147905179352825856 34 999966 :=
  zLoop_cont zState33 zState34 73786976294838206464 295147905179352825856 33 34 999967 999966 rfl (by norm_num) rfl (by decide) (by decide) (by decide)
set_option maxRecDepth 100000 in
theorem zRun34 : zLoop zState34 295147905179352825856 34 999966 = zLoop zState35 1180591620717411303424 35 999965 :=
  zLoop_cont zState34 zState35 295147905179352825856 1180591620717411303424 34 35 999966 999965 rfl (by norm_num) rfl (by decide) (by decide) (by decide)
set_option maxRecDepth 100000 in
theorem zRun35 : zLoop zState35 1180591620717411303424 35 999965 = zLoop zState36 4722366482869645213696 36 999964 :=
  zLoop_cont zState35 zState36 1180591620717411303424 4722366482869645213696 35 36 999965 999964 rfl (by norm_num) rfl (by decide) (by decide) (by decide)
set_option maxRecDepth 100000 in
theorem zRun36 : zLoop zState36 4722366482869645213696 36 999964 = zLoop zState37 18889465931478580854784 37 999963 :=
  zLoop_cont zState36 zState37 4722366482869645213696 18889465931478580854784 36 37 999964 999963 rfl (by norm_num) rfl (by decide) (by decide) (by decide)
set_option maxRecDepth 100000 in
theorem zRun37 : zLoop zState37 18889465931478580854784 37 999963 = zLoop zState38 75557863725914323419136 38 999962 :=
  zLoop_cont zState37 zState38 18889465931478580854784 75557863725914323419136 37 38 999963 999962 rfl (by norm_num) rfl (by decide) (by decide) (by decide)
set_option maxRecDepth 100000 in
theorem zRun38 : zLoop zState38 75557863725914323419136 38 999962 = zLoop zState39 302231454903657293676544 39 999961 :=
  zLoop_cont zState38 zState39 75557863725914323419136 302231454903657293676544 38 39 999962 999961 rfl (by norm_num) rfl (by decide) (by decide) (by decide)
set_option maxRecDepth 100000 in
theorem zRun39 : zLoop zState39 302231454903657293676544 39 999961 = zLoop zState40 1208925819614629174706176 40 999960 :=
  zLoop_cont zState39 zState40 302231454903657293676544 1208925819614629174706176 39 40 999961 999960 rfl (by norm_num) rfl (by decide) (by decide) (by decide)
set_option maxRecDepth 100000 in
theorem zRun40 : zLoop zState40 1208925819614629174706176 40 999960 = zLoop zState41 4835703278458516698824704 41 999959 :=
  zLoop_cont zState40 zState41 1208925819614629174706176 4835703278458516698824704 40 41 999960 999959 rfl (by norm_num) rfl (by decide) (by decide) (by decide)
set_option maxRecDepth 100000 in
theorem zRun41 : zLoop zState41 4835703278458516698824704 41 999959 = zLoop zState42 19342813113834066795298816 42 999958 :=
  zLoop_cont zState41 zState42 4835703278458516698824704 19342813113834066795298816 41 42 999959 999958 rfl (by norm_num) rfl (by decide) (by decide) (by decide)
set_option maxRecDepth 100000 in
theorem zRun42 : zLoop zState42 19342813113834066795298816 42 999958 = zLoop zState43 77371252455336267181195264 43 999957 :=
  zLoop_cont zState42 zState43 19342813113834066795298816 77371252455336267181195264 42 43 999958 999957 rfl (by norm_num) rfl (by decide) (by decide) (by decide)
set_option maxRecDepth 100000 in
theorem zRun43 : zLoop zState43 77371252455336267181195264 43 999957 = zLoop zState44 309485009821345068724781056 44 999956 :=
  zLoop_cont zState43 zState44 77371252455336267181195264 309485009821345068724781056 43 44 999957 999956 rfl (by norm_num) rfl (by decide) (by decide) (by decide)
set_option maxRecDepth 100000 in
theorem zRun44 : zLoop zState44 309485009821345068724781056 44 999956 = zLoop zState45 1237940039285380274899124224 45 999955 :=
  zLoop_cont zState44 zState45 309485009821345068724781056 1237940039285380274899124224 44 45 999956 999955 rfl (by norm_num) rfl (by decide) (by decide) (by decide)
set_option maxRecDepth 100000 in
theorem zRun45 : zLoop zState45 1237940039285380274899124224 45 999955 = zLoop zState46 4951760157141521099596496896 46 999954 :=
  zLoop_cont zState45 zState46 1237940039285380274899124224 4951760157141521099596496896 45 46 999955 999954 rfl (by norm_num) rfl (by decide) (by decide) (by decide)
set_option maxRecDepth 100000 in
theorem zRun46 : zLoop zState46 4951760157141521099596496896 46 999954 = zLoop zState47 19807040628566084398385987584 47 999953 :=
  zLoop_cont zState46 zState47 4951760157141521099596496896 19807040628566084398385987584 46 47 999954 999953 rfl (by norm_num) rfl (by decide) (by decide) (by decide)
set_option maxRecDepth 100000 in
theorem zRun47 : zLoop zState47 19807040628566084398385987584 47 999953 = zLoop zState48 79228162514264337593543950336 48 999952 :=
  zLoop_cont zState47 zState48 19807040628566084398385987584 79228162514264337593543950336 47 48 999953 999952 rfl (by norm_num) rfl (by decide) (by decide) (by decide)
set_option maxRecDepth 100000 in
theorem zRun48 : zLoop zState48 79228162514264337593543950336 48 999952 = zLoop zState49 316912650057057350374175801344 49 999951 :=
  zLoop_cont zState48 zState49 79228162514264337593543950336 316912650057057350374175801344 48 49 999952 999951 rfl (by norm_num) rfl (by decide) (by decide) (by decide)
set_option maxRecDepth 100000 in
theorem zRun49 : zLoop zState49 316912650057057350374175801344 49 999951 = zLoop zState50 1267650600228229401496703205376 50 999950 :=
  zLoop_cont zState49 zState50 316912650057057350374175801344 1267650600228229401496703205376 49 50 999951 999950 rfl (by norm_num) rfl (by decide) (by decide) (by decide)
set_option maxRecDepth 100000 in
theorem zRun50 : zLoop zState50 1267650600228229401496703205376 50 999950 = zLoop zState51 5070602400912917605986812821504 51 999949 :=
  zLoop_cont zState50 zState51 1267650600228229401496703205376 5070602400912917605986812821504 50 51 999950 999949 rfl (by norm_num) rfl (by decide) (by decide) (by decide)
set_option maxRecDepth 100000 in
theorem zRun51 : zLoop zState51 5070602400912917605986812821504 51 999949 = zLoop zState52 20282409603651670423947251286016 52 999948 :=
  zLoop_cont zState51 zState52 5070602400912917605986812821504 20282409603651670423947251286016 51 52 999949 999948 rfl (by norm_num) rfl (by decide) (by decide) (by decide)
set_option maxRecDepth 100000 in
theorem zRun52 : zLoop zState52 20282409603651670423947251286016 52 999948 = zLoop zState53 81129638414606681695789005144064 53 999947 :=
  zLoop_cont zState52 zState53 20282409603651670423947251286016 81129638414606681695789005144064 52 53 999948 999947 rfl (by norm_num) rfl (by decide) (by decide) (by decide)
set_option maxRecDepth 100000 in
theorem zRun53 : zLoop zState53 81129638414606681695789005144064 53 999947 = zLoop zState54 324518553658426726783156020576256 54 999946 :=
  zLoop_cont zState53 zState54 81129638414606681695789005144064 324518553658426726783156020576256 53 54 999947 999946 rfl (by norm_num) rfl (by decide) (by decide) (by decide)
set_option maxRecDepth 100000 in
theorem zRun54 : zLoop zState54 324518553658426726783156020576256 54 999946 = zLoop zState55 1298074214633706907132624082305024 55 999945 :=
  zLoop_cont zState54 zState55 324518553658426726783156020576256 1298074214633706907132624082305024 54 55 999946 999945 rfl (by norm_num) rfl (by decide) (by decide) (by decide)
set_option maxRecDepth 100000 in
theorem zRun55 : zLoop zState55 1298074214633706907132624082305024 55 999945 = zLoop zState56 5192296858534827628530496329220096 56 999944 :=
  zLoop_cont zState55 zState56 1298074214633706907132624082305024 5192296858534827628530496329220096 55 56 999945 999944 rfl (by norm_num) rfl (by decide) (by decide) (by decide)
set_option maxRecDepth 100000 in
theorem zRun56 : zLoop zState56 5192296858534827628530496329220096 56 999944 = zLoop zState57 20769187434139310514121985316880384 57 999943 :=
  zLoop_cont zState56 zState57 5192296858534827628530496329220096 20769187434139310514121985316880384 56 57 999944 999943 rfl (by norm_num) rfl (by decide) (by decide) (by decide)
set_option maxRecDepth 100000 in
theorem zRun57 : zLoop zState57 20769187434139310514121985316880384 57 999943 = zLoop zState58 83076749736557242056487941267521536 58 999942 :=
  zLoop_cont zState57 zState58 20769187434139310514121985316880384 83076749736557242056487941267521536 57 58 999943 999942 rfl (by norm_num) rfl (by decide) (by decide) (by decide)
set_option maxRecDepth 100000 in
theorem zRun58 : zLoop zState58 83076749736557242056487941267521536 58 999942 = zLoop zState59 332306998946228968225951765070086144 59 999941 :=
  zLoop_cont zState58 zState59 83076749736557242056487941267521536 332306998946228968225951765070086144 58 59 999942 999941 rfl (by norm_num) rfl (by decide) (by decide) (by decide)
set_option maxRecDepth 100000 in
theorem zRun59 : zLoop zState59 332306998946228968225951765070086144 59 999941 = zLoop zState60 1329227995784915872903807060280344576 60 999940 :=
  zLoop_cont zState59 zState60 332306998946228968225951765070086144 1329227995784915872903807060280344576 59 60 999941 999940 rfl (by norm_num) rfl (by decide) (by decide) (by decide)
set_option maxRecDepth 100000 in
theorem zRun60 : zLoop zState60 1329227995784915872903807060280344576 60 999940 = zLoop zState61 5316911983139663491615228241121378304 61 999939 :=
  zLoop_cont zState60 zState61 1329227995784915872903807060280344576 5316911983139663491615228241121378304 60 61 999940 999939 rfl (by norm_num) rfl (by decide) (by decide) (by decide)
set_option maxRecDepth 100000 in
theorem zRun61 : zLoop zState61 5316911983139663491615228241121378304 61 999939 = zLoop zState62 21267647932558653966460912964485513216 62 999938 :=
  zLoop_cont zState61 zState62 5316911983139663491615228241121378304 21267647932558653966460912964485513216 61 62 999939 999938 rfl (by norm_num) rfl (by decide) (by decide) (by decide)
set_option maxRecDepth 100000 in
theorem zRun62 : zLoop zState62 21267647932558653966460912964485513216 62 999938 = (63, true) :=
  zLoop_stop zState62 zState63 21267647932558653966460912964485513216 85070591730234615865843651857942052864 62 63 999938 999937 rfl (by norm_num) rfl (by decide) (by decide)

theorem zLoop_result : zLoop zInit 4 1 ITERATION_LIMIT = (63, true) :=
  Eq.trans zRun1 (Eq.trans zRun2 (Eq.trans zRun3 (Eq.trans zRun4 (Eq.trans zRun5 (Eq.trans zRun6 (Eq.trans zRun7 (Eq.trans zRun8 (Eq.trans zRun9 (Eq.trans zRun10 (Eq.trans zRun11 (Eq.trans zRun12 (Eq.trans zRun13 (Eq.trans zRun14 (Eq.trans zRun15 (Eq.trans zRun16 (Eq.trans zRun17 (Eq.trans zRun18 (Eq.trans zRun19 (Eq.trans zRun20 (Eq.trans zRun21 (Eq.trans zRun22 (Eq.trans zRun23 (Eq.trans zRun24 (Eq.trans zRun25 (Eq.trans zRun26 (Eq.trans zRun27 (Eq.trans zRun28 (Eq.trans zRun29 (Eq.trans zRun30 (Eq.trans zRun31 (Eq.trans zRun32 (Eq.trans zRun33 (Eq.trans zRun34 (Eq.trans zRun35 (Eq.trans zRun36 (Eq.trans zRun37 (Eq.trans zRun38 (Eq.trans zRun39 (Eq.trans zRun40 (Eq.trans zRun41 (Eq.trans zRun42 (Eq.trans zRun43 (Eq.trans zRun44 (Eq.trans zRun45 (Eq.trans zRun46 (Eq.trans zRun47 (Eq.trans zRun48 (Eq.trans zRun49 (Eq.trans zRun50 (Eq.trans zRun51 (Eq.trans zRun52 (Eq.trans zRun53 (Eq.trans zRun54 (Eq.trans zRun55 (Eq.trans zRun56 (Eq.trans zRun57 (Eq.trans zRun58 (Eq.trans zRun59 (Eq.trans zRun60 (Eq.trans zRun61 (zRun62)))))))))))))))))))))))))))))))))))))))))))))))))))))))))))))

/-! ### Claim C3: the driver loop terminates, and the fixed configuration
converges before the cap -/

set_option maxRecDepth 1000000 in
set_option maxHeartbeats 40000000 in
/-- C3: from any state, the do-while loop exits with either
`hasReachedSteadyState = true` (Converged) or the iteration counter at
`ITERATION_LIMIT` (the cap); and on the fixed initial configuration of
`main` (10×10 plate, top/bottom rows 100 less corners, epsilon 1/10) it
converges — at iteration 63 — strictly before the cap. -/
theorem driver_terminates_and_converges :
    (∀ (fuel : Nat) (oldG newG : Grid) (count : Nat),
      ITERATION_LIMIT ≤ count + fuel → count < ITERATION_LIMIT →
      (driverLoop oldG newG count fuel).2.2.2 = true ∨
      (driverLoop oldG newG count fuel).2.2.1 = ITERATION_LIMIT) ∧
    steadyResult.2.2.2 = true ∧ steadyResult.2.2.1 < ITERATION_LIMIT := by
  have hWFinit : WFGrid initPlate := by decide
  have hWFnew : WFGrid newAfterFirst := by decide
  have hoa : oldAfterFirst = newAfterFirst :=
    transferValues_eq_src newAfterFirst initPlate hWFnew hWFinit
  have hrel : ∀ i < PLATE_SIZE, ∀ j < PLATE_SIZE,
      getCell newAfterFirst i j = (zCell zInit i j : ℚ) / (((4 : ℤ)) : ℚ) := by decide
  have href := driverLoop_zLoop ITERATION_LIMIT newAfterFirst zInit 4 1
    hWFnew (by norm_num) hrel
  have hz : zLoop zInit 4 1 ITERATION_LIMIT = (63, true) := zLoop_result
  have hsteady : steadyResult.2.2 = (63, true) := by
    unfold steadyResult
    rw [hoa, href, hz]
  refine ⟨driverLoop_exits, congrArg Prod.snd hsteady, ?_⟩
  rw [show steadyResult.2.2.1 = (steadyResult.2.2).1 from rfl, hsteady]
  decide

/-- Witness for C3 instantiating the universal part at a concrete state
one step below the cap. -/
theorem driver_terminates_and_converges_witness :
    (driverLoop initPlate initPlate 999998 1).2.2.2 = true ∨
    (driverLoop initPlate initPlate 999998 1).2.2.1 = ITERATION_LIMIT :=
  driver_terminates_and_converges.1 1 initPlate initPlate 999998
    (by decide) (by decide)

/-! ### Paths through `main`: helper facts proved without evaluating the
simulation (the projections below are all definitional) -/

theorem initPlateFromTxt_none_grid (g : Grid) :
    (initPlateFromTxt none g).2.1 = g := rfl

theorem mainRun_csvFail_exit (it : Option (List ℚ)) :
    (mainRun ⟨false, it⟩).1 = 1 := rfl

theorem mainRun_csvFail_diag (it : Option (List ℚ)) :
    ((mainRun ⟨false, it⟩).2)[8]? = some "Could not open file Hotplate.csv" := rfl

theorem mainRun_csvFail_msg (it : Option (List ℚ)) :
    (mainRun ⟨false, it⟩).2.getLast? = some "Error occurred when writing to CSV" :=
  rfl

theorem mainRun_csvOk_exit (it : Option (List ℚ)) :
    (mainRun ⟨true, it⟩).1 = 0 := rfl

theorem mainRun_txtFail_diag :
    ((mainRun ⟨true, none⟩).2)[8]? = some "Could not open file numFile.txt." := rfl

theorem mainRun_txtFail_header :
    ((mainRun ⟨true, none⟩).2)[9]? =
      some "Printing input plate after 3 updates..." := rfl

set_option maxRecDepth 8000 in
theorem mainRun_txtFail_finalPlate :
    (mainRun ⟨true, none⟩).2.getLast? =
      some (outputPlate (fixedIter DESIRED_ITERATIONS steadyResult.1
        steadyResult.2.1).1) := by
  have hmirror : (mainRun ⟨true, none⟩).2.getLast? =
      some (outputPlate (fixedIter DESIRED_ITERATIONS
        (initPlateFromTxt (Env.inputTxt ⟨true, none⟩)
          (driverLoop oldAfterFirst newAfterFirst 1 ITERATION_LIMIT).1).2.1
        (driverLoop oldAfterFirst newAfterFirst 1 ITERATION_LIMIT).2.1).1) := rfl
  rw [show (Env.inputTxt ⟨true, none⟩) = none from rfl] at hmirror
  rw [← show steadyResult = driverLoop oldAfterFirst newAfterFirst 1 ITERATION_LIMIT
    from rfl] at hmirror
  rw [initPlateFromTxt_none_grid steadyResult.1] at hmirror
  exact hmirror

/-! ### Claim C5: CSV export failure is fatal, normal completion is 0 -/

/-- C5: when `Hotplate.csv` cannot be opened for writing,
`ExportPlateToCSV` prints a diagnostic and returns status 1, and `main`
then prints its own message and exits with status 1; when the export
destination is writable, `main` runs to completion and exits with 0. -/
theorem csv_failure_fatal :
    (∀ g : Grid, (exportPlateToCSV false g).1 = 1 ∧
      (exportPlateToCSV false g).2.1 = ["Could not open file Hotplate.csv"]) ∧
    (∀ env : Env, env.csvOpenOk = false →
      (mainRun env).1 = 1 ∧
      "Could not open file Hotplate.csv" ∈ (mainRun env).2 ∧
      "Error occurred when writing to CSV" ∈ (mainRun env).2) ∧
    (∀ env : Env, env.csvOpenOk = true → (mainRun env).1 = 0) := by
  refine ⟨fun g => ⟨rfl, rfl⟩, fun env h => ?_, fun env h => ?_⟩
  · obtain ⟨co, it⟩ := env
    cases co
    · refine ⟨mainRun_csvFail_exit it, List.getElem?_mem (mainRun_csvFail_diag it), ?_⟩
      have hm := mainRun_csvFail_msg it
      exact List.mem_of_mem_getLast? hm
    · exact absurd h (by simp)
  · obtain ⟨co, it⟩ := env
    cases co
    · exact absurd h (by simp)
    · exact mainRun_csvOk_exit it

/-- Witness for C5: a run whose CSV file cannot be opened exits with 1,
and a run with a writable CSV file exits with 0. -/
theorem csv_failure_fatal_witness :
    (mainRun ⟨false, none⟩).1 = 1 ∧ (mainRun ⟨true, none⟩).1 = 0 :=
  ⟨(csv_failure_fatal.2.1 ⟨false, none⟩ rfl).1,
   csv_failure_fatal.2.2 ⟨true, none⟩ rfl⟩

/-! ### Claim C9: failure to open Inputplate.txt is non-fatal -/

/-- C9: when `Inputplate.txt` cannot be opened, `InitPlateFromTxt` prints
a diagnostic and returns status 1 to its caller; the failure is non-fatal:
`main` (with a writable CSV file) continues, still runs the fixed
3-iteration phase on the grids it holds, still prints the resulting plate
as its final console output, and exits with 0. -/
theorem inputTxt_failure_soft :
    (∀ g : Grid, (initPlateFromTxt none g).1 = 1 ∧
      (initPlateFromTxt none g).2.2 = ["Could not open file numFile.txt."]) ∧
    ((mainRun ⟨true, none⟩).1 = 0 ∧
      "Could not open file numFile.txt." ∈ (mainRun ⟨true, none⟩).2 ∧
      (mainRun ⟨true, none⟩).2.getLast? =
        some (outputPlate (fixedIter DESIRED_ITERATIONS steadyResult.1
          steadyResult.2.1).1)) :=
  ⟨fun _ => ⟨rfl, rfl⟩,
   mainRun_csvOk_exit none,
   List.getElem?_mem mainRun_txtFail_diag,
   mainRun_txtFail_finalPlate⟩

/-- Witness for C9 discharging the hypothesis-free projections at the
concrete failing environment. -/
theorem inputTxt_failure_soft_witness :
    (initPlateFromTxt none initPlate).1 = 1 ∧ (mainRun ⟨true, none⟩).1 = 0 :=
  ⟨(inputTxt_failure_soft.1 initPlate).1, inputTxt_failure_soft.2.1⟩

/-! ### Claim C10: the open-failure path of InitPlateFromTxt writes
nothing -/

/-- C10: when `Inputplate.txt` cannot be opened, `InitPlateFromTxt`
returns before its read loop: the destination grid is returned exactly
unchanged. -/
theorem inputTxt_failure_preserves_grid (g : Grid) :
    (initPlateFromTxt none g).2.1 = g := rfl

/-! ### Rendering: structure of the OutputPlate text -/

theorem row_render (f : Nat → String) (acc : String) :
    (List.range PLATE_SIZE).foldl (fun a j =>
      if j ≠ PLATE_SIZE - 1 then (a ++ f j) ++ "," else a ++ f j) acc =
    acc ++ String.intercalate "," ((List.range PLATE_SIZE).map f) := by
  rw [show List.range PLATE_SIZE = [0, 1, 2, 3, 4, 5, 6, 7, 8, 9] from rfl]
  simp only [PLATE_SIZE, List.foldl_cons, List.foldl_nil, List.map_cons,
    List.map_nil, String.intercalate, String.intercalate.go]
  simp [String.append_assoc]

theorem outputPlate_eq (g : Grid) :
    outputPlate g = String.join ((List.range PLATE_SIZE).map (fun i =>
      String.intercalate "," ((List.range PLATE_SIZE).map (fun j =>
        field (getCell g i j))) ++ "\n")) := by
  simp only [outputPlate]
  simp only [row_render]
  rw [show List.range PLATE_SIZE = [0, 1, 2, 3, 4, 5, 6, 7, 8, 9] from rfl]
  simp only [List.foldl_cons, List.foldl_nil, List.map_cons, List.map_nil,
    String.join]
  simp [String.append_assoc]

set_option maxRecDepth 100000 in
theorem pad3_length_lt : ∀ k < 1000, (pad3 k).length = 3 := by decide

theorem field_length (q : ℚ) :
    (field q).length = max OUTPUT_WIDTH (fmt3 q).length := by
  show (String.mk (List.replicate (OUTPUT_WIDTH - (fmt3 q).length) ' ') ++
      fmt3 q).length = _
  rw [String.length_append]
  show (List.replicate (OUTPUT_WIDTH - (fmt3 q).length) ' ').length + _ = _
  rw [List.length_replicate]
  omega

/-! ### Claim C8 (corrected): the OutputPlate text format -/

set_option maxRecDepth 100000 in
/-- Counterexample to C8 as stated: a field of `OutputPlate` is `setw(9)`
padded, which is only a minimum width — on a grid holding 123456 at (0,0)
the rendered field is "123456.000", 10 characters, not 9. -/
theorem field_width_not_always_nine :
    ¬ (∀ g : Grid, ∀ i < PLATE_SIZE, ∀ j < PLATE_SIZE,
        (field (getCell g i j)).length = OUTPUT_WIDTH) := by
  intro h
  have hb := h (setCell blankGrid 0 0 123456) 0 (by decide) 0 (by decide)
  revert hb
  decide

set_option maxRecDepth 100000 in
/-- C8 (amended): `OutputPlate` renders any grid as 10 newline-terminated
lines of 10 comma-separated fields in row-major order with no comma after
the last field of a row; each field is the `fixed`/3-decimal rendering of
the cell left-padded with spaces to at least 9 characters — exactly 9
whenever the rendered number fits in 9 characters, as it does for every
cell of the all-zeros grid, whose every field is "    0.000"; and the
content written to `Hotplate.csv` is identical to the console rendering of
the same grid. -/
theorem outputPlate_format :
    (∀ g : Grid, outputPlate g = String.join ((List.range PLATE_SIZE).map (fun i =>
        String.intercalate "," ((List.range PLATE_SIZE).map (fun j =>
          field (getCell g i j))) ++ "\n"))) ∧
    (∀ q : ℚ, (field q).length = max OUTPUT_WIDTH (fmt3 q).length) ∧
    (∀ q : ℚ, (fmt3 q).length ≤ OUTPUT_WIDTH → (field q).length = OUTPUT_WIDTH) ∧
    (∀ q : ℚ, ∃ pre : String,
        fmt3 q = pre ++ "." ++ pad3 ((round (q * 1000)).natAbs % 1000) ∧
        (pad3 ((round (q * 1000)).natAbs % 1000)).length = 3) ∧
    (outputPlate blankGrid = String.join (List.replicate PLATE_SIZE
        (String.intercalate "," (List.replicate PLATE_SIZE "    0.000") ++ "\n"))) ∧
    (∀ g : Grid, (exportPlateToCSV true g).2.2 = some (outputPlate g)) := by
  refine ⟨outputPlate_eq, field_length, fun q hq => ?_, fun q => ?_, ?_, fun g => rfl⟩
  · rw [field_length q]
    omega
  · exact ⟨(if round (q * 1000) < 0 then "-" else "") ++
      Nat.repr ((round (q * 1000)).natAbs / 1000), rfl,
      pad3_length_lt _ (Nat.mod_lt _ (by norm_num))⟩
  · decide

/-- Witness for C8 at a concrete value: the zero field renders 9 wide. -/
theorem outputPlate_format_witness : (field (0:ℚ)).length = OUTPUT_WIDTH :=
  outputPlate_format.2.2.1 0 (by decide)
